import Mathlib

/-!
# Texture resources and the windowed presentation surface

A shallow embedding of `texture.cpp` and `d3d11-window.cpp`: the format tables
(`NameOfFormat`, `BitsPerPixel`), the texture resources (`Texture2D`,
`TextureCube`, `Texture3D`) with `Init`, `Release` and `Readback`, the creation
helpers, and the swap chain resize path of `D3D11Window`.

Conventions of the embedding.
* A C `int` is an `Int`; where the source converts or multiplies machine
  integers the 32-bit wrap is written out (`uint`, `wrapInt`).
* A `comptr<T>` is an `Option T`; `none` is the null pointer.
* A failed `ASSERT_ERR` or `CHECK_D3D` ends the function with an error.
* The Direct3D device is an explicit state (`ID3D11Device`); every object it
  creates gets a fresh identity.
-/

namespace Framework

/-! ## Machine integers -/

/-- Conversion of an integer value to the 32-bit unsigned type (`uint(x)`, `UINT(x)`). -/
def uint (n : Int) : Nat := (n % 4294967296).toNat

/-- Result of 32-bit signed arithmetic: the value wrapped into `[-2^31, 2^31)`. -/
def wrapInt (n : Int) : Int := (n + 2147483648) % 4294967296 - 2147483648

/-- Conversion of a signed value to `size_t` (64 bits). -/
def size_t (n : Int) : Nat := (n % 18446744073709551616).toNat

/-- Array read `xs[i]` with a signed index; `none` is a read outside the array. -/
def arrayRead {α : Type} (xs : List α) (i : Int) : Option α :=
  if i < 0 then none else xs.get? i.toNat

/-- Number of elements of a static array (`dim(a)`). -/
def dim {α : Type} (xs : List α) : Nat := xs.length

/-! ## Pixel formats -/

/-- A `DXGI_FORMAT` value: an enumeration carried in a 32-bit signed integer. -/
structure DXGI_FORMAT where
  val : Int
  inRange : -2147483648 ≤ val ∧ val < 2147483648
deriving DecidableEq

def DXGI_FORMAT_UNKNOWN : DXGI_FORMAT := ⟨0, by decide⟩
def DXGI_FORMAT_R16G16B16A16_FLOAT : DXGI_FORMAT := ⟨10, by decide⟩
def DXGI_FORMAT_R8G8B8A8_UNORM : DXGI_FORMAT := ⟨28, by decide⟩
def DXGI_FORMAT_R8G8B8A8_UNORM_SRGB : DXGI_FORMAT := ⟨29, by decide⟩
def DXGI_FORMAT_R32_TYPELESS : DXGI_FORMAT := ⟨39, by decide⟩
def DXGI_FORMAT_D32_FLOAT : DXGI_FORMAT := ⟨40, by decide⟩
def DXGI_FORMAT_R32_FLOAT : DXGI_FORMAT := ⟨41, by decide⟩
def DXGI_FORMAT_R8G8_UNORM : DXGI_FORMAT := ⟨49, by decide⟩
def DXGI_FORMAT_R8_UNORM : DXGI_FORMAT := ⟨61, by decide⟩
def DXGI_FORMAT_R1_UNORM : DXGI_FORMAT := ⟨66, by decide⟩
def DXGI_FORMAT_B4G4R4A4_UNORM : DXGI_FORMAT := ⟨115, by decide⟩

/-- The table `s_names` of `NameOfFormat`. -/
def s_names : List String :=
  [ "UNKNOWN", "R32G32B32A32_TYPELESS", "R32G32B32A32_FLOAT", "R32G32B32A32_UINT",
    "R32G32B32A32_SINT", "R32G32B32_TYPELESS", "R32G32B32_FLOAT", "R32G32B32_UINT",
    "R32G32B32_SINT", "R16G16B16A16_TYPELESS", "R16G16B16A16_FLOAT", "R16G16B16A16_UNORM",
    "R16G16B16A16_UINT", "R16G16B16A16_SNORM", "R16G16B16A16_SINT", "R32G32_TYPELESS",
    "R32G32_FLOAT", "R32G32_UINT", "R32G32_SINT", "R32G8X24_TYPELESS",
    "D32_FLOAT_S8X24_UINT", "R32_FLOAT_X8X24_TYPELESS", "X32_TYPELESS_G8X24_UINT", "R10G10B10A2_TYPELESS",
    "R10G10B10A2_UNORM", "R10G10B10A2_UINT", "R11G11B10_FLOAT", "R8G8B8A8_TYPELESS",
    "R8G8B8A8_UNORM", "R8G8B8A8_UNORM_SRGB", "R8G8B8A8_UINT", "R8G8B8A8_SNORM",
    "R8G8B8A8_SINT", "R16G16_TYPELESS", "R16G16_FLOAT", "R16G16_UNORM",
    "R16G16_UINT", "R16G16_SNORM", "R16G16_SINT", "R32_TYPELESS",
    "D32_FLOAT", "R32_FLOAT", "R32_UINT", "R32_SINT",
    "R24G8_TYPELESS", "D24_UNORM_S8_UINT", "R24_UNORM_X8_TYPELESS", "X24_TYPELESS_G8_UINT",
    "R8G8_TYPELESS", "R8G8_UNORM", "R8G8_UINT", "R8G8_SNORM",
    "R8G8_SINT", "R16_TYPELESS", "R16_FLOAT", "D16_UNORM",
    "R16_UNORM", "R16_UINT", "R16_SNORM", "R16_SINT",
    "R8_TYPELESS", "R8_UNORM", "R8_UINT", "R8_SNORM",
    "R8_SINT", "A8_UNORM", "R1_UNORM", "R9G9B9E5_SHAREDEXP",
    "R8G8_B8G8_UNORM", "G8R8_G8B8_UNORM", "BC1_TYPELESS", "BC1_UNORM",
    "BC1_UNORM_SRGB", "BC2_TYPELESS", "BC2_UNORM", "BC2_UNORM_SRGB",
    "BC3_TYPELESS", "BC3_UNORM", "BC3_UNORM_SRGB", "BC4_TYPELESS",
    "BC4_UNORM", "BC4_SNORM", "BC5_TYPELESS", "BC5_UNORM",
    "BC5_SNORM", "B5G6R5_UNORM", "B5G5R5A1_UNORM", "B8G8R8A8_UNORM",
    "B8G8R8X8_UNORM", "R10G10B10_XR_BIAS_A2_UNORM", "B8G8R8A8_TYPELESS", "B8G8R8A8_UNORM_SRGB",
    "B8G8R8X8_TYPELESS", "B8G8R8X8_UNORM_SRGB", "BC6H_TYPELESS", "BC6H_UF16",
    "BC6H_SF16", "BC7_TYPELESS", "BC7_UNORM", "BC7_UNORM_SRGB",
    "AYUV", "Y410", "Y416", "NV12",
    "P010", "P016", "420_OPAQUE", "YUY2",
    "Y210", "Y216", "NV11", "AI44",
    "IA44", "P8", "A8P8", "B4G4R4A4_UNORM" ]

/-- The table `s_bitsPerPixel` of `BitsPerPixel`. -/
def s_bitsPerPixel : List Int :=
  [ 0, 128, 128, 128, 128, 96, 96, 96, 96, 64, 64, 64, 64, 64, 64, 64,
    64, 64, 64, 64, 64, 64, 64, 32, 32, 32, 32, 32, 32, 32, 32, 32,
    32, 32, 32, 32, 32, 32, 32, 32, 32, 32, 32, 32, 32, 32, 32, 32,
    16, 16, 16, 16, 16, 16, 16, 16, 16, 16, 16, 16, 8, 8, 8, 8,
    8, 8, 1, 32, 16, 16, 4, 4, 4, 8, 8, 8, 8, 8, 8, 4,
    4, 4, 8, 8, 8, 16, 16, 32, 32, 32, 32, 32, 32, 32, 8, 8,
    8, 8, 8, 8, 0, 0, 0, 0, 0, 0, 0, 0, 0, 0, 0, 0,
    0, 8, 16, 16 ]

/-- The function `NameOfFormat`: the name of a format, `"UNKNOWN"` (after a
warning) for an id outside the table. The result `none` stands for a read
outside the array. -/
def NameOfFormat (format : DXGI_FORMAT) : Option String :=
  if uint format.val ≥ dim s_names then
    some "UNKNOWN"
  else
    arrayRead s_names format.val

/-- The function `BitsPerPixel`: the size of a pixel in bits, `0` (after a
warning) for an id outside the table. The result `none` stands for a read
outside the array. -/
def BitsPerPixel (format : DXGI_FORMAT) : Option Int :=
  if uint format.val ≥ dim s_bitsPerPixel then
    some 0
  else
    arrayRead s_bitsPerPixel format.val

/-! ## Vectors, results, memory -/

structure int2 where
  x : Int
  y : Int
deriving DecidableEq

structure int3 where
  x : Int
  y : Int
  z : Int
deriving DecidableEq

def makeint2 (a : Int) : int2 := ⟨a, a⟩

def makeint3 (a : Int) : int3 := ⟨a, a, a⟩

inductive HRESULT where
  | S_OK
  | E_FAIL
  | E_INVALIDARG
  | E_NOINTERFACE
deriving DecidableEq

def FAILED (hr : HRESULT) : Bool := hr != HRESULT.S_OK

/-- The ways a call ends without returning: a failed `ASSERT_ERR`, a failed
`CHECK_D3D`, a read outside an array, a call through a null pointer. -/
inductive Fatal where
  | assertion
  | d3d (hr : HRESULT)
  | outOfBounds
  | nullPointer
deriving DecidableEq

/-- Modelled from the spec: the `ASSERT_ERR` check of the framework header,
which is not among these sources; a false condition is fatal. -/
def ASSERT_ERR (cond : Bool) : Except Fatal Unit :=
  if cond then Except.ok () else Except.error Fatal.assertion

/-- Modelled from the spec: the `CHECK_D3D` check of the framework header,
which is not among these sources; a failed device call is fatal. -/
def CHECK_D3D (hr : HRESULT) : Except Fatal Unit :=
  if FAILED hr then Except.error (Fatal.d3d hr) else Except.ok ()

/-- A table read inside a function that can fail. -/
def tableRead {α : Type} (r : Option α) : Except Fatal α :=
  match r with
  | some a => Except.ok a
  | none => Except.error Fatal.outOfBounds

abbrev byte := UInt8

/-- The bytes around a base pointer, by signed byte offset from it. -/
abbrev Memory := Int → byte

/-- Modelled from the spec: the helper `advanceBytes` of the framework header,
which is not among these sources; it moves a pointer by a number of bytes. A
pointer into a buffer is its byte offset from the start of the buffer. -/
def advanceBytes (ptr : Int) (bytes : Int) : Int := ptr + bytes

/-- The C library `memcpy` between two separate buffers: `count` bytes from
`src` at `pSrc` to `dst` at `pDst`. -/
def memcpy (dst : Memory) (pDst : Int) (src : Memory) (pSrc : Int) (count : Nat) : Memory :=
  fun a => if pDst ≤ a ∧ a < pDst + (count : Int) then src (pSrc + (a - pDst)) else dst a

/-- Modelled from the spec: `CalculateMipDims` for one dimension, declared in a
header that is not among these sources; "halved each level, floor, minimum 1". -/
def CalculateMipDims (baseDim : Int) (level : Int) : Int :=
  max 1 (baseDim / 2 ^ level.toNat)

/-- Modelled from the spec: `CalculateMipDims` for 2D dimensions. -/
def CalculateMipDims2 (dims : int2) (level : Int) : int2 :=
  ⟨CalculateMipDims dims.x level, CalculateMipDims dims.y level⟩

/-- Modelled from the spec: `CalculateMipDims` for 3D dimensions. -/
def CalculateMipDims3 (dims : int3) (level : Int) : int3 :=
  ⟨CalculateMipDims dims.x level, CalculateMipDims dims.y level, CalculateMipDims dims.z level⟩

/-- Modelled from the spec: `CalculateMipCount` for one dimension, declared in a
header that is not among these sources; "ceil(log2(size)) + 1". -/
def CalculateMipCount (size : Int) : Int :=
  (Nat.clog 2 size.toNat : Int) + 1

/-- Modelled from the spec: `CalculateMipCount` for 2D dimensions,
"ceil(log2(max(dims))) + 1". -/
def CalculateMipCount2 (dims : int2) : Int :=
  CalculateMipCount (max dims.x dims.y)

/-- Modelled from the spec: `CalculateMipCount` for 3D dimensions. -/
def CalculateMipCount3 (dims : int3) : Int :=
  CalculateMipCount (max dims.x (max dims.y dims.z))

/-- Modelled from the spec: the `TEXFLAG_*` bits are declared in a header that
is not among these sources; a flags word is given by the outcome of its two bit
tests, `flags & TEXFLAG_Mipmaps` and `flags & TEXFLAG_EnableUAV`. -/
structure TEXFLAG where
  Mipmaps : Bool
  EnableUAV : Bool
deriving DecidableEq

/-! ## The Direct3D 11 objects the code talks to

The device is not part of these sources. It is described by what the calls of
the sources need: every created object has a fresh identity, a view remembers
the resource it was created from, a texture holds the bytes of each of its
subresources row by row, and any creation may fail. -/

inductive D3D11_USAGE where
  | D3D11_USAGE_DEFAULT
  | D3D11_USAGE_IMMUTABLE
  | D3D11_USAGE_DYNAMIC
  | D3D11_USAGE_STAGING
deriving DecidableEq

def D3D11_BIND_SHADER_RESOURCE : Nat := 8
def D3D11_BIND_DEPTH_STENCIL : Nat := 64
def D3D11_BIND_UNORDERED_ACCESS : Nat := 128
def D3D11_CPU_ACCESS_READ : Nat := 131072
def D3D11_RESOURCE_MISC_TEXTURECUBE : Nat := 4

structure D3D11_TEXTURE2D_DESC where
  Width : Nat
  Height : Nat
  MipLevels : Nat
  ArraySize : Nat
  Format : DXGI_FORMAT
  SampleDesc : Nat × Nat
  Usage : D3D11_USAGE
  BindFlags : Nat
  CPUAccessFlags : Nat
  MiscFlags : Nat
deriving DecidableEq

structure D3D11_TEXTURE3D_DESC where
  Width : Nat
  Height : Nat
  Depth : Nat
  MipLevels : Nat
  Format : DXGI_FORMAT
  Usage : D3D11_USAGE
  BindFlags : Nat
  CPUAccessFlags : Nat
  MiscFlags : Nat
deriving DecidableEq

structure D3D11_SUBRESOURCE_DATA where
  pSysMem : Memory
  SysMemPitch : Nat
  SysMemSlicePitch : Nat

/-- A 2D texture object (also a texture array or a cube): its identity, its
description and, per subresource, the bytes of each row (`texels s y i` is byte
`i` of row `y` of subresource `s`). -/
structure ID3D11Texture2D where
  id : Nat
  desc : D3D11_TEXTURE2D_DESC
  texels : Nat → Int → Int → byte

/-- A 3D texture object; `texels s z y i` is byte `i` of row `y` of slice `z`
of subresource `s`. -/
structure ID3D11Texture3D where
  id : Nat
  desc : D3D11_TEXTURE3D_DESC
  texels : Nat → Int → Int → Int → byte

inductive D3D11_SRV_DIMENSION where
  | D3D11_SRV_DIMENSION_TEXTURE2D
  | D3D11_SRV_DIMENSION_TEXTURE3D
  | D3D11_SRV_DIMENSION_TEXTURECUBE
deriving DecidableEq

inductive D3D11_UAV_DIMENSION where
  | D3D11_UAV_DIMENSION_TEXTURE2D
  | D3D11_UAV_DIMENSION_TEXTURE2DARRAY
  | D3D11_UAV_DIMENSION_TEXTURE3D
deriving DecidableEq

structure D3D11_SHADER_RESOURCE_VIEW_DESC where
  Format : DXGI_FORMAT
  ViewDimension : D3D11_SRV_DIMENSION
  MostDetailedMip : Nat
  MipLevels : Nat
deriving DecidableEq

/-- The description of a read-write view; `ArraySize` is the member
`Texture2DArray.ArraySize`, `WSize` the member `Texture3D.WSize`. -/
structure D3D11_UNORDERED_ACCESS_VIEW_DESC where
  Format : DXGI_FORMAT
  ViewDimension : D3D11_UAV_DIMENSION
  ArraySize : Nat
  WSize : Nat
deriving DecidableEq

/-- A read-only (shader resource) view; `resource` is the identity of the
resource it was created from. -/
structure ID3D11ShaderResourceView where
  id : Nat
  resource : Nat
  desc : D3D11_SHADER_RESOURCE_VIEW_DESC
deriving DecidableEq

/-- A read-write (unordered access) view; `resource` is the identity of the
resource it was created from. -/
structure ID3D11UnorderedAccessView where
  id : Nat
  resource : Nat
  desc : D3D11_UNORDERED_ACCESS_VIEW_DESC
deriving DecidableEq

/-- The device: the identity the next created object gets, which creation
calls fail (by the identity they would have issued), and the bytes found in a
subresource that was given no initial data (by subresource, slice, row, byte). -/
structure ID3D11Device where
  nextId : Nat
  failing : Nat → Bool
  undefinedBytes : Nat → Int → Int → Int → byte

/-- The bytes a new 2D texture holds: row `y` of subresource `s` is read from
entry `s` of the initial data, `SysMemPitch` bytes per row; without such an
entry the content is whatever the device left there. -/
def initialTexels (pDevice : ID3D11Device) (pInitialData : Option (List D3D11_SUBRESOURCE_DATA)) :
    Nat → Int → Int → byte :=
  fun s y i =>
    match pInitialData with
    | none => pDevice.undefinedBytes s 0 y i
    | some datas =>
      match datas.get? s with
      | none => pDevice.undefinedBytes s 0 y i
      | some d => d.pSysMem (y * (d.SysMemPitch : Int) + i)

def ID3D11Device.CreateTexture2D (pDevice : ID3D11Device) (pDesc : D3D11_TEXTURE2D_DESC)
    (pInitialData : Option (List D3D11_SUBRESOURCE_DATA)) :
    HRESULT × Option ID3D11Texture2D × ID3D11Device :=
  if pDevice.failing pDevice.nextId then
    (HRESULT.E_FAIL, none, { pDevice with nextId := pDevice.nextId + 1 })
  else
    (HRESULT.S_OK,
     some { id := pDevice.nextId, desc := pDesc, texels := initialTexels pDevice pInitialData },
     { pDevice with nextId := pDevice.nextId + 1 })

/-- Creation of a 3D texture; the sources never pass initial data. -/
def ID3D11Device.CreateTexture3D (pDevice : ID3D11Device) (pDesc : D3D11_TEXTURE3D_DESC) :
    HRESULT × Option ID3D11Texture3D × ID3D11Device :=
  if pDevice.failing pDevice.nextId then
    (HRESULT.E_FAIL, none, { pDevice with nextId := pDevice.nextId + 1 })
  else
    (HRESULT.S_OK,
     some { id := pDevice.nextId, desc := pDesc,
            texels := pDevice.undefinedBytes },
     { pDevice with nextId := pDevice.nextId + 1 })

/-- Creation of a read-only view of the resource with identity `pResource`
(`none` is a null resource pointer, an invalid argument). -/
def ID3D11Device.CreateShaderResourceView (pDevice : ID3D11Device) (pResource : Option Nat)
    (pDesc : D3D11_SHADER_RESOURCE_VIEW_DESC) :
    HRESULT × Option ID3D11ShaderResourceView × ID3D11Device :=
  match pResource with
  | none => (HRESULT.E_INVALIDARG, none, pDevice)
  | some r =>
    if pDevice.failing pDevice.nextId then
      (HRESULT.E_FAIL, none, { pDevice with nextId := pDevice.nextId + 1 })
    else
      (HRESULT.S_OK, some { id := pDevice.nextId, resource := r, desc := pDesc },
       { pDevice with nextId := pDevice.nextId + 1 })

/-- Creation of a read-write view of the resource with identity `pResource`. -/
def ID3D11Device.CreateUnorderedAccessView (pDevice : ID3D11Device) (pResource : Option Nat)
    (pDesc : D3D11_UNORDERED_ACCESS_VIEW_DESC) :
    HRESULT × Option ID3D11UnorderedAccessView × ID3D11Device :=
  match pResource with
  | none => (HRESULT.E_INVALIDARG, none, pDevice)
  | some r =>
    if pDevice.failing pDevice.nextId then
      (HRESULT.E_FAIL, none, { pDevice with nextId := pDevice.nextId + 1 })
    else
      (HRESULT.S_OK, some { id := pDevice.nextId, resource := r, desc := pDesc },
       { pDevice with nextId := pDevice.nextId + 1 })

structure D3D11_MAPPED_SUBRESOURCE where
  pData : Memory
  RowPitch : Nat
  DepthPitch : Nat

/-- The immediate context: its device, and what `Map` returns for a staging
texture (the driver chooses the pitches and the padding bytes). -/
structure ID3D11DeviceContext where
  device : ID3D11Device
  mapped2D : ID3D11Texture2D → HRESULT × D3D11_MAPPED_SUBRESOURCE
  mapped3D : ID3D11Texture3D → HRESULT × D3D11_MAPPED_SUBRESOURCE

/-- The value of a zero-initialised `D3D11_MAPPED_SUBRESOURCE`. -/
def D3D11_MAPPED_SUBRESOURCE.zero : D3D11_MAPPED_SUBRESOURCE :=
  { pData := fun _ => 0, RowPitch := 0, DepthPitch := 0 }

/-- Call `Map(pResource, 0, D3D11_MAP_READ, 0, &mapped)` on a 2D texture. -/
def ID3D11DeviceContext.Map2D (pCtx : ID3D11DeviceContext) (pResource : Option ID3D11Texture2D) :
    HRESULT × D3D11_MAPPED_SUBRESOURCE :=
  match pResource with
  | none => (HRESULT.E_INVALIDARG, D3D11_MAPPED_SUBRESOURCE.zero)
  | some t => pCtx.mapped2D t

/-- Call `Map(pResource, 0, D3D11_MAP_READ, 0, &mapped)` on a 3D texture. -/
def ID3D11DeviceContext.Map3D (pCtx : ID3D11DeviceContext) (pResource : Option ID3D11Texture3D) :
    HRESULT × D3D11_MAPPED_SUBRESOURCE :=
  match pResource with
  | none => (HRESULT.E_INVALIDARG, D3D11_MAPPED_SUBRESOURCE.zero)
  | some t => pCtx.mapped3D t

/-- Call `CopySubresourceRegion(pDst, 0, 0, 0, 0, pSrc, SrcSubresource, nullptr)`
on 2D textures: subresource 0 of the destination receives the whole source
subresource. A call naming a subresource the source does not have is dropped. -/
def CopySubresourceRegion2D (pDst : Option ID3D11Texture2D) (pSrc : Option ID3D11Texture2D)
    (SrcSubresource : Nat) : Option ID3D11Texture2D :=
  match pDst, pSrc with
  | some d, some s =>
    if SrcSubresource < s.desc.MipLevels * s.desc.ArraySize then
      some { d with texels := fun k => if k = 0 then s.texels SrcSubresource else d.texels k }
    else
      some d
  | d, _ => d

/-- The same call on 3D textures. -/
def CopySubresourceRegion3D (pDst : Option ID3D11Texture3D) (pSrc : Option ID3D11Texture3D)
    (SrcSubresource : Nat) : Option ID3D11Texture3D :=
  match pDst, pSrc with
  | some d, some s =>
    if SrcSubresource < s.desc.MipLevels then
      some { d with texels := fun k => if k = 0 then s.texels SrcSubresource else d.texels k }
    else
      some d
  | d, _ => d

/-! ## Texture2D -/

structure Texture2D where
  m_pTex : Option ID3D11Texture2D
  m_pSrv : Option ID3D11ShaderResourceView
  m_pUav : Option ID3D11UnorderedAccessView
  m_dims : int2
  m_mipLevels : Int
  m_format : DXGI_FORMAT

/-- The constructor `Texture2D::Texture2D()`. -/
def Texture2D.construct : Texture2D :=
  { m_pTex := none, m_pSrv := none, m_pUav := none,
    m_dims := makeint2 0, m_mipLevels := 0, m_format := DXGI_FORMAT_UNKNOWN }

def Texture2D.Init (self : Texture2D) (pDevice : ID3D11Device) (dims : int2)
    (format : DXGI_FORMAT) (flags : TEXFLAG) : Except Fatal (Texture2D × ID3D11Device) := do
  let texDesc0 : D3D11_TEXTURE2D_DESC :=
    { Width := uint dims.x, Height := uint dims.y,
      MipLevels := uint (if flags.Mipmaps then CalculateMipCount2 dims else 1),
      ArraySize := 1,
      Format := format,
      SampleDesc := (1, 0),
      Usage := D3D11_USAGE.D3D11_USAGE_DEFAULT,
      BindFlags := D3D11_BIND_SHADER_RESOURCE,
      CPUAccessFlags := 0, MiscFlags := 0 }
  let texDesc : D3D11_TEXTURE2D_DESC :=
    if flags.EnableUAV then
      { texDesc0 with BindFlags := texDesc0.BindFlags ||| D3D11_BIND_UNORDERED_ACCESS }
    else texDesc0
  let (hrTex, pTex, dev1) := pDevice.CreateTexture2D texDesc none
  CHECK_D3D hrTex
  let srvDesc : D3D11_SHADER_RESOURCE_VIEW_DESC :=
    { Format := format,
      ViewDimension := D3D11_SRV_DIMENSION.D3D11_SRV_DIMENSION_TEXTURE2D,
      MostDetailedMip := 0,
      MipLevels := texDesc.MipLevels }
  let (hrSrv, pSrv, dev2) := dev1.CreateShaderResourceView (pTex.map (fun t => t.id)) srvDesc
  CHECK_D3D hrSrv
  if flags.EnableUAV then
    let uavDesc : D3D11_UNORDERED_ACCESS_VIEW_DESC :=
      { Format := format,
        ViewDimension := D3D11_UAV_DIMENSION.D3D11_UAV_DIMENSION_TEXTURE2D,
        ArraySize := 0, WSize := 0 }
    let (hrUav, pUav, dev3) := dev2.CreateUnorderedAccessView (pTex.map (fun t => t.id)) uavDesc
    CHECK_D3D hrUav
    return ({ m_pTex := pTex, m_pSrv := pSrv, m_pUav := pUav,
              m_dims := dims, m_mipLevels := wrapInt texDesc.MipLevels, m_format := format }, dev3)
  else
    return ({ m_pTex := pTex, m_pSrv := pSrv, m_pUav := self.m_pUav,
              m_dims := dims, m_mipLevels := wrapInt texDesc.MipLevels, m_format := format }, dev2)

def Texture2D.Release (_self : Texture2D) : Texture2D :=
  { m_pTex := none, m_pSrv := none, m_pUav := none,
    m_dims := makeint2 0, m_mipLevels := 0, m_format := DXGI_FORMAT_UNKNOWN }

/-- The row loop of the 2D and cube `Readback`: for `y` from `0` while
`y < height`, copy `rowSize` bytes from `mapped.pData + y * mapped.RowPitch`
(unsigned 32-bit product) to `pDataOut + y * rowSize` (signed 32-bit product). -/
def copyRows (pDataOut : Memory) (mapped : D3D11_MAPPED_SUBRESOURCE) (rowSize : Int)
    (height : Int) : Memory :=
  (List.range height.toNat).foldl
    (fun out (y : Nat) =>
      memcpy out (advanceBytes 0 (wrapInt ((y : Int) * rowSize)))
        mapped.pData (advanceBytes 0 ((uint (y : Int) * mapped.RowPitch % 4294967296 : Nat) : Int))
        (size_t rowSize))
    pDataOut

/-- The staging texture of `Texture2D::Readback` after the copy from the owned
texture (the statements from `GetDevice` to `CopySubresourceRegion`), with the
device after the creation. The result of the creation is not checked. -/
def Texture2D.ReadbackStaging (self : Texture2D) (pCtx : ID3D11DeviceContext) (level : Int) :
    Option ID3D11Texture2D × ID3D11Device :=
  let pDevice := pCtx.device
  let mipDims := CalculateMipDims2 self.m_dims level
  let texDesc : D3D11_TEXTURE2D_DESC :=
    { Width := uint mipDims.x, Height := uint mipDims.y, MipLevels := 1, ArraySize := 1,
      Format := self.m_format,
      SampleDesc := (1, 0),
      Usage := D3D11_USAGE.D3D11_USAGE_STAGING,
      BindFlags := 0,
      CPUAccessFlags := D3D11_CPU_ACCESS_READ,
      MiscFlags := 0 }
  let created := pDevice.CreateTexture2D texDesc none
  (CopySubresourceRegion2D created.2.1 self.m_pTex (uint level), created.2.2)

def Texture2D.Readback (self : Texture2D) (pCtx : ID3D11DeviceContext) (level : Int)
    (pDataOut : Memory) : Except Fatal (Memory × ID3D11DeviceContext) := do
  ASSERT_ERR self.m_pTex.isSome
  ASSERT_ERR (decide (level ≥ 0 ∧ level < self.m_mipLevels))
  let mipDims := CalculateMipDims2 self.m_dims level
  let (pTexStaging, dev1) := self.ReadbackStaging pCtx level
  let (hr, mapped) := pCtx.Map2D pTexStaging
  CHECK_D3D hr
  let bpp ← tableRead (BitsPerPixel self.m_format)
  let rowSize := Int.tdiv (wrapInt (mipDims.x * bpp)) 8
  ASSERT_ERR (decide (mapped.RowPitch ≥ uint rowSize))
  return (copyRows pDataOut mapped rowSize mipDims.y, { pCtx with device := dev1 })

/-! ## TextureCube -/

structure TextureCube where
  m_pTex : Option ID3D11Texture2D
  m_pSrv : Option ID3D11ShaderResourceView
  m_pUav : Option ID3D11UnorderedAccessView
  m_cubeSize : Int
  m_mipLevels : Int
  m_format : DXGI_FORMAT

/-- The constructor `TextureCube::TextureCube()`. -/
def TextureCube.construct : TextureCube :=
  { m_pTex := none, m_pSrv := none, m_pUav := none,
    m_cubeSize := 0, m_mipLevels := 0, m_format := DXGI_FORMAT_UNKNOWN }

def TextureCube.Init (self : TextureCube) (pDevice : ID3D11Device) (cubeSize : Int)
    (format : DXGI_FORMAT) (flags : TEXFLAG) : Except Fatal (TextureCube × ID3D11Device) := do
  let texDesc0 : D3D11_TEXTURE2D_DESC :=
    { Width := uint cubeSize, Height := uint cubeSize,
      MipLevels := uint (if flags.Mipmaps then CalculateMipCount cubeSize else 1),
      ArraySize := 6,
      Format := format,
      SampleDesc := (1, 0),
      Usage := D3D11_USAGE.D3D11_USAGE_DEFAULT,
      BindFlags := D3D11_BIND_SHADER_RESOURCE,
      CPUAccessFlags := 0,
      MiscFlags := D3D11_RESOURCE_MISC_TEXTURECUBE }
  let texDesc : D3D11_TEXTURE2D_DESC :=
    if flags.EnableUAV then
      { texDesc0 with BindFlags := texDesc0.BindFlags ||| D3D11_BIND_UNORDERED_ACCESS }
    else texDesc0
  let (hrTex, pTex, dev1) := pDevice.CreateTexture2D texDesc none
  CHECK_D3D hrTex
  let srvDesc : D3D11_SHADER_RESOURCE_VIEW_DESC :=
    { Format := format,
      ViewDimension := D3D11_SRV_DIMENSION.D3D11_SRV_DIMENSION_TEXTURECUBE,
      MostDetailedMip := 0,
      MipLevels := texDesc.MipLevels }
  let (hrSrv, pSrv, dev2) := dev1.CreateShaderResourceView (pTex.map (fun t => t.id)) srvDesc
  CHECK_D3D hrSrv
  if flags.EnableUAV then
    let uavDesc : D3D11_UNORDERED_ACCESS_VIEW_DESC :=
      { Format := format,
        ViewDimension := D3D11_UAV_DIMENSION.D3D11_UAV_DIMENSION_TEXTURE2DARRAY,
        ArraySize := 6, WSize := 0 }
    let (hrUav, pUav, dev3) := dev2.CreateUnorderedAccessView (pTex.map (fun t => t.id)) uavDesc
    CHECK_D3D hrUav
    return ({ m_pTex := pTex, m_pSrv := pSrv, m_pUav := pUav,
              m_cubeSize := cubeSize, m_mipLevels := wrapInt texDesc.MipLevels,
              m_format := format }, dev3)
  else
    return ({ m_pTex := pTex, m_pSrv := pSrv, m_pUav := self.m_pUav,
              m_cubeSize := cubeSize, m_mipLevels := wrapInt texDesc.MipLevels,
              m_format := format }, dev2)

def TextureCube.Release (_self : TextureCube) : TextureCube :=
  { m_pTex := none, m_pSrv := none, m_pUav := none,
    m_cubeSize := 0, m_mipLevels := 0, m_format := DXGI_FORMAT_UNKNOWN }

/-- The subresource `TextureCube::Readback` passes to `CopySubresourceRegion`:
`face * m_mipLevels + level`, computed in `int` and passed as a `UINT`. -/
def TextureCube.ReadbackSubresource (self : TextureCube) (face : Int) (level : Int) : Nat :=
  uint (wrapInt (wrapInt (face * self.m_mipLevels) + level))

/-- The staging texture of `TextureCube::Readback` after the copy from the
owned texture, with the device after the creation. The result of the creation
is not checked. -/
def TextureCube.ReadbackStaging (self : TextureCube) (pCtx : ID3D11DeviceContext)
    (face : Int) (level : Int) : Option ID3D11Texture2D × ID3D11Device :=
  let pDevice := pCtx.device
  let mipDim := CalculateMipDims self.m_cubeSize level
  let texDesc : D3D11_TEXTURE2D_DESC :=
    { Width := uint mipDim, Height := uint mipDim, MipLevels := 1, ArraySize := 1,
      Format := self.m_format,
      SampleDesc := (1, 0),
      Usage := D3D11_USAGE.D3D11_USAGE_STAGING,
      BindFlags := 0,
      CPUAccessFlags := D3D11_CPU_ACCESS_READ,
      MiscFlags := 0 }
  let created := pDevice.CreateTexture2D texDesc none
  (CopySubresourceRegion2D created.2.1 self.m_pTex (self.ReadbackSubresource face level),
   created.2.2)

def TextureCube.Readback (self : TextureCube) (pCtx : ID3D11DeviceContext) (face : Int)
    (level : Int) (pDataOut : Memory) : Except Fatal (Memory × ID3D11DeviceContext) := do
  ASSERT_ERR self.m_pTex.isSome
  ASSERT_ERR (decide (face ≥ 0 ∧ face < 6))
  ASSERT_ERR (decide (level ≥ 0 ∧ level < self.m_mipLevels))
  let mipDim := CalculateMipDims self.m_cubeSize level
  let (pTexStaging, dev1) := self.ReadbackStaging pCtx face level
  let (hr, mapped) := pCtx.Map2D pTexStaging
  CHECK_D3D hr
  let bpp ← tableRead (BitsPerPixel self.m_format)
  let rowSize := Int.tdiv (wrapInt (mipDim * bpp)) 8
  ASSERT_ERR (decide (mapped.RowPitch ≥ uint rowSize))
  return (copyRows pDataOut mapped rowSize mipDim, { pCtx with device := dev1 })

/-! ## Texture3D -/

structure Texture3D where
  m_pTex : Option ID3D11Texture3D
  m_pSrv : Option ID3D11ShaderResourceView
  m_pUav : Option ID3D11UnorderedAccessView
  m_dims : int3
  m_mipLevels : Int
  m_format : DXGI_FORMAT

/-- The constructor `Texture3D::Texture3D()`. -/
def Texture3D.construct : Texture3D :=
  { m_pTex := none, m_pSrv := none, m_pUav := none,
    m_dims := makeint3 0, m_mipLevels := 0, m_format := DXGI_FORMAT_UNKNOWN }

def Texture3D.Init (self : Texture3D) (pDevice : ID3D11Device) (dims : int3)
    (format : DXGI_FORMAT) (flags : TEXFLAG) : Except Fatal (Texture3D × ID3D11Device) := do
  let texDesc0 : D3D11_TEXTURE3D_DESC :=
    { Width := uint dims.x, Height := uint dims.y, Depth := uint dims.z,
      MipLevels := uint (if flags.Mipmaps then CalculateMipCount3 dims else 1),
      Format := format,
      Usage := D3D11_USAGE.D3D11_USAGE_DEFAULT,
      BindFlags := D3D11_BIND_SHADER_RESOURCE,
      CPUAccessFlags := 0, MiscFlags := 0 }
  let texDesc : D3D11_TEXTURE3D_DESC :=
    if flags.EnableUAV then
      { texDesc0 with BindFlags := texDesc0.BindFlags ||| D3D11_BIND_UNORDERED_ACCESS }
    else texDesc0
  let (hrTex, pTex, dev1) := pDevice.CreateTexture3D texDesc
  CHECK_D3D hrTex
  let srvDesc : D3D11_SHADER_RESOURCE_VIEW_DESC :=
    { Format := format,
      ViewDimension := D3D11_SRV_DIMENSION.D3D11_SRV_DIMENSION_TEXTURE3D,
      MostDetailedMip := 0,
      MipLevels := texDesc.MipLevels }
  let (hrSrv, pSrv, dev2) := dev1.CreateShaderResourceView (pTex.map (fun t => t.id)) srvDesc
  CHECK_D3D hrSrv
  if flags.EnableUAV then
    let uavDesc : D3D11_UNORDERED_ACCESS_VIEW_DESC :=
      { Format := format,
        ViewDimension := D3D11_UAV_DIMENSION.D3D11_UAV_DIMENSION_TEXTURE3D,
        ArraySize := 0, WSize := uint dims.z }
    let (hrUav, pUav, dev3) := dev2.CreateUnorderedAccessView (pTex.map (fun t => t.id)) uavDesc
    CHECK_D3D hrUav
    return ({ m_pTex := pTex, m_pSrv := pSrv, m_pUav := pUav,
              m_dims := dims, m_mipLevels := wrapInt texDesc.MipLevels, m_format := format }, dev3)
  else
    return ({ m_pTex := pTex, m_pSrv := pSrv, m_pUav := self.m_pUav,
              m_dims := dims, m_mipLevels := wrapInt texDesc.MipLevels, m_format := format }, dev2)

def Texture3D.Release (_self : Texture3D) : Texture3D :=
  { m_pTex := none, m_pSrv := none, m_pUav := none,
    m_dims := makeint3 0, m_mipLevels := 0, m_format := DXGI_FORMAT_UNKNOWN }

/-- The slice and row loops of `Texture3D::Readback`: for `z` from `0` while
`z < depth` and `y` from `0` while `y < height`, copy `rowSize` bytes from
`mapped.pData + z * mapped.DepthPitch + y * mapped.RowPitch` (unsigned 32-bit
arithmetic) to `pDataOut + z * sliceSize + y * rowSize` (signed 32-bit
arithmetic). -/
def copySlices (pDataOut : Memory) (mapped : D3D11_MAPPED_SUBRESOURCE) (rowSize : Int)
    (sliceSize : Int) (height : Int) (depth : Int) : Memory :=
  (List.range depth.toNat).foldl
    (fun outZ (z : Nat) =>
      (List.range height.toNat).foldl
        (fun out (y : Nat) =>
          memcpy out
            (advanceBytes 0 (wrapInt (wrapInt ((z : Int) * sliceSize) + wrapInt ((y : Int) * rowSize))))
            mapped.pData
            (advanceBytes 0
              (((uint (z : Int) * mapped.DepthPitch % 4294967296
                  + uint (y : Int) * mapped.RowPitch % 4294967296) % 4294967296 : Nat) : Int))
            (size_t rowSize))
        outZ)
    pDataOut

/-- The staging texture of `Texture3D::Readback` after the copy from the owned
texture, with the device after the creation. The result of the creation is not
checked. -/
def Texture3D.ReadbackStaging (self : Texture3D) (pCtx : ID3D11DeviceContext) (level : Int) :
    Option ID3D11Texture3D × ID3D11Device :=
  let pDevice := pCtx.device
  let mipDims := CalculateMipDims3 self.m_dims level
  let texDesc : D3D11_TEXTURE3D_DESC :=
    { Width := uint mipDims.x, Height := uint mipDims.y, Depth := uint mipDims.z, MipLevels := 1,
      Format := self.m_format,
      Usage := D3D11_USAGE.D3D11_USAGE_STAGING,
      BindFlags := 0,
      CPUAccessFlags := D3D11_CPU_ACCESS_READ,
      MiscFlags := 0 }
  let created := pDevice.CreateTexture3D texDesc
  (CopySubresourceRegion3D created.2.1 self.m_pTex (uint level), created.2.2)

def Texture3D.Readback (self : Texture3D) (pCtx : ID3D11DeviceContext) (level : Int)
    (pDataOut : Memory) : Except Fatal (Memory × ID3D11DeviceContext) := do
  ASSERT_ERR self.m_pTex.isSome
  ASSERT_ERR (decide (level ≥ 0 ∧ level < self.m_mipLevels))
  let mipDims := CalculateMipDims3 self.m_dims level
  let (pTexStaging, dev1) := self.ReadbackStaging pCtx level
  let (hr, mapped) := pCtx.Map3D pTexStaging
  CHECK_D3D hr
  let bpp ← tableRead (BitsPerPixel self.m_format)
  let rowSize := Int.tdiv (wrapInt (mipDims.x * bpp)) 8
  let sliceSize := wrapInt (mipDims.y * rowSize)
  ASSERT_ERR (decide (mapped.RowPitch ≥ uint rowSize))
  ASSERT_ERR (decide (mapped.DepthPitch ≥ uint sliceSize))
  return (copySlices pDataOut mapped rowSize sliceSize mipDims.y mipDims.z,
          { pCtx with device := dev1 })

/-! ## Texture creation helpers -/

/-! ### The C type `float`

The colour channels are 32-bit floats (IEEE 754 binary32), and the source
multiplies them by `255.0f` in that type. A value is kept by sign, mantissa and
binary exponent; a product is the exact product rounded to 24 significant bits,
to nearest with ties to even. -/

/-- A value of the C type `float`: a finite value `± mantissa * 2 ^ exponent`
(a binary32 value has a mantissa below `2 ^ 24` and an exponent from -149 to
104), an infinity, or NaN. -/
inductive float where
  | finite (negative : Bool) (mantissa : Nat) (exponent : Int)
  | infinity (negative : Bool)
  | nan
deriving DecidableEq

/-- The quotient `P / 2 ^ k` rounded to the nearest integer, ties to the even
one. -/
def roundShift (P k : Nat) : Nat :=
  let q := P / 2 ^ k
  let r := P % 2 ^ k
  if 2 * r < 2 ^ k then q
  else if 2 ^ k < 2 * r then q + 1
  else if q % 2 = 0 then q else q + 1

def bitLengthAux : Nat → Nat → Nat
  | 0, _ => 0
  | fuel + 1, P => if P = 0 then 0 else bitLengthAux fuel (P / 2) + 1

/-- The number of binary digits of `P` (0 for 0). -/
def bitLength (P : Nat) : Nat := bitLengthAux P P

/-- The binary32 value nearest to `± P * 2 ^ E`: the mantissa is cut to 24 bits,
and to fewer where the exponent would fall below -149, rounding to nearest with
ties to even; a result of magnitude `2 ^ 128` or more is an infinity. -/
def float.pack (negative : Bool) (P : Nat) (E : Int) : float :=
  let k : Nat := max (bitLength P - 24) (-149 - E).toNat
  let m := roundShift P k
  let e := E + k
  if e ≥ 0 ∧ 2 ^ 128 ≤ m * 2 ^ e.toNat then float.infinity negative
  else float.finite negative m e

/-- A literal such as `255.0f`. -/
instance (n : Nat) : OfNat float n := ⟨float.pack false n 0⟩

/-- The product of two `float` values. -/
def float.mul (x y : float) : float :=
  match x, y with
  | float.nan, _ => float.nan
  | _, float.nan => float.nan
  | float.infinity s, float.infinity t => float.infinity (xor s t)
  | float.infinity s, float.finite t n _ => if n = 0 then float.nan else float.infinity (xor s t)
  | float.finite s m _, float.infinity t => if m = 0 then float.nan else float.infinity (xor s t)
  | float.finite s m e, float.finite t n f => float.pack (xor s t) (m * n) (e + f)

instance : Mul float := ⟨float.mul⟩

/-- A magnitude with its sign. -/
def signed (negative : Bool) (v : Nat) : Int := if negative then -(v : Int) else v

/-- The comparison `x < y` of two `float` values; false when one is NaN. -/
def float.lt (x y : float) : Bool :=
  match x, y with
  | float.nan, _ => false
  | _, float.nan => false
  | float.infinity s, float.infinity t => s && !t
  | float.infinity s, float.finite _ _ _ => s
  | float.finite _ _ _, float.infinity t => !t
  | float.finite s m e, float.finite t n f =>
    decide (signed s (m * 2 ^ (e - min e f).toNat) < signed t (n * 2 ^ (f - min e f).toNat))

/-- Modelled from the spec: the colour type `rgba` of the util library, which is
not among these sources: four `float` channels in r, g, b, a order. -/
structure rgba where
  r : float
  g : float
  b : float
  a : float
deriving DecidableEq

/-- Modelled from the spec: the vector of four `int` of the util library, which
is not among these sources. -/
structure int4 where
  x : Int
  y : Int
  z : Int
  w : Int
deriving DecidableEq

/-- Modelled from the spec: the vector of four bytes of the util library, which
is not among these sources. -/
structure byte4 where
  x : byte
  y : byte
  z : byte
  w : byte
deriving DecidableEq

/-- Modelled from the spec: `clamp` of the util library, which is not among
these sources: `lo` for a value below `lo`, `hi` for a value above `hi`, the
value itself otherwise. The spec does not say what the clamp of NaN is; here NaN,
which is neither below nor above, stays NaN. -/
def clamp (c lo hi : float) : float :=
  if c.lt lo then lo else if hi.lt c then hi else c

/-- Modelled from the spec: `saturate` of the util library, which is not among
these sources: `clamp(channel, 0, 1)` on every channel. -/
def saturate (color : rgba) : rgba :=
  ⟨clamp color.r 0 1, clamp color.g 0 1, clamp color.b 0 1, clamp color.a 0 1⟩

/-- Modelled from the spec: the product of a scalar and a colour of the util
library, which is not among these sources: the `float` product on every
channel. -/
def scale (s : float) (color : rgba) : rgba :=
  ⟨s * color.r, s * color.g, s * color.b, s * color.a⟩

/-- The integer nearest to one channel, halves away from zero. An infinity and
NaN have no nearest integer and the spec does not say what `round` gives for
them; here it is 0. -/
def roundChannel (c : float) : Int :=
  match c with
  | float.finite s m e =>
    signed s (if e ≥ 0 then m * 2 ^ e.toNat
              else (2 * m + 2 ^ (-e).toNat) / (2 * 2 ^ (-e).toNat))
  | _ => 0

/-- Modelled from the spec: `round` of the util library on a vector, which is
not among these sources: the nearest integer of every channel. -/
def round (color : rgba) : int4 :=
  ⟨roundChannel color.r, roundChannel color.g, roundChannel color.b, roundChannel color.a⟩

/-- Modelled from the spec: `makebyte4` of the util library, which is not among
these sources: every component converted to a byte (modulo 256). -/
def makebyte4 (v : int4) : byte4 :=
  ⟨UInt8.ofNat (v.x % 256).toNat, UInt8.ofNat (v.y % 256).toNat,
   UInt8.ofNat (v.z % 256).toNat, UInt8.ofNat (v.w % 256).toNat⟩

/-- Byte `i` of a `byte4`, in x, y, z, w order. -/
def byte4.component (v : byte4) (i : Int) : byte :=
  if i = 0 then v.x else if i = 1 then v.y else if i = 2 then v.z else v.w

/-- The memory at the address of a local `byte4[n]` array: the bytes of the
array, 4 per element, and around them the bytes of the stack it lies in. -/
def stackArray (colorBytes : List byte4) (stack : Memory) : Memory :=
  fun a =>
    if 0 ≤ a ∧ a < 4 * (colorBytes.length : Int) then
      match colorBytes.get? (a / 4).toNat with
      | some v => v.component (a % 4)
      | none => stack a
    else stack a

/-- The function `CreateTexture1x1`; `stack` is the memory around the local
`colorBytes`, of which `CreateTexture2D` is handed the address. -/
def CreateTexture1x1 (pDevice : ID3D11Device) (color : rgba) (pTexOut : Texture2D)
    (format : DXGI_FORMAT) (stack : Memory) : Except Fatal (Texture2D × ID3D11Device) := do
  let colorBytes : byte4 := makebyte4 (round (scale 255 (saturate color)))
  let texDesc : D3D11_TEXTURE2D_DESC :=
    { Width := 1, Height := 1, MipLevels := 1, ArraySize := 1,
      Format := format,
      SampleDesc := (1, 0),
      Usage := D3D11_USAGE.D3D11_USAGE_DEFAULT,
      BindFlags := D3D11_BIND_SHADER_RESOURCE,
      CPUAccessFlags := 0, MiscFlags := 0 }
  let initialData : D3D11_SUBRESOURCE_DATA :=
    { pSysMem := stackArray [colorBytes] stack, SysMemPitch := 4, SysMemSlicePitch := 0 }
  let (hrTex, pTex, dev1) := pDevice.CreateTexture2D texDesc (some [initialData])
  CHECK_D3D hrTex
  let srvDesc : D3D11_SHADER_RESOURCE_VIEW_DESC :=
    { Format := texDesc.Format,
      ViewDimension := D3D11_SRV_DIMENSION.D3D11_SRV_DIMENSION_TEXTURE2D,
      MostDetailedMip := 0,
      MipLevels := 1 }
  let (hrSrv, pSrv, dev2) := dev1.CreateShaderResourceView (pTex.map (fun t => t.id)) srvDesc
  CHECK_D3D hrSrv
  return ({ m_pTex := pTex, m_pSrv := pSrv, m_pUav := pTexOut.m_pUav,
            m_dims := ⟨1, 1⟩, m_mipLevels := 1, m_format := format }, dev2)

/-- The local array `colorBytes` of `CreateTextureCube1x1` after its loop: the
first element is the quantised colour, the initialiser zeroes the others, and
the loop copies element 0 to the elements `1 .. dim(colorBytes) - 1`. -/
def cubeColorBytes (color : rgba) : List byte4 :=
  let colorBytes : List byte4 :=
    makebyte4 (round (scale 255 (saturate color))) :: List.replicate 5 ⟨0, 0, 0, 0⟩
  (List.range (dim colorBytes - 1)).foldl
    (fun cb (k : Nat) => cb.set (k + 1) (cb.getD 0 ⟨0, 0, 0, 0⟩))
    colorBytes

/-- The function `CreateTextureCube1x1`; `stack` is the memory around the local
`colorBytes`. The address of the one local `initialData` is what
`CreateTexture2D` is handed as its array of initial data. -/
def CreateTextureCube1x1 (pDevice : ID3D11Device) (color : rgba) (pTexOut : TextureCube)
    (format : DXGI_FORMAT) (stack : Memory) : Except Fatal (TextureCube × ID3D11Device) := do
  let colorBytes : List byte4 := cubeColorBytes color
  let texDesc : D3D11_TEXTURE2D_DESC :=
    { Width := 1, Height := 1, MipLevels := 1, ArraySize := 6,
      Format := format,
      SampleDesc := (1, 0),
      Usage := D3D11_USAGE.D3D11_USAGE_DEFAULT,
      BindFlags := D3D11_BIND_SHADER_RESOURCE,
      CPUAccessFlags := 0,
      MiscFlags := D3D11_RESOURCE_MISC_TEXTURECUBE }
  let initialData : D3D11_SUBRESOURCE_DATA :=
    { pSysMem := stackArray colorBytes stack,
      SysMemPitch := 4 * dim colorBytes,
      SysMemSlicePitch := 0 }
  let (hrTex, pTex, dev1) := pDevice.CreateTexture2D texDesc (some [initialData])
  CHECK_D3D hrTex
  let srvDesc : D3D11_SHADER_RESOURCE_VIEW_DESC :=
    { Format := texDesc.Format,
      ViewDimension := D3D11_SRV_DIMENSION.D3D11_SRV_DIMENSION_TEXTURECUBE,
      MostDetailedMip := 0,
      MipLevels := 1 }
  let (hrSrv, pSrv, dev2) := dev1.CreateShaderResourceView (pTex.map (fun t => t.id)) srvDesc
  CHECK_D3D hrSrv
  return ({ m_pTex := pTex, m_pSrv := pSrv, m_pUav := pTexOut.m_pUav,
            m_cubeSize := 1, m_mipLevels := 1, m_format := format }, dev2)

def CreateTexture2DFromMemory (pDevice : ID3D11Device) (dims : int2) (format : DXGI_FORMAT)
    (pPixels : Memory) (pTexOut : Texture2D) : Except Fatal (Texture2D × ID3D11Device) := do
  let texDesc : D3D11_TEXTURE2D_DESC :=
    { Width := uint dims.x, Height := uint dims.y, MipLevels := 1, ArraySize := 1,
      Format := format,
      SampleDesc := (1, 0),
      Usage := D3D11_USAGE.D3D11_USAGE_IMMUTABLE,
      BindFlags := D3D11_BIND_SHADER_RESOURCE,
      CPUAccessFlags := 0, MiscFlags := 0 }
  let bpp ← tableRead (BitsPerPixel format)
  let initialData : D3D11_SUBRESOURCE_DATA :=
    { pSysMem := pPixels,
      SysMemPitch := uint (Int.tdiv (wrapInt (dims.x * bpp)) 8),
      SysMemSlicePitch := 0 }
  let (hrTex, pTex, dev1) := pDevice.CreateTexture2D texDesc (some [initialData])
  CHECK_D3D hrTex
  let srvDesc : D3D11_SHADER_RESOURCE_VIEW_DESC :=
    { Format := format,
      ViewDimension := D3D11_SRV_DIMENSION.D3D11_SRV_DIMENSION_TEXTURE2D,
      MostDetailedMip := 0,
      MipLevels := 1 }
  let (hrSrv, pSrv, dev2) := dev1.CreateShaderResourceView (pTex.map (fun t => t.id)) srvDesc
  CHECK_D3D hrSrv
  return ({ m_pTex := pTex, m_pSrv := pSrv, m_pUav := pTexOut.m_pUav,
            m_dims := dims, m_mipLevels := 1, m_format := format }, dev2)

/-! ## D3D11Window: the swap chain and the views of its back buffer

Only the members that `OnResize` and `MsgProc` read or write are kept. Both
functions return, next to the new state, the calls they issued on objects
outside the window, in order. -/

def D3D11_BIND_RENDER_TARGET : Nat := 32

inductive D3D11_RTV_DIMENSION where
  | D3D11_RTV_DIMENSION_TEXTURE2D
deriving DecidableEq

inductive D3D11_DSV_DIMENSION where
  | D3D11_DSV_DIMENSION_TEXTURE2D
deriving DecidableEq

structure D3D11_RENDER_TARGET_VIEW_DESC where
  Format : DXGI_FORMAT
  ViewDimension : D3D11_RTV_DIMENSION
deriving DecidableEq

structure D3D11_DEPTH_STENCIL_VIEW_DESC where
  Format : DXGI_FORMAT
  ViewDimension : D3D11_DSV_DIMENSION
deriving DecidableEq

/-- A render-target view; `resource` is the identity of the texture it was
created from. -/
structure ID3D11RenderTargetView where
  id : Nat
  resource : Nat
  desc : D3D11_RENDER_TARGET_VIEW_DESC
deriving DecidableEq

/-- A depth-stencil view; `resource` is the identity of the texture it was
created from. -/
structure ID3D11DepthStencilView where
  id : Nat
  resource : Nat
  desc : D3D11_DEPTH_STENCIL_VIEW_DESC
deriving DecidableEq

def ID3D11Device.CreateRenderTargetView (pDevice : ID3D11Device) (pResource : Option Nat)
    (pDesc : D3D11_RENDER_TARGET_VIEW_DESC) :
    HRESULT × Option ID3D11RenderTargetView × ID3D11Device :=
  match pResource with
  | none => (HRESULT.E_INVALIDARG, none, pDevice)
  | some r =>
    if pDevice.failing pDevice.nextId then
      (HRESULT.E_FAIL, none, { pDevice with nextId := pDevice.nextId + 1 })
    else
      (HRESULT.S_OK, some { id := pDevice.nextId, resource := r, desc := pDesc },
       { pDevice with nextId := pDevice.nextId + 1 })

def ID3D11Device.CreateDepthStencilView (pDevice : ID3D11Device) (pResource : Option Nat)
    (pDesc : D3D11_DEPTH_STENCIL_VIEW_DESC) :
    HRESULT × Option ID3D11DepthStencilView × ID3D11Device :=
  match pResource with
  | none => (HRESULT.E_INVALIDARG, none, pDevice)
  | some r =>
    if pDevice.failing pDevice.nextId then
      (HRESULT.E_FAIL, none, { pDevice with nextId := pDevice.nextId + 1 })
    else
      (HRESULT.S_OK, some { id := pDevice.nextId, resource := r, desc := pDesc },
       { pDevice with nextId := pDevice.nextId + 1 })

/-- The swap chain: its current buffer 0, the number of buffers, and the client
area of its window (used when a resize asks for width or height 0). -/
structure IDXGISwapChain where
  buffer : ID3D11Texture2D
  BufferCount : Nat
  clientWidth : Nat
  clientHeight : Nat

/-- Call `ResizeBuffers(BufferCount, Width, Height, NewFormat, SwapChainFlags)`:
on success the chain has new buffers of the requested size; a count of 0 and
the format `DXGI_FORMAT_UNKNOWN` keep the existing values, a width or height of
0 takes the client area of the window. -/
def IDXGISwapChain.ResizeBuffers (self : IDXGISwapChain) (pDevice : ID3D11Device)
    (BufferCount : Nat) (Width : Nat) (Height : Nat) (NewFormat : DXGI_FORMAT)
    (_SwapChainFlags : Nat) : HRESULT × IDXGISwapChain × ID3D11Device :=
  if pDevice.failing pDevice.nextId then
    (HRESULT.E_FAIL, self, { pDevice with nextId := pDevice.nextId + 1 })
  else
    (HRESULT.S_OK,
     { self with
       buffer :=
         { id := pDevice.nextId,
           desc :=
             { self.buffer.desc with
               Width := if Width = 0 then self.clientWidth else Width,
               Height := if Height = 0 then self.clientHeight else Height,
               Format := if NewFormat = DXGI_FORMAT_UNKNOWN then self.buffer.desc.Format
                         else NewFormat },
           texels := fun k => pDevice.undefinedBytes k 0 },
       BufferCount := if BufferCount = 0 then self.BufferCount else BufferCount },
     { pDevice with nextId := pDevice.nextId + 1 })

/-- Call `GetBuffer(Buffer, __uuidof(ID3D11Texture2D), ...)`. -/
def IDXGISwapChain.GetBuffer (self : IDXGISwapChain) (Buffer : Nat) :
    HRESULT × Option ID3D11Texture2D :=
  if Buffer < max self.BufferCount 1 then (HRESULT.S_OK, some self.buffer)
  else (HRESULT.E_INVALIDARG, none)

/-- A call issued on an object outside the window. -/
inductive Call where
  | Release (object : Nat)
  | ResizeBuffers (BufferCount : Nat) (Width : Nat) (Height : Nat) (NewFormat : DXGI_FORMAT)
      (SwapChainFlags : Nat)
  | GetBuffer (Buffer : Nat)
  | CreateRenderTargetView (resource : Option Nat) (desc : D3D11_RENDER_TARGET_VIEW_DESC)
  | CreateTexture2D (desc : D3D11_TEXTURE2D_DESC)
  | CreateDepthStencilView (resource : Option Nat) (desc : D3D11_DEPTH_STENCIL_VIEW_DESC)
  | CreateShaderResourceView (resource : Option Nat) (desc : D3D11_SHADER_RESOURCE_VIEW_DESC)
  | OnRender
  | DestroyWindow
  | PostQuitMessage (code : Int)
  | DefWindowProc
deriving DecidableEq

/-- Modelled from the spec: `comptr<T>::release()` of the framework header,
which is not among these sources; it "drops ownership": a non-null pointer is
released once, and the pointer is null afterwards. The result is the call
issued. -/
def comptrRelease {α : Type} (p : Option α) (idOf : α → Nat) : List Call :=
  match p with
  | none => []
  | some a => [Call.Release (idOf a)]

structure D3D11Window where
  m_hWnd : Option Nat
  m_pSwapChain : Option IDXGISwapChain
  m_pDevice : Option ID3D11Device
  m_dims : int2
  m_pTexBackBuffer : Option ID3D11Texture2D
  m_pRtvSRGB : Option ID3D11RenderTargetView
  m_pRtvRaw : Option ID3D11RenderTargetView
  m_hasDepthBuffer : Bool
  m_pTexDepth : Option ID3D11Texture2D
  m_pDsv : Option ID3D11DepthStencilView
  m_pSrvDepth : Option ID3D11ShaderResourceView

/-- The constructor `D3D11Window::D3D11Window()`. -/
def D3D11Window.construct : D3D11Window :=
  { m_hWnd := none, m_pSwapChain := none, m_pDevice := none, m_dims := makeint2 0,
    m_pTexBackBuffer := none, m_pRtvSRGB := none, m_pRtvRaw := none,
    m_hasDepthBuffer := true, m_pTexDepth := none, m_pDsv := none, m_pSrvDepth := none }

/-- A member call through a `comptr` that may be null. -/
def deref {α : Type} (p : Option α) : Except Fatal α :=
  match p with
  | some a => Except.ok a
  | none => Except.error Fatal.nullPointer

def D3D11Window.OnResize (self : D3D11Window) (dimsNew : int2) :
    Except Fatal (D3D11Window × List Call) := do
  let released : List Call :=
    comptrRelease self.m_pTexBackBuffer (fun t => t.id)
      ++ comptrRelease self.m_pRtvSRGB (fun v => v.id)
      ++ comptrRelease self.m_pRtvRaw (fun v => v.id)
      ++ comptrRelease self.m_pTexDepth (fun t => t.id)
      ++ comptrRelease self.m_pDsv (fun v => v.id)
      ++ comptrRelease self.m_pSrvDepth (fun v => v.id)
  ASSERT_ERR self.m_pSwapChain.isSome
  let pSwapChain ← deref self.m_pSwapChain
  let pDevice ← deref self.m_pDevice
  let (hrResize, chain1, dev1) :=
    pSwapChain.ResizeBuffers pDevice 0 (uint dimsNew.x) (uint dimsNew.y) DXGI_FORMAT_UNKNOWN 0
  CHECK_D3D hrResize
  let (hrBuffer, pTexBackBuffer) := chain1.GetBuffer 0
  CHECK_D3D hrBuffer
  let rtvDescSRGB : D3D11_RENDER_TARGET_VIEW_DESC :=
    { Format := DXGI_FORMAT_R8G8B8A8_UNORM_SRGB,
      ViewDimension := D3D11_RTV_DIMENSION.D3D11_RTV_DIMENSION_TEXTURE2D }
  let (hrSRGB, pRtvSRGB, dev2) :=
    dev1.CreateRenderTargetView (pTexBackBuffer.map (fun t => t.id)) rtvDescSRGB
  CHECK_D3D hrSRGB
  let rtvDescRaw : D3D11_RENDER_TARGET_VIEW_DESC :=
    { rtvDescSRGB with Format := DXGI_FORMAT_R8G8B8A8_UNORM }
  let (hrRaw, pRtvRaw, dev3) :=
    dev2.CreateRenderTargetView (pTexBackBuffer.map (fun t => t.id)) rtvDescRaw
  CHECK_D3D hrRaw
  let callsChain : List Call :=
    released
      ++ [Call.ResizeBuffers 0 (uint dimsNew.x) (uint dimsNew.y) DXGI_FORMAT_UNKNOWN 0,
          Call.GetBuffer 0,
          Call.CreateRenderTargetView (pTexBackBuffer.map (fun t => t.id)) rtvDescSRGB,
          Call.CreateRenderTargetView (pTexBackBuffer.map (fun t => t.id)) rtvDescRaw]
  if self.m_hasDepthBuffer then
    let texDesc : D3D11_TEXTURE2D_DESC :=
      { Width := uint dimsNew.x, Height := uint dimsNew.y, MipLevels := 1, ArraySize := 1,
        Format := DXGI_FORMAT_R32_TYPELESS,
        SampleDesc := (1, 0),
        Usage := D3D11_USAGE.D3D11_USAGE_DEFAULT,
        BindFlags := D3D11_BIND_DEPTH_STENCIL ||| D3D11_BIND_SHADER_RESOURCE,
        CPUAccessFlags := 0, MiscFlags := 0 }
    let (hrTex, pTexDepth, dev4) := dev3.CreateTexture2D texDesc none
    CHECK_D3D hrTex
    let dsvDesc : D3D11_DEPTH_STENCIL_VIEW_DESC :=
      { Format := DXGI_FORMAT_D32_FLOAT,
        ViewDimension := D3D11_DSV_DIMENSION.D3D11_DSV_DIMENSION_TEXTURE2D }
    let (hrDsv, pDsv, dev5) :=
      dev4.CreateDepthStencilView (pTexDepth.map (fun t => t.id)) dsvDesc
    CHECK_D3D hrDsv
    let srvDesc : D3D11_SHADER_RESOURCE_VIEW_DESC :=
      { Format := DXGI_FORMAT_R32_FLOAT,
        ViewDimension := D3D11_SRV_DIMENSION.D3D11_SRV_DIMENSION_TEXTURE2D,
        MostDetailedMip := 0,
        MipLevels := 1 }
    let (hrSrv, pSrvDepth, dev6) :=
      dev5.CreateShaderResourceView (pTexDepth.map (fun t => t.id)) srvDesc
    CHECK_D3D hrSrv
    return ({ self with
              m_dims := dimsNew,
              m_pSwapChain := some chain1,
              m_pDevice := some dev6,
              m_pTexBackBuffer := pTexBackBuffer,
              m_pRtvSRGB := pRtvSRGB,
              m_pRtvRaw := pRtvRaw,
              m_pTexDepth := pTexDepth,
              m_pDsv := pDsv,
              m_pSrvDepth := pSrvDepth },
            callsChain
              ++ [Call.CreateTexture2D texDesc,
                  Call.CreateDepthStencilView (pTexDepth.map (fun t => t.id)) dsvDesc,
                  Call.CreateShaderResourceView (pTexDepth.map (fun t => t.id)) srvDesc])
  else
    return ({ self with
              m_dims := dimsNew,
              m_pSwapChain := some chain1,
              m_pDevice := some dev3,
              m_pTexBackBuffer := pTexBackBuffer,
              m_pRtvSRGB := pRtvSRGB,
              m_pRtvRaw := pRtvRaw,
              m_pTexDepth := none,
              m_pDsv := none,
              m_pSrvDepth := none },
            callsChain)

/-! ### The window procedure -/

def WM_DESTROY : Nat := 2
def WM_SIZE : Nat := 5
def WM_CLOSE : Nat := 16
def WM_SIZING : Nat := 532

/-- The low-order word of a message parameter. -/
def LOWORD (l : Int) : Int := l % 65536

/-- The high-order word of a message parameter. -/
def HIWORD (l : Int) : Int := (l / 65536) % 65536

structure RECT where
  left : Int
  top : Int
  right : Int
  bottom : Int
deriving DecidableEq

/-- What the window procedure gets from outside the class: the client rectangle
`GetClientRect` reports, the effect of the virtual `OnRender` of the subclass on
the window, and the result of `DefWindowProc`. -/
structure WindowHost where
  clientRect : RECT
  OnRender : D3D11Window → D3D11Window
  DefWindowProc : Nat → Int → Int → Int

def D3D11Window.Shutdown (self : D3D11Window) : D3D11Window × List Call :=
  match self.m_hWnd with
  | some _ => ({ self with m_hWnd := none }, [Call.DestroyWindow])
  | none => (self, [])

def D3D11Window.MsgProc (self : D3D11Window) (host : WindowHost) (message : Nat)
    (wParam : Int) (lParam : Int) : Except Fatal (Int × D3D11Window × List Call) :=
  if message = WM_CLOSE then
    let r := self.Shutdown
    Except.ok (0, r.1, r.2)
  else if message = WM_DESTROY then
    Except.ok (0, self, [Call.PostQuitMessage 0])
  else if message = WM_SIZE then
    let dimsNew : int2 := ⟨LOWORD lParam, HIWORD lParam⟩
    if (dimsNew.x > 0 ∧ dimsNew.y > 0) ∧ (dimsNew.x ≠ self.m_dims.x ∨ dimsNew.y ≠ self.m_dims.y) then
      do
        let (resized, calls) ← self.OnResize dimsNew
        return (0, host.OnRender resized, calls ++ [Call.OnRender])
    else
      Except.ok (0, self, [])
  else if message = WM_SIZING then
    let clientRect := host.clientRect
    let dimsNew : int2 :=
      ⟨wrapInt (clientRect.right - clientRect.left), wrapInt (clientRect.bottom - clientRect.top)⟩
    if (dimsNew.x > 0 ∧ dimsNew.y > 0) ∧ (dimsNew.x ≠ self.m_dims.x ∨ dimsNew.y ≠ self.m_dims.y) then
      do
        let (resized, calls) ← self.OnResize dimsNew
        return (0, host.OnRender resized, calls ++ [Call.OnRender])
    else
      Except.ok (0, self, [])
  else
    Except.ok (host.DefWindowProc message wParam lParam, self, [Call.DefWindowProc])

/-! ## What `Map` promises

The device is outside these sources; the statements that follow data through
the device say what they assume of `Map`. -/

/-- The mapped image holds the rows of subresource 0 of the staging texture:
byte `i` of row `y` lies at offset `y * RowPitch + i`, for the `rowBytes` bytes
of each of the `Height` rows. The bytes between the rows are not constrained. -/
def MappedImageOf (staging : ID3D11Texture2D) (rowBytes : Int)
    (mapped : D3D11_MAPPED_SUBRESOURCE) : Prop :=
  ∀ y i : Int, 0 ≤ y → y < staging.desc.Height → 0 ≤ i → i < rowBytes →
    mapped.pData (y * mapped.RowPitch + i) = staging.texels 0 y i

/-! ## Concrete devices, images and resources

Inputs on which the statements below are exercised. -/

/-- A device on which no call fails. -/
def sampleDevice : ID3D11Device :=
  { nextId := 0, failing := fun _ => false, undefinedBytes := fun _ _ _ _ => 0 }

/-- A context whose `Map` lays the rows of subresource 0 out at a fixed row
pitch of `pitch` bytes and a slice pitch of `slicePitch` bytes. -/
def pitchedContext (pDevice : ID3D11Device) (pitch : Nat) (slicePitch : Nat) :
    ID3D11DeviceContext :=
  { device := pDevice,
    mapped2D := fun t =>
      (HRESULT.S_OK,
       { pData := fun a => t.texels 0 (a / (pitch : Int)) (a % (pitch : Int)),
         RowPitch := pitch, DepthPitch := slicePitch }),
    mapped3D := fun t =>
      (HRESULT.S_OK,
       { pData := fun a =>
           t.texels 0 (a / (slicePitch : Int)) (a % (slicePitch : Int) / (pitch : Int))
             (a % (slicePitch : Int) % (pitch : Int)),
         RowPitch := pitch, DepthPitch := slicePitch }) }

/-- Pixel data: byte number `a` has the value `a` modulo 256. -/
def samplePixels : Memory := fun a => UInt8.ofNat a.toNat

/-- A 3 by 2 texture of a 32-bit format with one mip level. -/
def sampleTexture2D : Texture2D :=
  { m_pTex :=
      some { id := 7,
             desc :=
               { Width := 3, Height := 2, MipLevels := 1, ArraySize := 1,
                 Format := DXGI_FORMAT_R8G8B8A8_UNORM, SampleDesc := (1, 0),
                 Usage := D3D11_USAGE.D3D11_USAGE_DEFAULT,
                 BindFlags := D3D11_BIND_SHADER_RESOURCE, CPUAccessFlags := 0, MiscFlags := 0 },
             texels := fun _ y i => samplePixels (y * 12 + i) },
    m_pSrv := none, m_pUav := none,
    m_dims := ⟨3, 2⟩, m_mipLevels := 1, m_format := DXGI_FORMAT_R8G8B8A8_UNORM }

/-- The texture of a cube of edge 2 of a 32-bit format with two mip levels;
every byte of face `f` (subresources `2 * f` and `2 * f + 1`) has the value
`10 * (f + 1)`. -/
def sampleCubeObject : ID3D11Texture2D :=
  { id := 8,
    desc :=
      { Width := 2, Height := 2, MipLevels := 2, ArraySize := 6,
        Format := DXGI_FORMAT_R8G8B8A8_UNORM, SampleDesc := (1, 0),
        Usage := D3D11_USAGE.D3D11_USAGE_DEFAULT,
        BindFlags := D3D11_BIND_SHADER_RESOURCE, CPUAccessFlags := 0,
        MiscFlags := D3D11_RESOURCE_MISC_TEXTURECUBE },
    texels := fun s _ _ => UInt8.ofNat (10 * (s / 2 + 1)) }

/-- A cube resource owning `sampleCubeObject`. -/
def sampleTextureCube : TextureCube :=
  { m_pTex := some sampleCubeObject,
    m_pSrv := none, m_pUav := none,
    m_cubeSize := 2, m_mipLevels := 2, m_format := DXGI_FORMAT_R8G8B8A8_UNORM }

/-- The colour of face `f` of `sampleCubeObject`. -/
def sampleColour (f : Int) (_i : Int) : byte := UInt8.ofNat (10 * (f.toNat + 1))

/-- The image `Map` returns in `sampleTexture2D.Readback` at level 0 under a
row pitch of 16. -/
def sampleMapped2D : D3D11_MAPPED_SUBRESOURCE :=
  ((pitchedContext sampleDevice 16 32).Map2D
    (sampleTexture2D.ReadbackStaging (pitchedContext sampleDevice 16 32) 0).1).2

/-- The image `Map` returns in `sampleTextureCube.Readback` for face 3 at level
1 under a row pitch of 256. -/
def sampleMappedCube : D3D11_MAPPED_SUBRESOURCE :=
  ((pitchedContext sampleDevice 256 256).Map2D
    (sampleTextureCube.ReadbackStaging (pitchedContext sampleDevice 256 256) 3 1).1).2

/-- The result of `CreateTexture2DFromMemory` for a 3 by 2 image of a 32-bit
format on `sampleDevice`, into a new resource. -/
def sampleCreated : Texture2D × ID3D11Device :=
  match CreateTexture2DFromMemory sampleDevice ⟨3, 2⟩ DXGI_FORMAT_R8G8B8A8_UNORM samplePixels
      Texture2D.construct with
  | Except.ok r => r
  | Except.error _ => (Texture2D.construct, sampleDevice)

/-- The image `Map` returns in `Readback` of `sampleCreated` at level 0 under a
row pitch of 16. -/
def sampleMappedCreated : D3D11_MAPPED_SUBRESOURCE :=
  ((pitchedContext sampleCreated.2 16 32).Map2D
    (sampleCreated.1.ReadbackStaging (pitchedContext sampleCreated.2 16 32) 0).1).2

/-- A 2 by 2 by 2 volume of an 8-bit format with one mip level. -/
def sampleTexture3D : Texture3D :=
  { m_pTex :=
      some { id := 9,
             desc :=
               { Width := 2, Height := 2, Depth := 2, MipLevels := 1,
                 Format := DXGI_FORMAT_R8_UNORM,
                 Usage := D3D11_USAGE.D3D11_USAGE_DEFAULT,
                 BindFlags := D3D11_BIND_SHADER_RESOURCE, CPUAccessFlags := 0, MiscFlags := 0 },
             texels := fun _ z y i => samplePixels (z * 4 + y * 2 + i) },
    m_pSrv := none, m_pUav := none,
    m_dims := ⟨2, 2, 2⟩, m_mipLevels := 1, m_format := DXGI_FORMAT_R8_UNORM }

/-- The volume `Map` returns in `sampleTexture3D.Readback` at level 0 under a
row pitch of 4 and a slice pitch of 16. -/
def sampleMapped3D : D3D11_MAPPED_SUBRESOURCE :=
  ((pitchedContext sampleDevice 4 16).Map3D
    (sampleTexture3D.ReadbackStaging (pitchedContext sampleDevice 4 16) 0).1).2

/-- The result of `Texture2D::Init` for an 8 by 2 texture with mipmaps and a
read-write view on `sampleDevice`, into a new resource. -/
def sampleInit2D : Texture2D × ID3D11Device :=
  match Texture2D.construct.Init sampleDevice ⟨8, 2⟩ DXGI_FORMAT_R8G8B8A8_UNORM ⟨true, true⟩ with
  | Except.ok r => r
  | Except.error _ => (Texture2D.construct, sampleDevice)

/-- The result of `TextureCube::Init` for a cube of edge 4 with mipmaps and no
read-write view on `sampleDevice`, into a released resource. -/
def sampleInitCube : TextureCube × ID3D11Device :=
  match sampleTextureCube.Release.Init sampleDevice 4 DXGI_FORMAT_R8G8B8A8_UNORM ⟨true, false⟩ with
  | Except.ok r => r
  | Except.error _ => (TextureCube.construct, sampleDevice)

/-- The result of `Texture3D::Init` for a 2 by 2 by 2 volume without mipmaps on
`sampleDevice`, into a new resource. -/
def sampleInit3D : Texture3D × ID3D11Device :=
  match Texture3D.construct.Init sampleDevice ⟨2, 2, 2⟩ DXGI_FORMAT_R8_UNORM ⟨false, true⟩ with
  | Except.ok r => r
  | Except.error _ => (Texture3D.construct, sampleDevice)

/-- A window after `Init`: a swap chain of 1 by 1 buffers, a device, a depth
buffer wanted, and no view yet. -/
def sampleWindow : D3D11Window :=
  { m_hWnd := some 1,
    m_pSwapChain :=
      some { buffer :=
               { id := 0,
                 desc :=
                   { Width := 1, Height := 1, MipLevels := 1, ArraySize := 1,
                     Format := DXGI_FORMAT_R8G8B8A8_UNORM, SampleDesc := (1, 0),
                     Usage := D3D11_USAGE.D3D11_USAGE_DEFAULT,
                     BindFlags := D3D11_BIND_RENDER_TARGET, CPUAccessFlags := 0, MiscFlags := 0 },
                 texels := fun _ _ _ => 0 },
             BufferCount := 2, clientWidth := 1, clientHeight := 1 },
    m_pDevice := some { sampleDevice with nextId := 1 },
    m_dims := makeint2 0,
    m_pTexBackBuffer := none, m_pRtvSRGB := none, m_pRtvRaw := none,
    m_hasDepthBuffer := true, m_pTexDepth := none, m_pDsv := none, m_pSrvDepth := none }

/-- The result of `OnResize` to 640 by 480 on `sampleWindow`. -/
def sampleResized : D3D11Window × List Call :=
  match sampleWindow.OnResize ⟨640, 480⟩ with
  | Except.ok r => r
  | Except.error _ => (sampleWindow, [])

/-- The result of a second `OnResize` to 640 by 480, on `sampleResized`. -/
def sampleResizedAgain : D3D11Window × List Call :=
  match sampleResized.1.OnResize ⟨640, 480⟩ with
  | Except.ok r => r
  | Except.error _ => (sampleWindow, [])

/-- A host whose `OnRender` leaves the window as it is. -/
def sampleHost : WindowHost :=
  { clientRect := ⟨0, 0, 640, 480⟩, OnRender := fun s => s, DefWindowProc := fun _ _ _ => 0 }

/-! ## Texture loading -/

/-- Modelled from the spec: the `TEXLOADFLAG_*` bits are declared in a header
that is not among these sources; a flags word is given by the outcome of its
three bit tests, `flags & TEXLOADFLAG_Mipmap`, `flags & TEXLOADFLAG_SRGB` and
`flags & TEXLOADFLAG_HDR`. -/
structure TEXLOADFLAG where
  Mipmap : Bool
  SRGB : Bool
  HDR : Bool
deriving DecidableEq

def D3DX11_DEFAULT : Nat := 4294967295
def D3DX11_FILTER_TRIANGLE : Nat := 4
def D3DX11_FILTER_SRGB : Nat := 6291456

/-- The members of `D3DX11_IMAGE_LOAD_INFO` that the sources assign; every
other member keeps the value its constructor gives it. `MiscFlags` is assigned
by `LoadTextureCube` only and is `D3DX11_DEFAULT` otherwise. -/
structure D3DX11_IMAGE_LOAD_INFO where
  MipLevels : Nat
  Usage : D3D11_USAGE
  BindFlags : Nat
  MiscFlags : Nat
  Format : DXGI_FORMAT
  Filter : Nat
  MipFilter : Nat
deriving DecidableEq

/-- A resource behind a view, as `GetResource` returns it. -/
inductive ID3D11Resource where
  | texture2D (t : ID3D11Texture2D)
  | texture3D (t : ID3D11Texture3D)
  | other (id : Nat)

/-- Call `QueryInterface(IID_ID3D11Texture2D, ...)` on a resource. -/
def ID3D11Resource.QueryInterfaceTexture2D (pRes : ID3D11Resource) :
    HRESULT × Option ID3D11Texture2D :=
  match pRes with
  | ID3D11Resource.texture2D t => (HRESULT.S_OK, some t)
  | _ => (HRESULT.E_NOINTERFACE, none)

/-- What a successful `D3DX11CreateShaderResourceViewFromFile` hands back: the
view, and the resource `GetResource` returns for it. -/
structure LoadedView where
  pSrv : ID3D11ShaderResourceView
  pRes : ID3D11Resource

/-- The call `D3DX11CreateShaderResourceViewFromFile(pDevice, path, &imgLoadInfo,
nullptr, &pSrv, nullptr)` on a given device: the outcome for a path and a load
request; `none` is a failed `HRESULT`. -/
abbrev FileLoader := String → D3DX11_IMAGE_LOAD_INFO → Option LoadedView

/-- The load request `LoadTexture2D` builds from its flags (the assignments to
`imgLoadInfo`). -/
def imgLoadInfo2D (flags : TEXLOADFLAG) : D3DX11_IMAGE_LOAD_INFO :=
  let mipmap := flags.Mipmap
  let SRGB := flags.SRGB
  let HDR := flags.HDR
  { MipLevels := if mipmap then D3DX11_DEFAULT else 1,
    Usage := D3D11_USAGE.D3D11_USAGE_IMMUTABLE,
    BindFlags := D3D11_BIND_SHADER_RESOURCE,
    MiscFlags := D3DX11_DEFAULT,
    Format := if HDR then DXGI_FORMAT_R16G16B16A16_FLOAT
              else (if SRGB then DXGI_FORMAT_R8G8B8A8_UNORM_SRGB else DXGI_FORMAT_R8G8B8A8_UNORM),
    Filter := D3DX11_FILTER_TRIANGLE ||| (if SRGB then D3DX11_FILTER_SRGB else 0),
    MipFilter := D3DX11_FILTER_TRIANGLE }

/-- The load request `LoadTextureCube` builds from its flags. -/
def imgLoadInfoCube (flags : TEXLOADFLAG) : D3DX11_IMAGE_LOAD_INFO :=
  let mipmap := flags.Mipmap
  let SRGB := flags.SRGB
  let HDR := flags.HDR
  { MipLevels := if mipmap then D3DX11_DEFAULT else 1,
    Usage := D3D11_USAGE.D3D11_USAGE_IMMUTABLE,
    BindFlags := D3D11_BIND_SHADER_RESOURCE,
    MiscFlags := D3D11_RESOURCE_MISC_TEXTURECUBE,
    Format := if HDR then DXGI_FORMAT_R16G16B16A16_FLOAT
              else (if SRGB then DXGI_FORMAT_R8G8B8A8_UNORM_SRGB else DXGI_FORMAT_R8G8B8A8_UNORM),
    Filter := D3DX11_FILTER_TRIANGLE ||| (if SRGB then D3DX11_FILTER_SRGB else 0),
    MipFilter := D3DX11_FILTER_TRIANGLE }

/-- Modelled from the spec: `ASSERT_WARN_MSG` of the framework header, which is
not among these sources; a false condition is "a non-fatal warning": the
message is logged and the function goes on. -/
def ASSERT_WARN_MSG (cond : Bool) (msg : String) : List String :=
  if cond then [] else [msg]

/-- The function `LoadTexture2D`: the value returned, the output texture object
after the call, and the warnings logged. -/
def LoadTexture2D (loader : FileLoader) (path : String) (pTexOut : Texture2D)
    (flags : TEXLOADFLAG) : Bool × Texture2D × List String :=
  let SRGB := flags.SRGB
  let HDR := flags.HDR
  let warned : List String :=
    if HDR then ASSERT_WARN_MSG (!SRGB) "HDR bitmaps cannot be in SRGB space" else []
  let imgLoadInfo := imgLoadInfo2D flags
  match loader path imgLoadInfo with
  | none => (false, pTexOut, warned ++ ["Couldn't load texture %s"])
  | some loaded =>
    let srvDesc := loaded.pSrv.desc
    if srvDesc.ViewDimension ≠ D3D11_SRV_DIMENSION.D3D11_SRV_DIMENSION_TEXTURE2D then
      (false, pTexOut,
       warned ++ ["Loaded texture %s, but it's not a 2D texture - srvDesc.ViewDimension = %d"])
    else
      match loaded.pRes.QueryInterfaceTexture2D with
      | (_, none) =>
        (false, pTexOut,
         warned ++ ["Loaded texture %s, but couldn't get ID3D11Texture2D interface"])
      | (hr, some pTex) =>
        if FAILED hr then
          (false, pTexOut,
           warned ++ ["Loaded texture %s, but couldn't get ID3D11Texture2D interface"])
        else
          let texDesc := pTex.desc
          (true,
           { pTexOut with
             m_pTex := some pTex,
             m_pSrv := some loaded.pSrv,
             m_dims := ⟨wrapInt texDesc.Width, wrapInt texDesc.Height⟩,
             m_mipLevels := wrapInt texDesc.MipLevels,
             m_format := texDesc.Format },
           warned)

/-- The function `LoadTextureCube`: the value returned, the output cube object
after the call, and the warnings logged; an error when one of the `ASSERT_ERR`
checks on the loaded texture fails. -/
def LoadTextureCube (loader : FileLoader) (path : String) (pTexOut : TextureCube)
    (flags : TEXLOADFLAG) : Except Fatal (Bool × TextureCube × List String) :=
  let SRGB := flags.SRGB
  let HDR := flags.HDR
  let warned : List String :=
    if HDR then ASSERT_WARN_MSG (!SRGB) "HDR bitmaps cannot be in SRGB space" else []
  let imgLoadInfo := imgLoadInfoCube flags
  match loader path imgLoadInfo with
  | none => Except.ok (false, pTexOut, warned ++ ["Couldn't load texture %s"])
  | some loaded =>
    let srvDesc := loaded.pSrv.desc
    if srvDesc.ViewDimension ≠ D3D11_SRV_DIMENSION.D3D11_SRV_DIMENSION_TEXTURECUBE then
      Except.ok (false, pTexOut,
        warned ++ ["Loaded texture %s, but it's not a cubemap - srvDesc.ViewDimension = %d"])
    else
      match loaded.pRes.QueryInterfaceTexture2D with
      | (_, none) =>
        Except.ok (false, pTexOut,
          warned ++ ["Loaded texture %s, but couldn't get ID3D11Texture2D interface"])
      | (hr, some pTex) =>
        if FAILED hr then
          Except.ok (false, pTexOut,
            warned ++ ["Loaded texture %s, but couldn't get ID3D11Texture2D interface"])
        else do
          let texDesc := pTex.desc
          ASSERT_ERR (decide (texDesc.Width = texDesc.Height))
          ASSERT_ERR (decide (texDesc.ArraySize = 6))
          ASSERT_ERR (decide (texDesc.MiscFlags &&& D3D11_RESOURCE_MISC_TEXTURECUBE ≠ 0))
          return (true,
            { pTexOut with
              m_pTex := some pTex,
              m_pSrv := some loaded.pSrv,
              m_cubeSize := wrapInt texDesc.Width,
              m_mipLevels := wrapInt texDesc.MipLevels,
              m_format := texDesc.Format },
            warned)

/-! ## Reading the calls of `OnResize` -/

/-- The identities of the objects the window holds through its six handles to
the back buffer, the depth buffer and their views, in the order in which
`OnResize` releases them. -/
def D3D11Window.heldHandles (self : D3D11Window) : List Nat :=
  (self.m_pTexBackBuffer.map fun t => t.id).toList
    ++ (self.m_pRtvSRGB.map fun v => v.id).toList
    ++ (self.m_pRtvRaw.map fun v => v.id).toList
    ++ (self.m_pTexDepth.map fun t => t.id).toList
    ++ (self.m_pDsv.map fun v => v.id).toList
    ++ (self.m_pSrvDepth.map fun v => v.id).toList

/-- Whether a call is a `Release`. -/
def Call.isRelease (c : Call) : Bool :=
  match c with
  | Call.Release _ => true
  | _ => false

/-- Whether a call creates a texture or a view, or fetches the back buffer. -/
def Call.isCreation (c : Call) : Bool :=
  match c with
  | Call.GetBuffer _ => true
  | Call.CreateRenderTargetView _ _ => true
  | Call.CreateTexture2D _ => true
  | Call.CreateDepthStencilView _ _ => true
  | Call.CreateShaderResourceView _ _ => true
  | _ => false

/-- A loaded 4 by 4 texture with its 2D view. -/
def sampleLoaded2D : LoadedView :=
  { pSrv :=
      { id := 21, resource := 20,
        desc :=
          { Format := DXGI_FORMAT_R8G8B8A8_UNORM,
            ViewDimension := D3D11_SRV_DIMENSION.D3D11_SRV_DIMENSION_TEXTURE2D,
            MostDetailedMip := 0, MipLevels := 1 } },
    pRes :=
      ID3D11Resource.texture2D
        { id := 20,
          desc :=
            { Width := 4, Height := 4, MipLevels := 1, ArraySize := 1,
              Format := DXGI_FORMAT_R8G8B8A8_UNORM, SampleDesc := (1, 0),
              Usage := D3D11_USAGE.D3D11_USAGE_IMMUTABLE,
              BindFlags := D3D11_BIND_SHADER_RESOURCE, CPUAccessFlags := 0, MiscFlags := 0 },
          texels := fun _ _ _ => 0 } }

/-- A file loader that knows one file, `"tex.dds"`, a 2D texture. -/
def sampleLoader : FileLoader :=
  fun path _ => if path = "tex.dds" then some sampleLoaded2D else none

/-! ## Channel widths spelled in a format name

These two definitions do not come from the sources: they say what "the sum of
the decimal channel widths spelled in the name" of a format is, to compare the
two tables with each other. -/

/-- The sum of the decimal numbers in a list of characters; `cur` is the value
of the digits read since the last character that is not a digit. -/
def sumDigitRuns : List Char → Nat → Nat
  | [], cur => cur
  | c :: cs, cur =>
    if 48 ≤ c.toNat ∧ c.toNat ≤ 57 then sumDigitRuns cs (cur * 10 + (c.toNat - 48))
    else cur + sumDigitRuns cs 0

/-- The sum of the decimal numbers spelled in a format name, such as
`32 + 32 + 32 + 32` for `R32G32B32A32_FLOAT`. -/
def channelWidthSum (name : String) : Nat := sumDigitRuns name.toList 0

/-- The ids of the known formats that are not block-compressed, not a packed
pair and not a video format: 1..67, 85..93 and 113..115. -/
def plainFormatId (k : Int) : Prop :=
  (1 ≤ k ∧ k ≤ 67) ∨ (85 ≤ k ∧ k ≤ 93) ∨ (113 ≤ k ∧ k ≤ 115)

instance (k : Int) : Decidable (plainFormatId k) := by unfold plainFormatId; infer_instance

/-- A 3 by 2 texture of the 1-bit format `R1_UNORM` with one mip level: a row
has 3 bits. -/
def sampleBitTexture : Texture2D :=
  { m_pTex :=
      some { id := 9,
             desc :=
               { Width := 3, Height := 2, MipLevels := 1, ArraySize := 1,
                 Format := DXGI_FORMAT_R1_UNORM, SampleDesc := (1, 0),
                 Usage := D3D11_USAGE.D3D11_USAGE_DEFAULT,
                 BindFlags := D3D11_BIND_SHADER_RESOURCE, CPUAccessFlags := 0, MiscFlags := 0 },
             texels := fun _ _ _ => 255 },
    m_pSrv := none, m_pUav := none,
    m_dims := ⟨3, 2⟩, m_mipLevels := 1, m_format := DXGI_FORMAT_R1_UNORM }

/-- The image `Map` returns in `sampleBitTexture.Readback` at level 0 under a
row pitch of 16. -/
def sampleMappedBit : D3D11_MAPPED_SUBRESOURCE :=
  ((pitchedContext sampleDevice 16 32).Map2D
    (sampleBitTexture.ReadbackStaging (pitchedContext sampleDevice 16 32) 0).1).2

/-- Stack memory holding the byte 7 everywhere. -/
def sampleStack : Memory := fun _ => 7

/-- The colour red: `(1, 0, 0, 1)`. -/
def sampleRed : rgba := ⟨1, 0, 0, 1⟩

/-- The `float` literal `0.7f`: `11744051 * 2 ^ -24`, the binary32 value nearest
to 0.7 (bit pattern `0x3F333333`). -/
def sampleSevenTenths : float := float.finite false 11744051 (-24)

/-- The `float` literal `0.9f`: `15099494 * 2 ^ -24`, the binary32 value nearest
to 0.9 (bit pattern `0x3F666666`). -/
def sampleNineTenths : float := float.finite false 15099494 (-24)

/-- A colour with a channel below 0, a channel above 1, and the channels `0.7f`
and `0.9f`: `(-2, 3, 0.7f, 0.9f)`. -/
def sampleWide : rgba :=
  ⟨float.finite true 2 0, float.finite false 3 0, sampleSevenTenths, sampleNineTenths⟩

/-- The result of `CreateTexture1x1` for red in a 32-bit format on
`sampleDevice`, into a new resource. -/
def sampleSolid : Texture2D × ID3D11Device :=
  match CreateTexture1x1 sampleDevice sampleRed Texture2D.construct
      DXGI_FORMAT_R8G8B8A8_UNORM sampleStack with
  | Except.ok r => r
  | Except.error _ => (Texture2D.construct, sampleDevice)

/-- The image `Map` returns in `Readback` of `sampleSolid` at level 0 under a
row pitch of 256. -/
def sampleMappedSolid : D3D11_MAPPED_SUBRESOURCE :=
  ((pitchedContext sampleSolid.2 256 256).Map2D
    (sampleSolid.1.ReadbackStaging (pitchedContext sampleSolid.2 256 256) 0).1).2

/-- The result of `CreateTextureCube1x1` for red in a 32-bit format on
`sampleDevice`, into a new resource. -/
def sampleSolidCube : TextureCube × ID3D11Device :=
  match CreateTextureCube1x1 sampleDevice sampleRed TextureCube.construct
      DXGI_FORMAT_R8G8B8A8_UNORM sampleStack with
  | Except.ok r => r
  | Except.error _ => (TextureCube.construct, sampleDevice)

/-! # Theorems -/

/-! ## Machine integers -/

theorem uint_of_nonneg {n : Int} (h0 : 0 ≤ n) (h1 : n < 4294967296) : (uint n : Int) = n := by
  unfold uint
  rw [Int.toNat_of_nonneg (Int.emod_nonneg _ (by decide)), Int.emod_eq_of_lt h0 h1]

theorem uint_natCast {n : Nat} (h : n < 4294967296) : uint (n : Int) = n := by
  have := uint_of_nonneg (n := (n : Int)) (by omega) (by omega)
  omega

theorem wrapInt_of_isInt {n : Int} (h0 : -2147483648 ≤ n) (h1 : n < 2147483648) :
    wrapInt n = n := by
  unfold wrapInt
  rw [Int.emod_eq_of_lt (by omega) (by omega)]
  omega

theorem size_t_of_nonneg {n : Int} (h0 : 0 ≤ n) (h1 : n < 18446744073709551616) :
    (size_t n : Int) = n := by
  unfold size_t
  rw [Int.toNat_of_nonneg (Int.emod_nonneg _ (by decide)), Int.emod_eq_of_lt h0 h1]

theorem uint_neg_ge {n : Int} (h0 : -2147483648 ≤ n) (h1 : n < 0) : 2147483648 ≤ uint n := by
  unfold uint
  have : n % 4294967296 = n + 4294967296 := by
    rw [← Int.add_emod_self, Int.emod_eq_of_lt (by omega) (by omega)]
  omega

/-! ## The format tables -/

theorem dim_s_names : dim s_names = 116 := by decide

theorem dim_s_bitsPerPixel : dim s_bitsPerPixel = 116 := by decide

theorem arrayRead_eq {α : Type} (xs : List α) {i : Int} (h0 : 0 ≤ i) :
    arrayRead xs i = xs.get? i.toNat := by
  unfold arrayRead
  rw [if_neg (by omega)]

theorem uint_lt_of_table_id {n : Int} (h0 : 0 ≤ n) (h1 : n ≤ 115) : uint n = n.toNat := by
  have := uint_of_nonneg h0 (by omega)
  omega

theorem uint_ge_of_large {n : Int} (h0 : 116 ≤ n) (h1 : n < 2147483648) : 116 ≤ uint n := by
  have := uint_of_nonneg (n := n) (by omega) (by omega)
  omega

theorem format_lookup_fallback (format : DXGI_FORMAT) (h : 116 ≤ uint format.val) :
    NameOfFormat format = some "UNKNOWN" ∧ BitsPerPixel format = some 0 := by
  constructor
  · unfold NameOfFormat
    rw [if_pos (by rw [dim_s_names]; exact h)]
  · unfold BitsPerPixel
    rw [if_pos (by rw [dim_s_bitsPerPixel]; exact h)]

theorem format_lookup_table (format : DXGI_FORMAT) (h0 : 0 ≤ format.val)
    (h1 : format.val ≤ 115) :
    ∃ name bits, s_names.get? format.val.toNat = some name
      ∧ s_bitsPerPixel.get? format.val.toNat = some bits
      ∧ NameOfFormat format = some name ∧ BitsPerPixel format = some bits := by
  have hu := uint_lt_of_table_id h0 h1
  have hlt : format.val.toNat < 116 := by omega
  have hn : format.val.toNat < s_names.length := by
    have := dim_s_names; unfold dim at this; omega
  have hb : format.val.toNat < s_bitsPerPixel.length := by
    have := dim_s_bitsPerPixel; unfold dim at this; omega
  refine ⟨s_names.get ⟨_, hn⟩, s_bitsPerPixel.get ⟨_, hb⟩, List.get?_eq_get hn,
    List.get?_eq_get hb, ?_, ?_⟩
  · unfold NameOfFormat
    rw [if_neg (by rw [dim_s_names]; omega), arrayRead_eq _ h0]
    exact List.get?_eq_get hn
  · unfold BitsPerPixel
    rw [if_neg (by rw [dim_s_bitsPerPixel]; omega), arrayRead_eq _ h0]
    exact List.get?_eq_get hb

theorem format_id_unsigned (format : DXGI_FORMAT) (h : format.val < 0 ∨ 116 ≤ format.val) :
    116 ≤ uint format.val := by
  rcases h with h | h
  · have := uint_neg_ge format.inRange.1 h
    omega
  · exact uint_ge_of_large h format.inRange.2

theorem format_lookups_return (format : DXGI_FORMAT) :
    ∃ name bits, NameOfFormat format = some name ∧ BitsPerPixel format = some bits := by
  by_cases hr : 0 ≤ format.val ∧ format.val ≤ 115
  · obtain ⟨name, bits, _, _, h3, h4⟩ := format_lookup_table format hr.1 hr.2
    exact ⟨name, bits, h3, h4⟩
  · have h := format_lookup_fallback format (format_id_unsigned format (by omega))
    exact ⟨_, _, h.1, h.2⟩

/-- C1: `NameOfFormat` and `BitsPerPixel` return for every 32-bit format id.
When the id read as an unsigned integer is at least 116, the length of both
tables (every negative id and every id from 116 on, such as 116 itself, one past
`B4G4R4A4_UNORM` = 115), they return `"UNKNOWN"` and `0`; when the id is in
0..115 they return entry number id of `s_names` and of `s_bitsPerPixel`. -/
theorem format_lookups_total (format : DXGI_FORMAT) :
    (∃ name bits, NameOfFormat format = some name ∧ BitsPerPixel format = some bits)
    ∧ dim s_names = 116 ∧ dim s_bitsPerPixel = 116
    ∧ (116 ≤ uint format.val →
        NameOfFormat format = some "UNKNOWN" ∧ BitsPerPixel format = some 0)
    ∧ (format.val < 0 ∨ 116 ≤ format.val → 116 ≤ uint format.val)
    ∧ (0 ≤ format.val ∧ format.val ≤ 115 →
        ∃ name bits, s_names.get? format.val.toNat = some name
          ∧ s_bitsPerPixel.get? format.val.toNat = some bits
          ∧ NameOfFormat format = some name ∧ BitsPerPixel format = some bits)
    ∧ NameOfFormat DXGI_FORMAT_B4G4R4A4_UNORM = some "B4G4R4A4_UNORM"
    ∧ BitsPerPixel DXGI_FORMAT_B4G4R4A4_UNORM = some 16
    ∧ NameOfFormat ⟨116, by decide⟩ = some "UNKNOWN"
    ∧ BitsPerPixel ⟨116, by decide⟩ = some 0 :=
  ⟨format_lookups_return format, dim_s_names, dim_s_bitsPerPixel,
    format_lookup_fallback format, format_id_unsigned format,
    fun h => format_lookup_table format h.1 h.2, by decide, by decide, by decide, by decide⟩

/-! ## Copying rows -/

theorem memcpy_inside (dst src : Memory) (pDst pSrc : Int) (count : Nat) (a : Int)
    (h0 : pDst ≤ a) (h1 : a < pDst + count) :
    memcpy dst pDst src pSrc count a = src (pSrc + (a - pDst)) := by
  unfold memcpy
  rw [if_pos ⟨h0, h1⟩]

theorem memcpy_outside (dst src : Memory) (pDst pSrc : Int) (count : Nat) (a : Int)
    (h : a < pDst ∨ pDst + count ≤ a) :
    memcpy dst pDst src pSrc count a = dst a := by
  unfold memcpy
  rw [if_neg (by omega)]

/-- A run of `k` row copies in exact arithmetic: row `y` goes from `S + y * p`
to `D + y * n`. Bytes outside `[D, D + k * n)` keep their value, and row `y` of
the result is row `y` of the source. -/
theorem rows_fold (n : Nat) (D S p : Int) (src out0 : Memory) (k : Nat) :
    (∀ a : Int, (a < D ∨ D + (k : Int) * n ≤ a) →
      (List.range k).foldl
        (fun out (y : Nat) => memcpy out (D + (y : Int) * n) src (S + (y : Int) * p) n) out0 a
        = out0 a)
    ∧ (∀ y : Nat, y < k → ∀ i : Int, 0 ≤ i → i < n →
      (List.range k).foldl
        (fun out (y : Nat) => memcpy out (D + (y : Int) * n) src (S + (y : Int) * p) n) out0
        (D + (y : Int) * n + i) = src (S + (y : Int) * p + i)) := by
  induction k with
  | zero =>
    constructor
    · intro a _; simp
    · intro y hy; omega
  | succ k ih =>
    obtain ⟨ihFrame, ihRows⟩ := ih
    have hn : (0 : Int) ≤ n := Int.ofNat_nonneg n
    have hkn : (0 : Int) ≤ (k : Int) * n := mul_nonneg (Int.ofNat_nonneg k) hn
    constructor
    · intro a ha
      rw [List.range_succ, List.foldl_append, List.foldl_cons, List.foldl_nil]
      have hk1 : ((k + 1 : Nat) : Int) * n = (k : Int) * n + n := by push_cast; ring
      rw [hk1] at ha
      rw [memcpy_outside _ _ _ _ _ _ (by omega)]
      exact ihFrame a (by omega)
    · intro y hy i hi0 hi1
      rw [List.range_succ, List.foldl_append, List.foldl_cons, List.foldl_nil]
      by_cases hyk : y = k
      · subst hyk
        rw [memcpy_inside _ _ _ _ _ _ (by omega) (by omega)]
        congr 1
        ring
      · have hylt : y < k := by omega
        have hle : ((y : Int) + 1) * n ≤ (k : Int) * n :=
          mul_le_mul_of_nonneg_right (by exact_mod_cast hylt) hn
        have hexp : ((y : Int) + 1) * n = (y : Int) * n + n := by ring
        rw [memcpy_outside _ _ _ _ _ _ (by omega)]
        exact ihRows y hylt i hi0 hi1

/-- Bounds on the offsets of row `y` of an image of `height` rows whose
`height * pitch` bytes number at most `2^31`, for rows that are not empty. -/
theorem row_offset_bounds {y : Nat} {height rowSize : Int} {pitch : Nat}
    (hy : y < height.toNat) (h0 : 0 < rowSize) (hp : rowSize ≤ pitch)
    (himg : height * pitch ≤ 2147483648) :
    0 ≤ (y : Int) * rowSize ∧ (y : Int) * rowSize < 2147483648
    ∧ (y : Int) * pitch < 2147483648 ∧ rowSize ≤ 2147483648 ∧ (y : Int) < 2147483648 := by
  have hyh : (y : Int) + 1 ≤ height := by omega
  have hpn : (0 : Int) ≤ pitch := Int.ofNat_nonneg pitch
  have hy0 : (0 : Int) ≤ y := Int.ofNat_nonneg y
  have h1 : ((y : Int) + 1) * pitch ≤ height * pitch := mul_le_mul_of_nonneg_right hyh hpn
  have h2 : ((y : Int) + 1) * pitch = (y : Int) * pitch + pitch := by ring
  have h3 : (y : Int) * rowSize ≤ (y : Int) * pitch := mul_le_mul_of_nonneg_left hp hy0
  have h4 : 0 ≤ (y : Int) * rowSize := mul_nonneg hy0 (by omega)
  have h5 : (y : Int) * 1 ≤ (y : Int) * pitch := mul_le_mul_of_nonneg_left (by omega) hy0
  exact ⟨h4, by omega, by omega, by omega, by omega⟩

/-- Under the bounds of `row_offset_bounds` the row loop computes with exact
offsets: no product wraps. -/
theorem copyRows_exact (pDataOut : Memory) (mapped : D3D11_MAPPED_SUBRESOURCE)
    (rowSize height : Int) (h0 : 0 < rowSize) (hp : rowSize ≤ mapped.RowPitch)
    (himg : height * mapped.RowPitch ≤ 2147483648) :
    copyRows pDataOut mapped rowSize height
      = (List.range height.toNat).foldl
          (fun out (y : Nat) =>
            memcpy out (0 + (y : Int) * (rowSize.toNat : Nat)) mapped.pData
              (0 + (y : Int) * (mapped.RowPitch : Int)) rowSize.toNat)
          pDataOut := by
  unfold copyRows
  apply List.foldl_ext
  intro out y hy
  rw [List.mem_range] at hy
  obtain ⟨b1, b2, b3, b4, b5⟩ := row_offset_bounds hy h0 hp himg
  have e1 : wrapInt ((y : Int) * rowSize) = (y : Int) * rowSize :=
    wrapInt_of_isInt (by omega) b2
  have e2 : uint (y : Int) = y := uint_natCast (by omega)
  have e3 : ((y * mapped.RowPitch % 4294967296 : Nat) : Int) = (y : Int) * mapped.RowPitch := by
    have : y * mapped.RowPitch < 4294967296 := by
      have : ((y * mapped.RowPitch : Nat) : Int) < 4294967296 := by push_cast; omega
      exact_mod_cast this
    rw [Nat.mod_eq_of_lt this]
    push_cast
    rfl
  have e4 : size_t rowSize = rowSize.toNat := by
    have := size_t_of_nonneg (n := rowSize) (by omega) (by omega)
    omega
  have e5 : ((rowSize.toNat : Nat) : Int) = rowSize := Int.toNat_of_nonneg (by omega)
  rw [e1, e2, e3, e4, e5]
  unfold advanceBytes
  rfl

/-- The row loop packs the rows: byte `i` of row `y` of the output is byte `i`
of row `y` of the mapped image, whatever the row pitch. -/
theorem copyRows_rows (pDataOut : Memory) (mapped : D3D11_MAPPED_SUBRESOURCE)
    (rowSize height : Int) (hp : rowSize ≤ mapped.RowPitch)
    (himg : height * mapped.RowPitch ≤ 2147483648)
    (y i : Int) (hy0 : 0 ≤ y) (hy1 : y < height) (hi0 : 0 ≤ i) (hi1 : i < rowSize) :
    copyRows pDataOut mapped rowSize height (y * rowSize + i)
      = mapped.pData (y * mapped.RowPitch + i) := by
  have h0 : 0 < rowSize := by omega
  rw [copyRows_exact pDataOut mapped rowSize height h0 hp himg]
  have e5 : ((rowSize.toNat : Nat) : Int) = rowSize := Int.toNat_of_nonneg (by omega)
  have hrows := (rows_fold rowSize.toNat 0 0 mapped.RowPitch mapped.pData pDataOut
    height.toNat).2 y.toNat (by omega) i hi0 (by omega)
  have ey : ((y.toNat : Nat) : Int) = y := Int.toNat_of_nonneg hy0
  rw [ey, e5] at hrows
  rw [e5]
  simp only [zero_add] at hrows ⊢
  exact hrows

/-- The row loop writes only below `height * rowSize`. -/
theorem copyRows_frame (pDataOut : Memory) (mapped : D3D11_MAPPED_SUBRESOURCE)
    (rowSize height : Int) (h0 : 0 < rowSize) (hp : rowSize ≤ mapped.RowPitch)
    (himg : height * mapped.RowPitch ≤ 2147483648)
    (a : Int) (ha : a < 0 ∨ (height.toNat : Int) * rowSize ≤ a) :
    copyRows pDataOut mapped rowSize height a = pDataOut a := by
  rw [copyRows_exact pDataOut mapped rowSize height h0 hp himg]
  have e5 : ((rowSize.toNat : Nat) : Int) = rowSize := Int.toNat_of_nonneg (by omega)
  have hframe := (rows_fold rowSize.toNat 0 0 mapped.RowPitch mapped.pData pDataOut
    height.toNat).1 a (by rw [e5]; omega)
  exact hframe

/-! ## Bits per pixel -/

theorem s_bitsPerPixel_bounds : ∀ b ∈ s_bitsPerPixel, 0 ≤ b ∧ b ≤ 128 := by decide

theorem BitsPerPixel_bounds {format : DXGI_FORMAT} {bpp : Int}
    (h : BitsPerPixel format = some bpp) : 0 ≤ bpp ∧ bpp ≤ 128 := by
  unfold BitsPerPixel at h
  split at h
  · cases h
    decide
  · unfold arrayRead at h
    split at h
    · cases h
    · exact s_bitsPerPixel_bounds bpp (List.get?_mem h)

theorem BitsPerPixel_total (format : DXGI_FORMAT) : ∃ bpp, BitsPerPixel format = some bpp := by
  obtain ⟨_, bits, _, h⟩ := format_lookups_return format
  exact ⟨bits, h⟩

/-- The row size `width * bpp / 8` of the source, when the product does not
wrap: the truncating division of a value that is not negative. -/
theorem rowSize_exact {width bpp : Int} (hw : 0 ≤ width) (hb : 0 ≤ bpp)
    (hfit : width * bpp < 2147483648) :
    Int.tdiv (wrapInt (width * bpp)) 8 = width * bpp / 8
    ∧ 0 ≤ width * bpp / 8 ∧ width * bpp / 8 < 2147483648 := by
  have hprod : 0 ≤ width * bpp := mul_nonneg hw hb
  rw [wrapInt_of_isInt (by omega) hfit, Int.tdiv_eq_ediv hprod (by decide)]
  exact ⟨rfl, by omega, by omega⟩

theorem CalculateMipDims_pos (baseDim level : Int) : 1 ≤ CalculateMipDims baseDim level := by
  unfold CalculateMipDims
  exact le_max_left _ _

/-! ## Readback -/

/-- When its checks pass, `Texture2D::Readback` returns the output of the row
loop run on the mapped staging image. -/
theorem Texture2D_Readback_eq (self : Texture2D) (pCtx : ID3D11DeviceContext) (level : Int)
    (pDataOut : Memory) (bpp : Int) (mapped : D3D11_MAPPED_SUBRESOURCE)
    (hinit : self.m_pTex.isSome = true) (hl0 : 0 ≤ level) (hl1 : level < self.m_mipLevels)
    (hbpp : BitsPerPixel self.m_format = some bpp)
    (hmap : pCtx.Map2D (self.ReadbackStaging pCtx level).1 = (HRESULT.S_OK, mapped))
    (hpitch : uint (Int.tdiv (wrapInt ((CalculateMipDims2 self.m_dims level).x * bpp)) 8)
      ≤ mapped.RowPitch) :
    self.Readback pCtx level pDataOut
      = Except.ok
          (copyRows pDataOut mapped
            (Int.tdiv (wrapInt ((CalculateMipDims2 self.m_dims level).x * bpp)) 8)
            (CalculateMipDims2 self.m_dims level).y,
           { pCtx with device := (self.ReadbackStaging pCtx level).2 }) := by
  unfold Texture2D.Readback
  simp only [hinit, ASSERT_ERR, hl0, hl1, hmap, hbpp, tableRead, CHECK_D3D, FAILED, hpitch,
    bind, Except.bind, pure, Except.pure, ge_iff_le, and_self, decide_True, if_true]
  rfl

/-- When its checks pass, `TextureCube::Readback` returns the output of the row
loop run on the mapped staging image. -/
theorem TextureCube_Readback_eq (self : TextureCube) (pCtx : ID3D11DeviceContext)
    (face level : Int) (pDataOut : Memory) (bpp : Int) (mapped : D3D11_MAPPED_SUBRESOURCE)
    (hinit : self.m_pTex.isSome = true) (hf0 : 0 ≤ face) (hf1 : face < 6)
    (hl0 : 0 ≤ level) (hl1 : level < self.m_mipLevels)
    (hbpp : BitsPerPixel self.m_format = some bpp)
    (hmap : pCtx.Map2D (self.ReadbackStaging pCtx face level).1 = (HRESULT.S_OK, mapped))
    (hpitch : uint (Int.tdiv (wrapInt (CalculateMipDims self.m_cubeSize level * bpp)) 8)
      ≤ mapped.RowPitch) :
    self.Readback pCtx face level pDataOut
      = Except.ok
          (copyRows pDataOut mapped
            (Int.tdiv (wrapInt (CalculateMipDims self.m_cubeSize level * bpp)) 8)
            (CalculateMipDims self.m_cubeSize level),
           { pCtx with device := (self.ReadbackStaging pCtx face level).2 }) := by
  unfold TextureCube.Readback
  simp only [hinit, ASSERT_ERR, hf0, hf1, hl0, hl1, hmap, hbpp, tableRead, CHECK_D3D, FAILED,
    hpitch, bind, Except.bind, pure, Except.pure, ge_iff_le, and_self, decide_True, if_true]
  rfl

/-- The 2D row copy: `Texture2D::Readback` on an initialised texture returns,
and its output holds the rows of the mapped image tightly packed. -/
theorem Texture2D_Readback_rows (self : Texture2D) (pCtx : ID3D11DeviceContext) (level : Int)
    (pDataOut : Memory) (bpp : Int) (mapped : D3D11_MAPPED_SUBRESOURCE)
    (hinit : self.m_pTex.isSome = true) (hl0 : 0 ≤ level) (hl1 : level < self.m_mipLevels)
    (hbpp : BitsPerPixel self.m_format = some bpp)
    (hmap : pCtx.Map2D (self.ReadbackStaging pCtx level).1 = (HRESULT.S_OK, mapped))
    (hpitch : (CalculateMipDims2 self.m_dims level).x * bpp / 8 ≤ mapped.RowPitch)
    (hfit : (CalculateMipDims2 self.m_dims level).x * bpp < 2147483648)
    (himg : (CalculateMipDims2 self.m_dims level).y * mapped.RowPitch ≤ 2147483648) :
    ∃ out ctx, self.Readback pCtx level pDataOut = Except.ok (out, ctx)
      ∧ ∀ y i : Int, 0 ≤ y → y < (CalculateMipDims2 self.m_dims level).y →
          0 ≤ i → i < (CalculateMipDims2 self.m_dims level).x * bpp / 8 →
          out (y * ((CalculateMipDims2 self.m_dims level).x * bpp / 8) + i)
            = mapped.pData (y * mapped.RowPitch + i) := by
  have hw : 0 ≤ (CalculateMipDims2 self.m_dims level).x := by
    have := CalculateMipDims_pos self.m_dims.x level
    show 0 ≤ CalculateMipDims self.m_dims.x level
    omega
  obtain ⟨e, r0, r1⟩ := rowSize_exact hw (BitsPerPixel_bounds hbpp).1 hfit
  have hu : uint (Int.tdiv (wrapInt ((CalculateMipDims2 self.m_dims level).x * bpp)) 8)
      ≤ mapped.RowPitch := by
    rw [e]
    have := uint_of_nonneg r0 (by omega)
    omega
  refine ⟨_, _, Texture2D_Readback_eq self pCtx level pDataOut bpp mapped hinit hl0 hl1 hbpp
    hmap hu, ?_⟩
  intro y i hy0 hy1 hi0 hi1
  rw [e]
  exact copyRows_rows pDataOut mapped _ _ hpitch himg y i hy0 hy1 hi0 hi1

/-- The cube row copy: `TextureCube::Readback` on an initialised cube returns,
and its output holds the rows of the mapped image tightly packed. -/
theorem TextureCube_Readback_rows (self : TextureCube) (pCtx : ID3D11DeviceContext)
    (face level : Int) (pDataOut : Memory) (bpp : Int) (mapped : D3D11_MAPPED_SUBRESOURCE)
    (hinit : self.m_pTex.isSome = true) (hf0 : 0 ≤ face) (hf1 : face < 6)
    (hl0 : 0 ≤ level) (hl1 : level < self.m_mipLevels)
    (hbpp : BitsPerPixel self.m_format = some bpp)
    (hmap : pCtx.Map2D (self.ReadbackStaging pCtx face level).1 = (HRESULT.S_OK, mapped))
    (hpitch : CalculateMipDims self.m_cubeSize level * bpp / 8 ≤ mapped.RowPitch)
    (hfit : CalculateMipDims self.m_cubeSize level * bpp < 2147483648)
    (himg : CalculateMipDims self.m_cubeSize level * mapped.RowPitch ≤ 2147483648) :
    ∃ out ctx, self.Readback pCtx face level pDataOut = Except.ok (out, ctx)
      ∧ ∀ y i : Int, 0 ≤ y → y < CalculateMipDims self.m_cubeSize level →
          0 ≤ i → i < CalculateMipDims self.m_cubeSize level * bpp / 8 →
          out (y * (CalculateMipDims self.m_cubeSize level * bpp / 8) + i)
            = mapped.pData (y * mapped.RowPitch + i) := by
  have hw : 0 ≤ CalculateMipDims self.m_cubeSize level := by
    have := CalculateMipDims_pos self.m_cubeSize level
    omega
  obtain ⟨e, r0, r1⟩ := rowSize_exact hw (BitsPerPixel_bounds hbpp).1 hfit
  have hu : uint (Int.tdiv (wrapInt (CalculateMipDims self.m_cubeSize level * bpp)) 8)
      ≤ mapped.RowPitch := by
    rw [e]
    have := uint_of_nonneg r0 (by omega)
    omega
  refine ⟨_, _, TextureCube_Readback_eq self pCtx face level pDataOut bpp mapped hinit hf0 hf1
    hl0 hl1 hbpp hmap hu, ?_⟩
  intro y i hy0 hy1 hi0 hi1
  rw [e]
  exact copyRows_rows pDataOut mapped _ _ hpitch himg y i hy0 hy1 hi0 hi1

/-- C2: for every initialised `Texture2D` and `TextureCube`, every level in
range and every mapped staging image whose row pitch is at least
`rowSize = mipWidth * BitsPerPixel(format) / 8`, `Readback` returns and byte
`i` of row `y` of its output is byte `i` of row `y` of the mapped image,
`out[y * rowSize + i] = mapped[y * RowPitch + i]`: the rows are packed and the
padding of each GPU row is dropped, also when the pitch is larger than the row.
The image is one the 32-bit offsets of the source can address: the bit count of
a row fits an `int` and the image has at most `2^31` bytes. -/
theorem readback_packs_rows :
    (∀ (self : Texture2D) (pCtx : ID3D11DeviceContext) (level : Int) (pDataOut : Memory)
        (bpp : Int) (mapped : D3D11_MAPPED_SUBRESOURCE),
        self.m_pTex.isSome = true → 0 ≤ level → level < self.m_mipLevels →
        BitsPerPixel self.m_format = some bpp →
        pCtx.Map2D (self.ReadbackStaging pCtx level).1 = (HRESULT.S_OK, mapped) →
        (CalculateMipDims2 self.m_dims level).x * bpp / 8 ≤ mapped.RowPitch →
        (CalculateMipDims2 self.m_dims level).x * bpp < 2147483648 →
        (CalculateMipDims2 self.m_dims level).y * mapped.RowPitch ≤ 2147483648 →
        ∃ out ctx, self.Readback pCtx level pDataOut = Except.ok (out, ctx)
          ∧ ∀ y i : Int, 0 ≤ y → y < (CalculateMipDims2 self.m_dims level).y →
              0 ≤ i → i < (CalculateMipDims2 self.m_dims level).x * bpp / 8 →
              out (y * ((CalculateMipDims2 self.m_dims level).x * bpp / 8) + i)
                = mapped.pData (y * mapped.RowPitch + i))
    ∧ (∀ (self : TextureCube) (pCtx : ID3D11DeviceContext) (face level : Int)
        (pDataOut : Memory) (bpp : Int) (mapped : D3D11_MAPPED_SUBRESOURCE),
        self.m_pTex.isSome = true → 0 ≤ face → face < 6 →
        0 ≤ level → level < self.m_mipLevels →
        BitsPerPixel self.m_format = some bpp →
        pCtx.Map2D (self.ReadbackStaging pCtx face level).1 = (HRESULT.S_OK, mapped) →
        CalculateMipDims self.m_cubeSize level * bpp / 8 ≤ mapped.RowPitch →
        CalculateMipDims self.m_cubeSize level * bpp < 2147483648 →
        CalculateMipDims self.m_cubeSize level * mapped.RowPitch ≤ 2147483648 →
        ∃ out ctx, self.Readback pCtx face level pDataOut = Except.ok (out, ctx)
          ∧ ∀ y i : Int, 0 ≤ y → y < CalculateMipDims self.m_cubeSize level →
              0 ≤ i → i < CalculateMipDims self.m_cubeSize level * bpp / 8 →
              out (y * (CalculateMipDims self.m_cubeSize level * bpp / 8) + i)
                = mapped.pData (y * mapped.RowPitch + i)) :=
  ⟨Texture2D_Readback_rows, TextureCube_Readback_rows⟩

/-- Witness of C2: a 3 by 2 texture of a 32-bit format (rows of 12 bytes)
mapped at a row pitch of 16, and level 1 of a cube of edge 2 (rows of 4 bytes)
mapped at a row pitch of 256. -/
theorem readback_packs_rows_witness :
    (∃ out ctx, sampleTexture2D.Readback (pitchedContext sampleDevice 16 32) 0 samplePixels
        = Except.ok (out, ctx)
      ∧ ∀ y i : Int, 0 ≤ y → y < 2 → 0 ≤ i → i < 12 →
          out (y * 12 + i) = sampleMapped2D.pData (y * 16 + i))
    ∧ (∃ out ctx, sampleTextureCube.Readback (pitchedContext sampleDevice 256 256) 3 1 samplePixels
        = Except.ok (out, ctx)
      ∧ ∀ y i : Int, 0 ≤ y → y < 1 → 0 ≤ i → i < 4 →
          out (y * 4 + i) = sampleMappedCube.pData (y * 256 + i)) :=
  ⟨readback_packs_rows.1 sampleTexture2D (pitchedContext sampleDevice 16 32) 0 samplePixels 32
      sampleMapped2D rfl (by decide) (by decide) (by decide) rfl
      (by decide) (by decide) (by decide),
   readback_packs_rows.2 sampleTextureCube (pitchedContext sampleDevice 256 256) 3 1 samplePixels
      32 sampleMappedCube rfl (by decide) (by decide) (by decide) (by decide) (by decide) rfl
      (by decide) (by decide) (by decide)⟩

/-! ## Creation from memory, and the staging copy -/

theorem CalculateMipDims_zero {baseDim : Int} (h : 1 ≤ baseDim) :
    CalculateMipDims baseDim 0 = baseDim := by
  unfold CalculateMipDims
  simp [h]

/-- What a successful `CreateTexture2DFromMemory` leaves in the output: a
texture whose rows are the rows of the pixel buffer at the pitch
`dims.x * bpp / 8`, one mip level, the given dimensions and format. -/
theorem CreateTexture2DFromMemory_ok {pDevice dev : ID3D11Device} {dims : int2}
    {format : DXGI_FORMAT} {pPixels : Memory} {pTexOut tex : Texture2D} {bpp : Int}
    (hbpp : BitsPerPixel format = some bpp)
    (h : CreateTexture2DFromMemory pDevice dims format pPixels pTexOut = Except.ok (tex, dev)) :
    tex.m_dims = dims ∧ tex.m_mipLevels = 1 ∧ tex.m_format = format
    ∧ tex.m_pUav = pTexOut.m_pUav
    ∧ ∃ t srv, tex.m_pTex = some t ∧ tex.m_pSrv = some srv ∧ srv.resource = t.id
        ∧ t.desc.MipLevels = 1 ∧ t.desc.ArraySize = 1
        ∧ ∀ y i : Int, t.texels 0 y i
            = pPixels (y * (uint (Int.tdiv (wrapInt (dims.x * bpp)) 8) : Int) + i) := by
  unfold CreateTexture2DFromMemory at h
  simp only [hbpp, tableRead, bind, Except.bind, pure, Except.pure,
    ID3D11Device.CreateTexture2D, ID3D11Device.CreateShaderResourceView] at h
  cases hf1 : pDevice.failing pDevice.nextId
  · cases hf2 : pDevice.failing (pDevice.nextId + 1)
    · simp [hf1, hf2, CHECK_D3D, FAILED] at h
      obtain ⟨h1, _⟩ := h
      subst h1
      refine ⟨rfl, rfl, rfl, rfl, _, _, rfl, rfl, rfl, rfl, rfl, ?_⟩
      intro y i
      rfl
    · simp [hf1, hf2, CHECK_D3D, FAILED] at h
  · simp [hf1, CHECK_D3D, FAILED] at h

/-- The staging texture of `Texture2D::Readback`, when it exists, has the size
of the mip level and holds in subresource 0 the content of subresource `level`
of the owned texture. -/
theorem Texture2D_ReadbackStaging_some {self : Texture2D} {pCtx : ID3D11DeviceContext}
    {level : Int} {t staging : ID3D11Texture2D} (htex : self.m_pTex = some t)
    (hsub : uint level < t.desc.MipLevels * t.desc.ArraySize)
    (hs : (self.ReadbackStaging pCtx level).1 = some staging) :
    staging.texels 0 = t.texels (uint level)
    ∧ staging.desc.Width = uint (CalculateMipDims2 self.m_dims level).x
    ∧ staging.desc.Height = uint (CalculateMipDims2 self.m_dims level).y
    ∧ staging.desc.Format = self.m_format := by
  unfold Texture2D.ReadbackStaging at hs
  simp only [ID3D11Device.CreateTexture2D, htex] at hs
  cases hf : pCtx.device.failing pCtx.device.nextId
  · simp [hf, CopySubresourceRegion2D, hsub] at hs
    subst hs
    exact ⟨rfl, rfl, rfl, rfl⟩
  · simp [hf, CopySubresourceRegion2D] at hs

theorem Map2D_ok_some {pCtx : ID3D11DeviceContext} {p : Option ID3D11Texture2D}
    {mapped : D3D11_MAPPED_SUBRESOURCE} (h : pCtx.Map2D p = (HRESULT.S_OK, mapped)) :
    ∃ staging, p = some staging := by
  cases p with
  | none => simp [ID3D11DeviceContext.Map2D] at h
  | some s => exact ⟨s, rfl⟩

/-- Splitting a byte offset of a packed image into its row and its offset in
the row. -/
theorem packed_offset_split {k rowSize height : Int} (hr : 0 < rowSize) (hk0 : 0 ≤ k)
    (hk1 : k < height * rowSize) :
    0 ≤ k / rowSize ∧ k / rowSize < height ∧ 0 ≤ k % rowSize ∧ k % rowSize < rowSize
    ∧ k / rowSize * rowSize + k % rowSize = k := by
  refine ⟨Int.ediv_nonneg hk0 (by omega), Int.ediv_lt_of_lt_mul hr hk1,
    Int.emod_nonneg _ (by omega), Int.emod_lt_of_pos _ hr, ?_⟩
  have := Int.emod_add_ediv k rowSize
  rw [mul_comm] at this
  omega

/-- For a pixel size of 8, 16 or 32 bits the byte count of the image is the
number of rows times the byte count of a row. -/
theorem packed_size {w h bpp : Int} (h8 : bpp = 8 ∨ bpp = 16 ∨ bpp = 32) :
    w * h * bpp / 8 = h * (w * bpp / 8) ∧ w * bpp / 8 = w * (bpp / 8) ∧ 0 < bpp / 8 := by
  obtain ⟨c, hc, hc0⟩ : ∃ c : Int, bpp = c * 8 ∧ 0 < c := by
    rcases h8 with h | h | h
    · exact ⟨1, by omega, by omega⟩
    · exact ⟨2, by omega, by omega⟩
    · exact ⟨4, by omega, by omega⟩
  subst hc
  have e1 : w * h * (c * 8) / 8 = w * h * c := by
    rw [← mul_assoc]
    exact Int.mul_ediv_cancel _ (by decide)
  have e2 : w * (c * 8) / 8 = w * c := by
    rw [← mul_assoc]
    exact Int.mul_ediv_cancel _ (by decide)
  have e3 : c * 8 / 8 = c := Int.mul_ediv_cancel _ (by decide)
  rw [e1, e2, e3]
  exact ⟨by ring, rfl, hc0⟩

/-- C3: round trip. For every width and height above 0, every format of 8, 16
or 32 bits per pixel and every tightly packed pixel buffer, a successful
`CreateTexture2DFromMemory` followed by `Texture2D::Readback` at level 0
returns an output equal to the pixel buffer on all of its
`width * height * bpp / 8` bytes, for every row pitch of at least
`width * bpp / 8` that `Map` reports for the staging image (the mapped image
holding the rows of the staging texture at that pitch, and being addressable
with the 32-bit offsets of the source). -/
theorem create_from_memory_readback_roundtrip
    (pDevice dev : ID3D11Device) (dims : int2) (format : DXGI_FORMAT) (pPixels : Memory)
    (pTexOut tex : Texture2D) (bpp : Int) (pCtx : ID3D11DeviceContext)
    (mapped : D3D11_MAPPED_SUBRESOURCE) (pDataOut : Memory)
    (hw : 0 < dims.x) (hh : 0 < dims.y)
    (hbpp : BitsPerPixel format = some bpp) (h8 : bpp = 8 ∨ bpp = 16 ∨ bpp = 32)
    (hcreate : CreateTexture2DFromMemory pDevice dims format pPixels pTexOut
      = Except.ok (tex, dev))
    (hmap : pCtx.Map2D (tex.ReadbackStaging pCtx 0).1 = (HRESULT.S_OK, mapped))
    (hcontract : ∀ staging, (tex.ReadbackStaging pCtx 0).1 = some staging →
      MappedImageOf staging (dims.x * bpp / 8) mapped)
    (hpitch : dims.x * bpp / 8 ≤ mapped.RowPitch)
    (hfit : dims.x * bpp < 2147483648)
    (himg : dims.y * mapped.RowPitch ≤ 2147483648) :
    ∃ out ctx, tex.Readback pCtx 0 pDataOut = Except.ok (out, ctx)
      ∧ ∀ k : Int, 0 ≤ k → k < dims.x * dims.y * bpp / 8 → out k = pPixels k := by
  obtain ⟨hdims, hmips, hformat, _, t, srv, htex, _, _, hml, has, htexels⟩ :=
    CreateTexture2DFromMemory_ok hbpp hcreate
  obtain ⟨hsize, hrow, hc0⟩ := packed_size (w := dims.x) (h := dims.y) h8
  have hrs0 : 0 < dims.x * bpp / 8 := by
    rw [hrow]
    exact mul_pos hw hc0
  have hmx : (CalculateMipDims2 tex.m_dims 0).x = dims.x := by
    rw [hdims]
    exact CalculateMipDims_zero (by omega)
  have hmy : (CalculateMipDims2 tex.m_dims 0).y = dims.y := by
    rw [hdims]
    exact CalculateMipDims_zero (by omega)
  have hbpp2 : BitsPerPixel tex.m_format = some bpp := by rw [hformat]; exact hbpp
  obtain ⟨out, ctx, hread, hrows⟩ := Texture2D_Readback_rows tex pCtx 0 pDataOut bpp mapped
    (by rw [htex]; rfl) (le_refl 0) (by rw [hmips]; decide) hbpp2 hmap
    (by rw [hmx]; exact hpitch) (by rw [hmx]; exact hfit) (by rw [hmy]; exact himg)
  rw [hmx, hmy] at hrows
  obtain ⟨staging, hstaging⟩ := Map2D_ok_some hmap
  have hlevel : uint 0 < t.desc.MipLevels * t.desc.ArraySize := by rw [hml, has]; decide
  obtain ⟨hst, _, hsh, _⟩ := Texture2D_ReadbackStaging_some htex hlevel hstaging
  have hpos : (1 : Int) ≤ mapped.RowPitch := by omega
  have hylim : dims.y ≤ 2147483648 := by
    have : dims.y * 1 ≤ dims.y * mapped.RowPitch := mul_le_mul_of_nonneg_left hpos (by omega)
    omega
  have hheight : (staging.desc.Height : Int) = dims.y := by
    rw [hsh, hmy]
    exact uint_of_nonneg (by omega) (by omega)
  have hw0 : 0 ≤ dims.x := by omega
  obtain ⟨e, r0, r1⟩ := rowSize_exact hw0 (BitsPerPixel_bounds hbpp).1 hfit
  have hpitchmem : (uint (Int.tdiv (wrapInt (dims.x * bpp)) 8) : Int) = dims.x * bpp / 8 := by
    rw [e]
    exact uint_of_nonneg r0 (by omega)
  refine ⟨out, ctx, hread, ?_⟩
  intro k hk0 hk1
  rw [hsize] at hk1
  obtain ⟨y0, y1, i0, i1, hk⟩ := packed_offset_split hrs0 hk0 hk1
  have h1 := hrows _ _ y0 y1 i0 i1
  have h2 := hcontract staging hstaging _ _ y0 (by rw [hheight]; exact y1) i0 i1
  have h3 : staging.texels 0 (k / (dims.x * bpp / 8)) (k % (dims.x * bpp / 8))
      = pPixels k := by
    rw [hst]
    have h0 : uint (0 : Int) = 0 := by decide
    rw [h0, htexels, hpitchmem, hk]
  rw [hk] at h1
  rw [h1, h2, h3]

/-- The context `pitchedContext` keeps the promise of `Map` for every row that
is no longer than its pitch. -/
theorem pitchedContext_contract (pDevice : ID3D11Device) (pitch slicePitch : Nat)
    (p : Option ID3D11Texture2D) (staging : ID3D11Texture2D) (hp : p = some staging)
    (rowBytes : Int) (hr : rowBytes ≤ pitch) :
    MappedImageOf staging rowBytes ((pitchedContext pDevice pitch slicePitch).Map2D p).2 := by
  subst hp
  intro y i _ _ hi0 hi1
  show staging.texels 0 ((y * (pitch : Int) + i) / (pitch : Int))
      ((y * (pitch : Int) + i) % (pitch : Int)) = staging.texels 0 y i
  have hpos : (0 : Int) < pitch := by omega
  have := (Int.ediv_emod_unique (a := y * (pitch : Int) + i) (r := i) (q := y) hpos).2
    ⟨by ring, hi0, by omega⟩
  rw [this.1, this.2]

/-- Witness of C3: a 3 by 2 image of a 32-bit format (rows of 12 bytes) read
back through a row pitch of 16. -/
theorem create_from_memory_readback_roundtrip_witness :
    ∃ out ctx, sampleCreated.1.Readback (pitchedContext sampleCreated.2 16 32) 0 (fun _ => 0)
        = Except.ok (out, ctx)
      ∧ ∀ k : Int, 0 ≤ k → k < 3 * 2 * 32 / 8 → out k = samplePixels k :=
  create_from_memory_readback_roundtrip sampleDevice sampleCreated.2 ⟨3, 2⟩
    DXGI_FORMAT_R8G8B8A8_UNORM samplePixels Texture2D.construct sampleCreated.1 32
    (pitchedContext sampleCreated.2 16 32) sampleMappedCreated (fun _ => 0)
    (by decide) (by decide) (by decide) (by decide) rfl rfl
    (fun staging hs => pitchedContext_contract sampleCreated.2 16 32 _ staging hs _ (by decide))
    (by decide) (by decide) (by decide)

/-! ## Subresources -/

/-- The staging texture of `TextureCube::Readback`, when it exists, has the
size of the mip level and holds in subresource 0 the content of the subresource
`ReadbackSubresource face level` of the owned texture. -/
theorem TextureCube_ReadbackStaging_some {self : TextureCube} {pCtx : ID3D11DeviceContext}
    {face level : Int} {t staging : ID3D11Texture2D} (htex : self.m_pTex = some t)
    (hsub : self.ReadbackSubresource face level < t.desc.MipLevels * t.desc.ArraySize)
    (hs : (self.ReadbackStaging pCtx face level).1 = some staging) :
    staging.texels 0 = t.texels (self.ReadbackSubresource face level)
    ∧ staging.desc.Width = uint (CalculateMipDims self.m_cubeSize level)
    ∧ staging.desc.Height = uint (CalculateMipDims self.m_cubeSize level)
    ∧ staging.desc.Format = self.m_format := by
  unfold TextureCube.ReadbackStaging at hs
  simp only [ID3D11Device.CreateTexture2D, htex] at hs
  cases hf : pCtx.device.failing pCtx.device.nextId
  · simp [hf, CopySubresourceRegion2D, hsub] at hs
    subst hs
    exact ⟨rfl, rfl, rfl, rfl⟩
  · simp [hf, CopySubresourceRegion2D] at hs

/-- The staging texture of `Texture3D::Readback`, when it exists, holds in
subresource 0 the content of subresource `level` of the owned texture. -/
theorem Texture3D_ReadbackStaging_some {self : Texture3D} {pCtx : ID3D11DeviceContext}
    {level : Int} {t staging : ID3D11Texture3D} (htex : self.m_pTex = some t)
    (hsub : uint level < t.desc.MipLevels)
    (hs : (self.ReadbackStaging pCtx level).1 = some staging) :
    staging.texels 0 = t.texels (uint level) := by
  unfold Texture3D.ReadbackStaging at hs
  simp only [ID3D11Device.CreateTexture3D, htex] at hs
  cases hf : pCtx.device.failing pCtx.device.nextId
  · simp [hf, CopySubresourceRegion3D, hsub] at hs
    subst hs
    rfl
  · simp [hf, CopySubresourceRegion3D] at hs

/-- The subresource index of a cube face and level, when the subresource count
`6 * m_mipLevels` fits an `int`: `face * m_mipLevels + level`, below
`6 * m_mipLevels`. -/
theorem ReadbackSubresource_exact (self : TextureCube) {face level : Int}
    (hf0 : 0 ≤ face) (hf1 : face < 6) (hl0 : 0 ≤ level) (hl1 : level < self.m_mipLevels)
    (hcount : 6 * self.m_mipLevels ≤ 2147483648) :
    (self.ReadbackSubresource face level : Int) = face * self.m_mipLevels + level
    ∧ 0 ≤ face * self.m_mipLevels + level
    ∧ face * self.m_mipLevels + level < 6 * self.m_mipLevels := by
  have hm : 0 ≤ self.m_mipLevels := by omega
  have h1 : 0 ≤ face * self.m_mipLevels := mul_nonneg hf0 hm
  have h2 : (face + 1) * self.m_mipLevels ≤ 6 * self.m_mipLevels :=
    mul_le_mul_of_nonneg_right (by omega) hm
  have h3 : (face + 1) * self.m_mipLevels = face * self.m_mipLevels + self.m_mipLevels := by ring
  unfold TextureCube.ReadbackSubresource
  rw [wrapInt_of_isInt (n := face * self.m_mipLevels) (by omega) (by omega),
    wrapInt_of_isInt (by omega) (by omega)]
  exact ⟨uint_of_nonneg (by omega) (by omega), by omega, by omega⟩

/-- Distinct pairs of a face and a level have distinct subresource indices. -/
theorem subresource_index_injective {mips face level face2 level2 : Int}
    (hl0 : 0 ≤ level) (hl1 : level < mips) (hk0 : 0 ≤ level2) (hk1 : level2 < mips)
    (h : face * mips + level = face2 * mips + level2) : face = face2 ∧ level = level2 := by
  have hpos : 0 < mips := by omega
  have a := (Int.ediv_emod_unique (a := face * mips + level) (r := level) (q := face) hpos).2
    ⟨by ring, hl0, hl1⟩
  have b := (Int.ediv_emod_unique (a := face2 * mips + level2) (r := level2) (q := face2) hpos).2
    ⟨by ring, hk0, hk1⟩
  rw [h] at a
  exact ⟨a.1.symm.trans b.1, a.2.symm.trans b.2⟩

/-- Through a `Map` that keeps its promise, `TextureCube::Readback` returns the
rows of subresource `face * m_mipLevels + level` of the owned texture. -/
theorem TextureCube_Readback_content (self : TextureCube) (t : ID3D11Texture2D)
    (face level : Int) (htex : self.m_pTex = some t)
    (hmips : (t.desc.MipLevels : Int) = self.m_mipLevels) (harr : t.desc.ArraySize = 6)
    (hcount : 6 * self.m_mipLevels ≤ 2147483648)
    (hf0 : 0 ≤ face) (hf1 : face < 6) (hl0 : 0 ≤ level) (hl1 : level < self.m_mipLevels)
    (pCtx : ID3D11DeviceContext) (pDataOut : Memory) (bpp : Int)
    (mapped : D3D11_MAPPED_SUBRESOURCE)
    (hbpp : BitsPerPixel self.m_format = some bpp)
    (hmap : pCtx.Map2D (self.ReadbackStaging pCtx face level).1 = (HRESULT.S_OK, mapped))
    (hcontract : ∀ staging, (self.ReadbackStaging pCtx face level).1 = some staging →
      MappedImageOf staging (CalculateMipDims self.m_cubeSize level * bpp / 8) mapped)
    (hpitch : CalculateMipDims self.m_cubeSize level * bpp / 8 ≤ mapped.RowPitch)
    (hfit : CalculateMipDims self.m_cubeSize level * bpp < 2147483648)
    (himg : CalculateMipDims self.m_cubeSize level * mapped.RowPitch ≤ 2147483648) :
    ∃ out ctx, self.Readback pCtx face level pDataOut = Except.ok (out, ctx)
      ∧ ∀ y i : Int, 0 ≤ y → y < CalculateMipDims self.m_cubeSize level →
          0 ≤ i → i < CalculateMipDims self.m_cubeSize level * bpp / 8 →
          out (y * (CalculateMipDims self.m_cubeSize level * bpp / 8) + i)
            = t.texels (face * self.m_mipLevels + level).toNat y i := by
  obtain ⟨out, ctx, hread, hrows⟩ := TextureCube_Readback_rows self pCtx face level pDataOut bpp
    mapped (by rw [htex]; rfl) hf0 hf1 hl0 hl1 hbpp hmap hpitch hfit himg
  obtain ⟨hidx, hidx0, hidx1⟩ := ReadbackSubresource_exact self hf0 hf1 hl0 hl1 hcount
  have hnat : self.ReadbackSubresource face level = (face * self.m_mipLevels + level).toNat := by
    omega
  obtain ⟨staging, hstaging⟩ := Map2D_ok_some hmap
  have hvalid : self.ReadbackSubresource face level < t.desc.MipLevels * t.desc.ArraySize := by
    have : ((t.desc.MipLevels * t.desc.ArraySize : Nat) : Int) = 6 * self.m_mipLevels := by
      rw [harr]; push_cast; rw [hmips]; ring
    omega
  obtain ⟨hst, _, hsh, _⟩ := TextureCube_ReadbackStaging_some htex hvalid hstaging
  refine ⟨out, ctx, hread, ?_⟩
  intro y i hy0 hy1 hi0 hi1
  have hpos : (1 : Int) ≤ mapped.RowPitch := by omega
  have hdim0 := CalculateMipDims_pos self.m_cubeSize level
  have hlim : CalculateMipDims self.m_cubeSize level ≤ 2147483648 := by
    have : CalculateMipDims self.m_cubeSize level * 1
        ≤ CalculateMipDims self.m_cubeSize level * mapped.RowPitch :=
      mul_le_mul_of_nonneg_left hpos (by omega)
    omega
  have hheight : (staging.desc.Height : Int) = CalculateMipDims self.m_cubeSize level := by
    rw [hsh]
    exact uint_of_nonneg (by omega) (by omega)
  rw [hrows y i hy0 hy1 hi0 hi1,
    hcontract staging hstaging y i hy0 (by rw [hheight]; exact hy1) hi0 hi1, hst, hnat]

/-- C4: `TextureCube::Readback(face, level)` copies from subresource
`face * m_mipLevels + level` of the owned texture, while `Texture2D::Readback`
and `Texture3D::Readback` copy from subresource `level`. For `0 <= face < 6` and
`0 <= level < m_mipLevels` the index lies in `[0, 6 * m_mipLevels)`, and distinct
pairs of a face and a level have distinct indices; so for a cube whose faces
hold constant colours, the readback of a face returns the colour of that face.
The cube is initialised: its texture has `m_mipLevels` levels and 6 faces, a
count that fits an `int`. -/
theorem cube_readback_subresource (self : TextureCube) (t : ID3D11Texture2D)
    (face level : Int) (htex : self.m_pTex = some t)
    (hmips : (t.desc.MipLevels : Int) = self.m_mipLevels) (harr : t.desc.ArraySize = 6)
    (hcount : 6 * self.m_mipLevels ≤ 2147483648)
    (hf0 : 0 ≤ face) (hf1 : face < 6) (hl0 : 0 ≤ level) (hl1 : level < self.m_mipLevels) :
    (self.ReadbackSubresource face level : Int) = face * self.m_mipLevels + level
    ∧ 0 ≤ face * self.m_mipLevels + level
    ∧ face * self.m_mipLevels + level < 6 * self.m_mipLevels
    ∧ (∀ face2 level2 : Int, 0 ≤ face2 → face2 < 6 → 0 ≤ level2 → level2 < self.m_mipLevels →
        self.ReadbackSubresource face2 level2 = self.ReadbackSubresource face level →
        face2 = face ∧ level2 = level)
    ∧ (∀ (pCtx : ID3D11DeviceContext) (staging : ID3D11Texture2D),
        (self.ReadbackStaging pCtx face level).1 = some staging →
        staging.texels 0 = t.texels (face * self.m_mipLevels + level).toNat)
    ∧ (∀ (tex2 : Texture2D) (pCtx : ID3D11DeviceContext) (t2 staging : ID3D11Texture2D)
        (level2 : Int), tex2.m_pTex = some t2 → 0 ≤ level2 →
        level2 < t2.desc.MipLevels * t2.desc.ArraySize → level2 < 2147483648 →
        (tex2.ReadbackStaging pCtx level2).1 = some staging →
        staging.texels 0 = t2.texels level2.toNat)
    ∧ (∀ (tex3 : Texture3D) (pCtx : ID3D11DeviceContext) (t3 staging : ID3D11Texture3D)
        (level3 : Int), tex3.m_pTex = some t3 → 0 ≤ level3 →
        level3 < t3.desc.MipLevels → level3 < 2147483648 →
        (tex3.ReadbackStaging pCtx level3).1 = some staging →
        staging.texels 0 = t3.texels level3.toNat)
    ∧ (∀ (pCtx : ID3D11DeviceContext) (pDataOut : Memory) (bpp : Int)
        (mapped : D3D11_MAPPED_SUBRESOURCE) (colour : Int → Int → byte),
        BitsPerPixel self.m_format = some bpp →
        (∀ f l y i : Int, 0 ≤ f → f < 6 → 0 ≤ l → l < self.m_mipLevels →
          t.texels (f * self.m_mipLevels + l).toNat y i = colour f (i % (bpp / 8))) →
        pCtx.Map2D (self.ReadbackStaging pCtx face level).1 = (HRESULT.S_OK, mapped) →
        (∀ staging, (self.ReadbackStaging pCtx face level).1 = some staging →
          MappedImageOf staging (CalculateMipDims self.m_cubeSize level * bpp / 8) mapped) →
        CalculateMipDims self.m_cubeSize level * bpp / 8 ≤ mapped.RowPitch →
        CalculateMipDims self.m_cubeSize level * bpp < 2147483648 →
        CalculateMipDims self.m_cubeSize level * mapped.RowPitch ≤ 2147483648 →
        ∃ out ctx, self.Readback pCtx face level pDataOut = Except.ok (out, ctx)
          ∧ ∀ y i : Int, 0 ≤ y → y < CalculateMipDims self.m_cubeSize level →
              0 ≤ i → i < CalculateMipDims self.m_cubeSize level * bpp / 8 →
              out (y * (CalculateMipDims self.m_cubeSize level * bpp / 8) + i)
                = colour face (i % (bpp / 8))) := by
  obtain ⟨hidx, hidx0, hidx1⟩ := ReadbackSubresource_exact self hf0 hf1 hl0 hl1 hcount
  have hnat : self.ReadbackSubresource face level = (face * self.m_mipLevels + level).toNat := by
    omega
  refine ⟨hidx, hidx0, hidx1, ?_, ?_, ?_, ?_, ?_⟩
  · intro face2 level2 g0 g1 k0 k1 heq
    obtain ⟨hidx2, _, _⟩ := ReadbackSubresource_exact self g0 g1 k0 k1 hcount
    exact subresource_index_injective k0 k1 hl0 hl1 (by omega)
  · intro pCtx staging hs
    have hvalid : self.ReadbackSubresource face level < t.desc.MipLevels * t.desc.ArraySize := by
      have : ((t.desc.MipLevels * t.desc.ArraySize : Nat) : Int) = 6 * self.m_mipLevels := by
        rw [harr]; push_cast; rw [hmips]; ring
      omega
    rw [(TextureCube_ReadbackStaging_some htex hvalid hs).1, hnat]
  · intro tex2 pCtx t2 staging level2 h2 k0 k1 k2 hs
    have hu : uint level2 = level2.toNat := by
      have := uint_of_nonneg k0 (by omega)
      omega
    have hv : uint level2 < t2.desc.MipLevels * t2.desc.ArraySize := by
      have : ((t2.desc.MipLevels * t2.desc.ArraySize : Nat) : Int)
          = (t2.desc.MipLevels : Int) * t2.desc.ArraySize := by push_cast; rfl
      omega
    rw [(Texture2D_ReadbackStaging_some h2 hv hs).1, hu]
  · intro tex3 pCtx t3 staging level3 h3 k0 k1 k2 hs
    have hu : uint level3 = level3.toNat := by
      have := uint_of_nonneg k0 (by omega)
      omega
    rw [Texture3D_ReadbackStaging_some h3 (by omega) hs, hu]
  · intro pCtx pDataOut bpp mapped colour hbpp hcol hmap hcontract hpitch hfit himg
    obtain ⟨out, ctx, hread, hcontent⟩ := TextureCube_Readback_content self t face level htex
      hmips harr hcount hf0 hf1 hl0 hl1 pCtx pDataOut bpp mapped hbpp hmap hcontract hpitch
      hfit himg
    refine ⟨out, ctx, hread, ?_⟩
    intro y i hy0 hy1 hi0 hi1
    rw [hcontent y i hy0 hy1 hi0 hi1, hcol face level y i hf0 hf1 hl0 hl1]

theorem sampleCubeObject_colours (f l y i : Int) (hf0 : 0 ≤ f) (_hf1 : f < 6) (hl0 : 0 ≤ l)
    (hl1 : l < sampleTextureCube.m_mipLevels) :
    sampleCubeObject.texels (f * sampleTextureCube.m_mipLevels + l).toNat y i
      = sampleColour f (i % (32 / 8)) := by
  have hm : sampleTextureCube.m_mipLevels = 2 := rfl
  rw [hm] at hl1 ⊢
  show UInt8.ofNat (10 * ((f * 2 + l).toNat / 2 + 1)) = UInt8.ofNat (10 * (f.toNat + 1))
  have : (f * 2 + l).toNat / 2 = f.toNat := by omega
  rw [this]

/-- Witness of C4: face 3, level 1 of a cube of edge 2 with two mip levels,
whose face `f` has the colour `10 * (f + 1)`: the subresource is 7 and the
readback returns the colour 40. -/
theorem cube_readback_subresource_witness :
    (sampleTextureCube.ReadbackSubresource 3 1 : Int) = 3 * 2 + 1
    ∧ ∃ out ctx, sampleTextureCube.Readback (pitchedContext sampleDevice 256 256) 3 1
          samplePixels = Except.ok (out, ctx)
        ∧ ∀ y i : Int, 0 ≤ y → y < 1 → 0 ≤ i → i < 4 → out (y * 4 + i) = 40 :=
  ⟨(cube_readback_subresource sampleTextureCube sampleCubeObject 3 1 rfl rfl rfl (by decide)
      (by decide) (by decide) (by decide) (by decide)).1,
   (cube_readback_subresource sampleTextureCube sampleCubeObject 3 1 rfl rfl rfl (by decide)
      (by decide) (by decide) (by decide) (by decide)).2.2.2.2.2.2.2
      (pitchedContext sampleDevice 256 256) samplePixels 32 sampleMappedCube sampleColour
      (by decide) sampleCubeObject_colours rfl
      (fun staging hs => pitchedContext_contract sampleDevice 256 256 _ staging hs _ (by decide))
      (by decide) (by decide) (by decide)⟩

/-! ## Copying slices -/

/-- A run of `Z` slice copies of `H` rows each in exact arithmetic: row `y` of
slice `z` goes from `z * dp + y * p` to `z * (H * n) + y * n`. Bytes outside
`[0, Z * (H * n))` keep their value, and row `y` of slice `z` of the result is
row `y` of slice `z` of the source. -/
theorem slices_fold (n H : Nat) (dp p : Int) (src out0 : Memory) (Z : Nat) :
    (∀ a : Int, (a < 0 ∨ (Z : Int) * ((H : Int) * n) ≤ a) →
      (List.range Z).foldl
        (fun outZ (z : Nat) =>
          (List.range H).foldl
            (fun out (y : Nat) =>
              memcpy out ((z : Int) * ((H : Int) * n) + (y : Int) * n) src
                ((z : Int) * dp + (y : Int) * p) n)
            outZ)
        out0 a = out0 a)
    ∧ (∀ z : Nat, z < Z → ∀ y : Nat, y < H → ∀ i : Int, 0 ≤ i → i < n →
      (List.range Z).foldl
        (fun outZ (z : Nat) =>
          (List.range H).foldl
            (fun out (y : Nat) =>
              memcpy out ((z : Int) * ((H : Int) * n) + (y : Int) * n) src
                ((z : Int) * dp + (y : Int) * p) n)
            outZ)
        out0 ((z : Int) * ((H : Int) * n) + (y : Int) * n + i)
        = src ((z : Int) * dp + (y : Int) * p + i)) := by
  induction Z with
  | zero =>
    constructor
    · intro a _; simp
    · intro z hz; omega
  | succ Z ih =>
    obtain ⟨ihFrame, ihRows⟩ := ih
    have hn : (0 : Int) ≤ n := Int.ofNat_nonneg n
    have hS : (0 : Int) ≤ (H : Int) * n := mul_nonneg (Int.ofNat_nonneg H) hn
    have hZS : (0 : Int) ≤ (Z : Int) * ((H : Int) * n) := mul_nonneg (Int.ofNat_nonneg Z) hS
    have hsucc : ((Z + 1 : Nat) : Int) * ((H : Int) * n)
        = (Z : Int) * ((H : Int) * n) + (H : Int) * n := by push_cast; ring
    constructor
    · intro a ha
      rw [List.range_succ, List.foldl_append, List.foldl_cons, List.foldl_nil]
      rw [hsucc] at ha
      rw [(rows_fold n ((Z : Int) * ((H : Int) * n)) ((Z : Int) * dp) p src _ H).1 a (by omega)]
      exact ihFrame a (by omega)
    · intro z hz y hy i hi0 hi1
      rw [List.range_succ, List.foldl_append, List.foldl_cons, List.foldl_nil]
      by_cases hzZ : z = Z
      · subst hzZ
        exact (rows_fold n ((z : Int) * ((H : Int) * n)) ((z : Int) * dp) p src _ H).2 y hy i
          hi0 hi1
      · have hzlt : z < Z := by omega
        have h1 : ((y : Int) + 1) * n ≤ (H : Int) * n :=
          mul_le_mul_of_nonneg_right (by exact_mod_cast hy) hn
        have h2 : ((y : Int) + 1) * n = (y : Int) * n + n := by ring
        have h3 : ((z : Int) + 1) * ((H : Int) * n) ≤ (Z : Int) * ((H : Int) * n) :=
          mul_le_mul_of_nonneg_right (by exact_mod_cast hzlt) hS
        have h4 : ((z : Int) + 1) * ((H : Int) * n)
            = (z : Int) * ((H : Int) * n) + (H : Int) * n := by ring
        rw [(rows_fold n ((Z : Int) * ((H : Int) * n)) ((Z : Int) * dp) p src _ H).1 _
          (by omega)]
        exact ihRows z hzlt y hy i hi0 hi1

/-- The offsets of row `y` of slice `z` do not wrap, for a volume whose slices
and rows number at most `2^31` bytes. -/
theorem slice_offset_exact {z y : Nat} {depth height rowSize : Int} {rowPitch depthPitch : Nat}
    (hz : z < depth.toNat) (hy : y < height.toNat) (h0 : 0 < rowSize)
    (hp : rowSize ≤ rowPitch) (hd : height * rowSize ≤ depthPitch)
    (hvol : depth * depthPitch ≤ 2147483648) (himg : height * rowPitch ≤ 2147483648) :
    wrapInt (wrapInt ((z : Int) * wrapInt (height * rowSize)) + wrapInt ((y : Int) * rowSize))
      = (z : Int) * (height * rowSize) + (y : Int) * rowSize
    ∧ (((uint (z : Int) * depthPitch % 4294967296 + uint (y : Int) * rowPitch % 4294967296)
          % 4294967296 : Nat) : Int)
      = (z : Int) * depthPitch + (y : Int) * rowPitch
    ∧ rowSize ≤ 2147483648 := by
  have hz0 : (0 : Int) ≤ z := Int.ofNat_nonneg z
  have hy0 : (0 : Int) ≤ y := Int.ofNat_nonneg y
  have hzd : (z : Int) + 1 ≤ depth := by omega
  have hyh : (y : Int) + 1 ≤ height := by omega
  have hdp0 : (0 : Int) ≤ depthPitch := Int.ofNat_nonneg _
  have hrp0 : (0 : Int) ≤ rowPitch := Int.ofNat_nonneg _
  have a1 : ((y : Int) + 1) * rowSize ≤ height * rowSize :=
    mul_le_mul_of_nonneg_right hyh (by omega)
  have a2 : ((y : Int) + 1) * rowSize = (y : Int) * rowSize + rowSize := by ring
  have a3 : 0 ≤ (y : Int) * rowSize := mul_nonneg hy0 (by omega)
  have b1 : ((z : Int) + 1) * depthPitch ≤ depth * depthPitch :=
    mul_le_mul_of_nonneg_right hzd hdp0
  have b2 : ((z : Int) + 1) * depthPitch = (z : Int) * depthPitch + depthPitch := by ring
  have b3 : (z : Int) * (height * rowSize) ≤ (z : Int) * depthPitch :=
    mul_le_mul_of_nonneg_left hd hz0
  have b4 : 0 ≤ (z : Int) * (height * rowSize) := mul_nonneg hz0 (by omega)
  have b5 : (z : Int) * 1 ≤ (z : Int) * depthPitch := mul_le_mul_of_nonneg_left (by omega) hz0
  have c1 : ((y : Int) + 1) * rowPitch ≤ height * rowPitch :=
    mul_le_mul_of_nonneg_right hyh hrp0
  have c2 : ((y : Int) + 1) * rowPitch = (y : Int) * rowPitch + rowPitch := by ring
  have c3 : 0 ≤ (y : Int) * rowPitch := mul_nonneg hy0 hrp0
  have c4 : (y : Int) * 1 ≤ (y : Int) * rowPitch := mul_le_mul_of_nonneg_left (by omega) hy0
  have c5 : 0 ≤ (z : Int) * depthPitch := mul_nonneg hz0 hdp0
  have e1 : (z : Int) * wrapInt (height * rowSize) = (z : Int) * (height * rowSize) := by
    by_cases hz1 : z = 0
    · subst hz1; simp
    · have : (z : Int) * (height * rowSize) ≥ 1 * (height * rowSize) :=
        mul_le_mul_of_nonneg_right (by omega) (by omega)
      rw [wrapInt_of_isInt (n := height * rowSize) (by omega) (by omega)]
  have e2 : wrapInt ((y : Int) * rowSize) = (y : Int) * rowSize :=
    wrapInt_of_isInt (by omega) (by omega)
  have e3 : uint (z : Int) = z := uint_natCast (by omega)
  have e4 : uint (y : Int) = y := uint_natCast (by omega)
  refine ⟨?_, ?_, by omega⟩
  · rw [e1, e2, wrapInt_of_isInt (n := (z : Int) * (height * rowSize)) (by omega) (by omega),
      wrapInt_of_isInt (by omega) (by omega)]
  · rw [e3, e4]
    have hzlt : z * depthPitch < 4294967296 := by
      have : ((z * depthPitch : Nat) : Int) < 4294967296 := by push_cast; omega
      exact_mod_cast this
    have hylt : y * rowPitch < 4294967296 := by
      have : ((y * rowPitch : Nat) : Int) < 4294967296 := by push_cast; omega
      exact_mod_cast this
    have hsum : z * depthPitch + y * rowPitch < 4294967296 := by
      have : ((z * depthPitch + y * rowPitch : Nat) : Int) < 4294967296 := by push_cast; omega
      exact_mod_cast this
    rw [Nat.mod_eq_of_lt hzlt, Nat.mod_eq_of_lt hylt, Nat.mod_eq_of_lt hsum]
    push_cast
    rfl

/-- Under the bounds of `slice_offset_exact` the slice and row loops compute
with exact offsets. -/
theorem copySlices_exact (pDataOut : Memory) (mapped : D3D11_MAPPED_SUBRESOURCE)
    (rowSize height depth : Int) (h0 : 0 < rowSize) (hp : rowSize ≤ mapped.RowPitch)
    (hd : height * rowSize ≤ mapped.DepthPitch)
    (hvol : depth * mapped.DepthPitch ≤ 2147483648)
    (himg : height * mapped.RowPitch ≤ 2147483648) :
    copySlices pDataOut mapped rowSize (wrapInt (height * rowSize)) height depth
      = (List.range depth.toNat).foldl
          (fun outZ (z : Nat) =>
            (List.range height.toNat).foldl
              (fun out (y : Nat) =>
                memcpy out
                  ((z : Int) * (((height.toNat : Nat) : Int) * (rowSize.toNat : Nat))
                    + (y : Int) * (rowSize.toNat : Nat))
                  mapped.pData
                  ((z : Int) * (mapped.DepthPitch : Int) + (y : Int) * (mapped.RowPitch : Int))
                  rowSize.toNat)
              outZ)
          pDataOut := by
  unfold copySlices
  apply List.foldl_ext
  intro outZ z hz
  apply List.foldl_ext
  intro out y hy
  rw [List.mem_range] at hz hy
  obtain ⟨e1, e2, e3⟩ := slice_offset_exact hz hy h0 hp hd hvol himg
  have e4 : size_t rowSize = rowSize.toNat := by
    have := size_t_of_nonneg (n := rowSize) (by omega) (by omega)
    omega
  have e5 : ((rowSize.toNat : Nat) : Int) = rowSize := Int.toNat_of_nonneg (by omega)
  have e6 : ((height.toNat : Nat) : Int) = height := Int.toNat_of_nonneg (by omega)
  rw [e1, e2, e4, e5, e6]
  unfold advanceBytes
  simp only [zero_add]

/-- The loops of the 3D readback pack the rows and the slices: byte `i` of row
`y` of slice `z` of the output is byte `i` of row `y` of slice `z` of the mapped
volume, whatever the row pitch and the slice pitch. -/
theorem copySlices_rows (pDataOut : Memory) (mapped : D3D11_MAPPED_SUBRESOURCE)
    (rowSize height depth : Int) (hp : rowSize ≤ mapped.RowPitch)
    (hd : height * rowSize ≤ mapped.DepthPitch)
    (hvol : depth * mapped.DepthPitch ≤ 2147483648)
    (himg : height * mapped.RowPitch ≤ 2147483648)
    (z y i : Int) (hz0 : 0 ≤ z) (hz1 : z < depth) (hy0 : 0 ≤ y) (hy1 : y < height)
    (hi0 : 0 ≤ i) (hi1 : i < rowSize) :
    copySlices pDataOut mapped rowSize (wrapInt (height * rowSize)) height depth
        (z * (height * rowSize) + y * rowSize + i)
      = mapped.pData (z * mapped.DepthPitch + y * mapped.RowPitch + i) := by
  have h0 : 0 < rowSize := by omega
  rw [copySlices_exact pDataOut mapped rowSize height depth h0 hp hd hvol himg]
  have e5 : ((rowSize.toNat : Nat) : Int) = rowSize := Int.toNat_of_nonneg (by omega)
  have e6 : ((height.toNat : Nat) : Int) = height := Int.toNat_of_nonneg (by omega)
  have ez : ((z.toNat : Nat) : Int) = z := Int.toNat_of_nonneg hz0
  have ey : ((y.toNat : Nat) : Int) = y := Int.toNat_of_nonneg hy0
  have hrows := (slices_fold rowSize.toNat height.toNat mapped.DepthPitch mapped.RowPitch
    mapped.pData pDataOut depth.toNat).2 z.toNat (by omega) y.toNat (by omega) i hi0 (by omega)
  rw [ez, ey, e5, e6] at hrows
  rw [e5, e6]
  exact hrows

/-- When its checks pass, `Texture3D::Readback` returns the output of the slice
and row loops run on the mapped staging volume. -/
theorem Texture3D_Readback_eq (self : Texture3D) (pCtx : ID3D11DeviceContext) (level : Int)
    (pDataOut : Memory) (bpp : Int) (mapped : D3D11_MAPPED_SUBRESOURCE)
    (hinit : self.m_pTex.isSome = true) (hl0 : 0 ≤ level) (hl1 : level < self.m_mipLevels)
    (hbpp : BitsPerPixel self.m_format = some bpp)
    (hmap : pCtx.Map3D (self.ReadbackStaging pCtx level).1 = (HRESULT.S_OK, mapped))
    (hpitch : uint (Int.tdiv (wrapInt ((CalculateMipDims3 self.m_dims level).x * bpp)) 8)
      ≤ mapped.RowPitch)
    (hslice : uint (wrapInt ((CalculateMipDims3 self.m_dims level).y
        * Int.tdiv (wrapInt ((CalculateMipDims3 self.m_dims level).x * bpp)) 8))
      ≤ mapped.DepthPitch) :
    self.Readback pCtx level pDataOut
      = Except.ok
          (copySlices pDataOut mapped
            (Int.tdiv (wrapInt ((CalculateMipDims3 self.m_dims level).x * bpp)) 8)
            (wrapInt ((CalculateMipDims3 self.m_dims level).y
              * Int.tdiv (wrapInt ((CalculateMipDims3 self.m_dims level).x * bpp)) 8))
            (CalculateMipDims3 self.m_dims level).y
            (CalculateMipDims3 self.m_dims level).z,
           { pCtx with device := (self.ReadbackStaging pCtx level).2 }) := by
  unfold Texture3D.Readback
  simp only [hinit, ASSERT_ERR, hl0, hl1, hmap, hbpp, tableRead, CHECK_D3D, FAILED, hpitch,
    hslice, bind, Except.bind, pure, Except.pure, ge_iff_le, and_self, decide_True, if_true]
  rfl

theorem uint_wrapInt (n : Int) : (uint (wrapInt n) : Int) = n % 4294967296 := by
  unfold uint wrapInt
  omega

/-- C5: for every initialised `Texture3D`, every level in range and every
mapped staging volume whose row pitch is at least
`rowSize = mipWidth * BitsPerPixel(format) / 8` and whose slice pitch is at
least `sliceSize = mipHeight * rowSize`, `Texture3D::Readback` returns and
`out[z * sliceSize + y * rowSize + i] = mapped[z * DepthPitch + y * RowPitch + i]`
for all `z < mipDepth`, `y < mipHeight`, `i < rowSize`: the output is packed in
the row and in the slice direction. The volume is one the 32-bit offsets of the
source can address: the bit count of a row fits an `int`, and the rows of a
slice and the slices of the volume span at most `2^31` bytes. -/
theorem readback_packs_slices (self : Texture3D) (pCtx : ID3D11DeviceContext) (level : Int)
    (pDataOut : Memory) (bpp : Int) (mapped : D3D11_MAPPED_SUBRESOURCE)
    (hinit : self.m_pTex.isSome = true) (hl0 : 0 ≤ level) (hl1 : level < self.m_mipLevels)
    (hbpp : BitsPerPixel self.m_format = some bpp)
    (hmap : pCtx.Map3D (self.ReadbackStaging pCtx level).1 = (HRESULT.S_OK, mapped))
    (hpitch : (CalculateMipDims3 self.m_dims level).x * bpp / 8 ≤ mapped.RowPitch)
    (hslice : (CalculateMipDims3 self.m_dims level).y
        * ((CalculateMipDims3 self.m_dims level).x * bpp / 8) ≤ mapped.DepthPitch)
    (hfit : (CalculateMipDims3 self.m_dims level).x * bpp < 2147483648)
    (himg : (CalculateMipDims3 self.m_dims level).y * mapped.RowPitch ≤ 2147483648)
    (hvol : (CalculateMipDims3 self.m_dims level).z * mapped.DepthPitch ≤ 2147483648) :
    ∃ out ctx, self.Readback pCtx level pDataOut = Except.ok (out, ctx)
      ∧ ∀ z y i : Int, 0 ≤ z → z < (CalculateMipDims3 self.m_dims level).z →
          0 ≤ y → y < (CalculateMipDims3 self.m_dims level).y →
          0 ≤ i → i < (CalculateMipDims3 self.m_dims level).x * bpp / 8 →
          out (z * ((CalculateMipDims3 self.m_dims level).y
                  * ((CalculateMipDims3 self.m_dims level).x * bpp / 8))
                + y * ((CalculateMipDims3 self.m_dims level).x * bpp / 8) + i)
            = mapped.pData (z * mapped.DepthPitch + y * mapped.RowPitch + i) := by
  have hw : 0 ≤ (CalculateMipDims3 self.m_dims level).x := by
    have := CalculateMipDims_pos self.m_dims.x level
    show 0 ≤ CalculateMipDims self.m_dims.x level
    omega
  have hh : 1 ≤ (CalculateMipDims3 self.m_dims level).y := CalculateMipDims_pos self.m_dims.y level
  have hdz : 1 ≤ (CalculateMipDims3 self.m_dims level).z := CalculateMipDims_pos self.m_dims.z level
  obtain ⟨e, r0, r1⟩ := rowSize_exact hw (BitsPerPixel_bounds hbpp).1 hfit
  have hu : uint (Int.tdiv (wrapInt ((CalculateMipDims3 self.m_dims level).x * bpp)) 8)
      ≤ mapped.RowPitch := by
    rw [e]
    have := uint_of_nonneg r0 (by omega)
    omega
  have hs0 : 0 ≤ (CalculateMipDims3 self.m_dims level).y
      * ((CalculateMipDims3 self.m_dims level).x * bpp / 8) := mul_nonneg (by omega) r0
  have hdp : (mapped.DepthPitch : Int) ≤ 2147483648 := by
    have : (1 : Int) * mapped.DepthPitch
        ≤ (CalculateMipDims3 self.m_dims level).z * mapped.DepthPitch :=
      mul_le_mul_of_nonneg_right hdz (Int.ofNat_nonneg _)
    omega
  have hus : uint (wrapInt ((CalculateMipDims3 self.m_dims level).y
        * Int.tdiv (wrapInt ((CalculateMipDims3 self.m_dims level).x * bpp)) 8))
      ≤ mapped.DepthPitch := by
    rw [e]
    have h1 := uint_wrapInt ((CalculateMipDims3 self.m_dims level).y
      * ((CalculateMipDims3 self.m_dims level).x * bpp / 8))
    rw [Int.emod_eq_of_lt hs0 (by omega)] at h1
    omega
  refine ⟨_, _, Texture3D_Readback_eq self pCtx level pDataOut bpp mapped hinit hl0 hl1 hbpp
    hmap hu hus, ?_⟩
  intro z y i hz0 hz1 hy0 hy1 hi0 hi1
  rw [e]
  exact copySlices_rows pDataOut mapped _ _ _ hpitch hslice hvol himg z y i hz0 hz1 hy0 hy1
    hi0 hi1

/-- Witness of C5: a 2 by 2 by 2 volume of an 8-bit format (rows of 2 bytes,
slices of 4 bytes) mapped at a row pitch of 4 and a slice pitch of 16. -/
theorem readback_packs_slices_witness :
    ∃ out ctx, sampleTexture3D.Readback (pitchedContext sampleDevice 4 16) 0 samplePixels
        = Except.ok (out, ctx)
      ∧ ∀ z y i : Int, 0 ≤ z → z < 2 → 0 ≤ y → y < 2 → 0 ≤ i → i < 2 →
          out (z * (2 * 2) + y * 2 + i) = sampleMapped3D.pData (z * 16 + y * 4 + i) :=
  readback_packs_slices sampleTexture3D (pitchedContext sampleDevice 4 16) 0 samplePixels 8
    sampleMapped3D rfl (by decide) (by decide) (by decide) rfl (by decide) (by decide)
    (by decide) (by decide) (by decide)

/-! ## Release and Init -/

/-- C6: for every `Texture2D`, `TextureCube` and `Texture3D` state, `Release`
yields exactly the default-constructed state: texture, read-only view and
read-write view null, dims (cube size) 0, `m_mipLevels` 0, format `UNKNOWN`.
Hence `Release` is idempotent, and `Init` after `Release` yields what `Init` with
the same arguments yields on a resource that was never used. -/
theorem release_is_default_state :
    (∀ s : Texture2D,
      s.Release = Texture2D.construct
      ∧ s.Release.m_pTex.isNone ∧ s.Release.m_pSrv.isNone ∧ s.Release.m_pUav.isNone
      ∧ s.Release.m_dims = ⟨0, 0⟩ ∧ s.Release.m_mipLevels = 0
      ∧ s.Release.m_format = DXGI_FORMAT_UNKNOWN
      ∧ s.Release.Release = s.Release
      ∧ ∀ (pDevice : ID3D11Device) (dims : int2) (format : DXGI_FORMAT) (flags : TEXFLAG),
          s.Release.Init pDevice dims format flags
            = Texture2D.construct.Init pDevice dims format flags)
    ∧ (∀ s : TextureCube,
      s.Release = TextureCube.construct
      ∧ s.Release.m_pTex.isNone ∧ s.Release.m_pSrv.isNone ∧ s.Release.m_pUav.isNone
      ∧ s.Release.m_cubeSize = 0 ∧ s.Release.m_mipLevels = 0
      ∧ s.Release.m_format = DXGI_FORMAT_UNKNOWN
      ∧ s.Release.Release = s.Release
      ∧ ∀ (pDevice : ID3D11Device) (cubeSize : Int) (format : DXGI_FORMAT) (flags : TEXFLAG),
          s.Release.Init pDevice cubeSize format flags
            = TextureCube.construct.Init pDevice cubeSize format flags)
    ∧ (∀ s : Texture3D,
      s.Release = Texture3D.construct
      ∧ s.Release.m_pTex.isNone ∧ s.Release.m_pSrv.isNone ∧ s.Release.m_pUav.isNone
      ∧ s.Release.m_dims = ⟨0, 0, 0⟩ ∧ s.Release.m_mipLevels = 0
      ∧ s.Release.m_format = DXGI_FORMAT_UNKNOWN
      ∧ s.Release.Release = s.Release
      ∧ ∀ (pDevice : ID3D11Device) (dims : int3) (format : DXGI_FORMAT) (flags : TEXFLAG),
          s.Release.Init pDevice dims format flags
            = Texture3D.construct.Init pDevice dims format flags) := by
  refine ⟨fun s => ?_, fun s => ?_, fun s => ?_⟩
  · exact ⟨rfl, rfl, rfl, rfl, rfl, rfl, rfl, rfl, fun _ _ _ _ => rfl⟩
  · exact ⟨rfl, rfl, rfl, rfl, rfl, rfl, rfl, rfl, fun _ _ _ _ => rfl⟩
  · exact ⟨rfl, rfl, rfl, rfl, rfl, rfl, rfl, rfl, fun _ _ _ _ => rfl⟩

/-! ## Views and the texture they were created from -/

set_option maxRecDepth 8192

/-- C7, on the code: `Init` with the read-write flag followed by
`CreateTexture2DFromMemory` on the same resource, and likewise followed by
`Init` without the flag, both succeed and leave a resource whose texture is the
new one, whose read-only view is a view of the new texture, and whose
read-write view is still the view of the texture owned before. -/
theorem read_write_view_left_stale :
    (∃ t1 d1 t2 d2 tex srv uav,
      Texture2D.construct.Init sampleDevice ⟨4, 4⟩ DXGI_FORMAT_R8G8B8A8_UNORM ⟨false, true⟩
        = Except.ok (t1, d1)
      ∧ CreateTexture2DFromMemory d1 ⟨1, 1⟩ DXGI_FORMAT_R8G8B8A8_UNORM samplePixels t1
        = Except.ok (t2, d2)
      ∧ t2.m_pTex = some tex ∧ t2.m_pSrv = some srv ∧ t2.m_pUav = some uav
      ∧ (t1.m_pTex.map fun t => t.id) = some 0 ∧ tex.id = 3
      ∧ srv.resource = tex.id ∧ uav.resource = 0 ∧ uav.resource ≠ tex.id)
    ∧ (∃ t1 d1 t2 d2 tex srv uav,
      Texture2D.construct.Init sampleDevice ⟨4, 4⟩ DXGI_FORMAT_R8G8B8A8_UNORM ⟨false, true⟩
        = Except.ok (t1, d1)
      ∧ t1.Init d1 ⟨8, 8⟩ DXGI_FORMAT_R8G8B8A8_UNORM ⟨false, false⟩ = Except.ok (t2, d2)
      ∧ t2.m_pTex = some tex ∧ t2.m_pSrv = some srv ∧ t2.m_pUav = some uav
      ∧ (t1.m_pTex.map fun t => t.id) = some 0 ∧ tex.id = 3
      ∧ srv.resource = tex.id ∧ uav.resource = 0 ∧ uav.resource ≠ tex.id) := by
  constructor
  · refine ⟨_, _, _, _, _, _, _, rfl, rfl, rfl, rfl, rfl, rfl, rfl, rfl, rfl, ?_⟩
    show (0 : Nat) ≠ 3
    decide
  · refine ⟨_, _, _, _, _, _, _, rfl, rfl, rfl, rfl, rfl, rfl, rfl, rfl, rfl, ?_⟩
    show (0 : Nat) ≠ 3
    decide

/-! ## Init -/

/-- What a successful `Texture2D::Init` leaves in the resource. -/
theorem Texture2D_Init_ok {self t : Texture2D} {pDevice dev : ID3D11Device} {dims : int2}
    {format : DXGI_FORMAT} {flags : TEXFLAG}
    (h : self.Init pDevice dims format flags = Except.ok (t, dev)) :
    ∃ tex srv, t.m_pTex = some tex ∧ t.m_pSrv = some srv ∧ srv.resource = tex.id
      ∧ tex.desc.MipLevels = uint (if flags.Mipmaps then CalculateMipCount2 dims else 1)
      ∧ srv.desc.MipLevels = tex.desc.MipLevels
      ∧ tex.desc.Width = uint dims.x ∧ tex.desc.Height = uint dims.y
      ∧ tex.desc.Format = format
      ∧ t.m_dims = dims ∧ t.m_format = format
      ∧ t.m_mipLevels = wrapInt (tex.desc.MipLevels : Int)
      ∧ (flags.EnableUAV = true → ∃ uav, t.m_pUav = some uav ∧ uav.resource = tex.id)
      ∧ (flags.EnableUAV = false → t.m_pUav = self.m_pUav) := by
  unfold Texture2D.Init at h
  simp only [bind, Except.bind, pure, Except.pure, ID3D11Device.CreateTexture2D,
    ID3D11Device.CreateShaderResourceView, ID3D11Device.CreateUnorderedAccessView] at h
  cases hf1 : pDevice.failing pDevice.nextId
  · cases hf2 : pDevice.failing (pDevice.nextId + 1)
    · cases hu : flags.EnableUAV
      · simp [hf1, hf2, hu, CHECK_D3D, FAILED] at h
        obtain ⟨h1, _⟩ := h
        subst h1
        exact ⟨_, _, rfl, rfl, rfl, rfl, rfl, rfl, rfl, rfl, rfl, rfl, rfl,
          (fun hc => by cases hc), fun _ => rfl⟩
      · cases hf3 : pDevice.failing (pDevice.nextId + 1 + 1)
        · simp [hf1, hf2, hf3, hu, CHECK_D3D, FAILED] at h
          obtain ⟨h1, _⟩ := h
          subst h1
          exact ⟨_, _, rfl, rfl, rfl, rfl, rfl, rfl, rfl, rfl, rfl, rfl, rfl,
            fun _ => ⟨_, rfl, rfl⟩, (fun hc => by cases hc)⟩
        · simp [hf1, hf2, hf3, hu, CHECK_D3D, FAILED] at h
    · simp [hf1, hf2, CHECK_D3D, FAILED] at h
  · simp [hf1, CHECK_D3D, FAILED] at h

/-- What a successful `TextureCube::Init` leaves in the resource. -/
theorem TextureCube_Init_ok {self t : TextureCube} {pDevice dev : ID3D11Device} {cubeSize : Int}
    {format : DXGI_FORMAT} {flags : TEXFLAG}
    (h : self.Init pDevice cubeSize format flags = Except.ok (t, dev)) :
    ∃ tex srv, t.m_pTex = some tex ∧ t.m_pSrv = some srv ∧ srv.resource = tex.id
      ∧ tex.desc.MipLevels = uint (if flags.Mipmaps then CalculateMipCount cubeSize else 1)
      ∧ srv.desc.MipLevels = tex.desc.MipLevels
      ∧ tex.desc.Width = uint cubeSize ∧ tex.desc.Height = uint cubeSize
      ∧ tex.desc.ArraySize = 6 ∧ tex.desc.Format = format
      ∧ t.m_cubeSize = cubeSize ∧ t.m_format = format
      ∧ t.m_mipLevels = wrapInt (tex.desc.MipLevels : Int)
      ∧ (flags.EnableUAV = true → ∃ uav, t.m_pUav = some uav ∧ uav.resource = tex.id)
      ∧ (flags.EnableUAV = false → t.m_pUav = self.m_pUav) := by
  unfold TextureCube.Init at h
  simp only [bind, Except.bind, pure, Except.pure, ID3D11Device.CreateTexture2D,
    ID3D11Device.CreateShaderResourceView, ID3D11Device.CreateUnorderedAccessView] at h
  cases hf1 : pDevice.failing pDevice.nextId
  · cases hf2 : pDevice.failing (pDevice.nextId + 1)
    · cases hu : flags.EnableUAV
      · simp [hf1, hf2, hu, CHECK_D3D, FAILED] at h
        obtain ⟨h1, _⟩ := h
        subst h1
        exact ⟨_, _, rfl, rfl, rfl, rfl, rfl, rfl, rfl, rfl, rfl, rfl, rfl, rfl,
          (fun hc => by cases hc), fun _ => rfl⟩
      · cases hf3 : pDevice.failing (pDevice.nextId + 1 + 1)
        · simp [hf1, hf2, hf3, hu, CHECK_D3D, FAILED] at h
          obtain ⟨h1, _⟩ := h
          subst h1
          exact ⟨_, _, rfl, rfl, rfl, rfl, rfl, rfl, rfl, rfl, rfl, rfl, rfl, rfl,
            fun _ => ⟨_, rfl, rfl⟩, (fun hc => by cases hc)⟩
        · simp [hf1, hf2, hf3, hu, CHECK_D3D, FAILED] at h
    · simp [hf1, hf2, CHECK_D3D, FAILED] at h
  · simp [hf1, CHECK_D3D, FAILED] at h

/-- What a successful `Texture3D::Init` leaves in the resource. -/
theorem Texture3D_Init_ok {self t : Texture3D} {pDevice dev : ID3D11Device} {dims : int3}
    {format : DXGI_FORMAT} {flags : TEXFLAG}
    (h : self.Init pDevice dims format flags = Except.ok (t, dev)) :
    ∃ tex srv, t.m_pTex = some tex ∧ t.m_pSrv = some srv ∧ srv.resource = tex.id
      ∧ tex.desc.MipLevels = uint (if flags.Mipmaps then CalculateMipCount3 dims else 1)
      ∧ srv.desc.MipLevels = tex.desc.MipLevels
      ∧ tex.desc.Width = uint dims.x ∧ tex.desc.Height = uint dims.y
      ∧ tex.desc.Depth = uint dims.z ∧ tex.desc.Format = format
      ∧ t.m_dims = dims ∧ t.m_format = format
      ∧ t.m_mipLevels = wrapInt (tex.desc.MipLevels : Int)
      ∧ (flags.EnableUAV = true → ∃ uav, t.m_pUav = some uav ∧ uav.resource = tex.id)
      ∧ (flags.EnableUAV = false → t.m_pUav = self.m_pUav) := by
  unfold Texture3D.Init at h
  simp only [bind, Except.bind, pure, Except.pure, ID3D11Device.CreateTexture3D,
    ID3D11Device.CreateShaderResourceView, ID3D11Device.CreateUnorderedAccessView] at h
  cases hf1 : pDevice.failing pDevice.nextId
  · cases hf2 : pDevice.failing (pDevice.nextId + 1)
    · cases hu : flags.EnableUAV
      · simp [hf1, hf2, hu, CHECK_D3D, FAILED] at h
        obtain ⟨h1, _⟩ := h
        subst h1
        exact ⟨_, _, rfl, rfl, rfl, rfl, rfl, rfl, rfl, rfl, rfl, rfl, rfl, rfl,
          (fun hc => by cases hc), fun _ => rfl⟩
      · cases hf3 : pDevice.failing (pDevice.nextId + 1 + 1)
        · simp [hf1, hf2, hf3, hu, CHECK_D3D, FAILED] at h
          obtain ⟨h1, _⟩ := h
          subst h1
          exact ⟨_, _, rfl, rfl, rfl, rfl, rfl, rfl, rfl, rfl, rfl, rfl, rfl, rfl,
            fun _ => ⟨_, rfl, rfl⟩, (fun hc => by cases hc)⟩
        · simp [hf1, hf2, hf3, hu, CHECK_D3D, FAILED] at h
    · simp [hf1, hf2, CHECK_D3D, FAILED] at h
  · simp [hf1, CHECK_D3D, FAILED] at h

/-- The mip count of a size that is a C `int`: between 1 and 32, so that its
passage through the unsigned `MipLevels` field and back keeps it. -/
theorem CalculateMipCount_bounds {size : Int} (h : size < 2147483648) :
    1 ≤ CalculateMipCount size ∧ CalculateMipCount size ≤ 32 := by
  unfold CalculateMipCount
  have h1 : size.toNat ≤ 2 ^ 31 := by omega
  have h2 : Nat.clog 2 size.toNat ≤ Nat.clog 2 (2 ^ 31) := Nat.clog_mono_right 2 h1
  rw [Nat.clog_pow 2 31 (by decide)] at h2
  omega

theorem mipLevels_kept {n : Int} (h1 : 1 ≤ n) (h2 : n ≤ 32) :
    wrapInt (uint n : Int) = n ∧ (uint n : Int) = n := by
  have := uint_of_nonneg (n := n) (by omega) (by omega)
  rw [this]
  exact ⟨wrapInt_of_isInt (by omega) (by omega), rfl⟩

theorem mipCount_flag_bounds (flags : TEXFLAG) {size : Int} (h : size < 2147483648) :
    1 ≤ (if flags.Mipmaps = true then CalculateMipCount size else 1)
    ∧ (if flags.Mipmaps = true then CalculateMipCount size else 1) ≤ 32 := by
  cases flags.Mipmaps
  · simp
  · simpa using CalculateMipCount_bounds h

/-- The state after a successful `Texture2D::Init` on a resource that was never
used or was released. -/
theorem Texture2D_Init_fresh (s0 : Texture2D)
    (hstart : s0 = Texture2D.construct ∨ ∃ s : Texture2D, s0 = s.Release)
    (pDevice dev : ID3D11Device) (dims : int2) (format : DXGI_FORMAT) (flags : TEXFLAG)
    (t : Texture2D) (hx : dims.x < 2147483648) (hy : dims.y < 2147483648)
    (h : s0.Init pDevice dims format flags = Except.ok (t, dev)) :
    ∃ tex srv, t.m_pTex = some tex ∧ t.m_pSrv = some srv ∧ srv.resource = tex.id
      ∧ t.m_pUav.isSome = flags.EnableUAV
      ∧ (∀ uav, t.m_pUav = some uav → uav.resource = tex.id)
      ∧ t.m_dims = dims ∧ t.m_format = format
      ∧ t.m_mipLevels
          = (if flags.Mipmaps = true then (Nat.clog 2 (max dims.x dims.y).toNat : Int) + 1 else 1)
      ∧ 1 ≤ t.m_mipLevels
      ∧ (tex.desc.MipLevels : Int) = t.m_mipLevels
      ∧ (srv.desc.MipLevels : Int) = t.m_mipLevels := by
  obtain ⟨tex, srv, h1, h2, h3, h4, h5, _, _, _, h9, h10, h11, h12, h13⟩ := Texture2D_Init_ok h
  have hmax : max dims.x dims.y < 2147483648 := max_lt hx hy
  obtain ⟨b1, b2⟩ := mipCount_flag_bounds flags hmax
  obtain ⟨k1, k2⟩ := mipLevels_kept b1 b2
  have hml : t.m_mipLevels
      = (if flags.Mipmaps = true then CalculateMipCount (max dims.x dims.y) else 1) := by
    rw [h11, h4]
    exact k1
  have huav0 : s0.m_pUav = none := by
    rcases hstart with hs | ⟨s, hs⟩ <;> rw [hs] <;> rfl
  refine ⟨tex, srv, h1, h2, h3, ?_, ?_, h9, h10, hml, by rw [hml]; exact b1, ?_, ?_⟩
  · cases hu : flags.EnableUAV
    · rw [h13 hu, huav0]; rfl
    · obtain ⟨uav, hv, _⟩ := h12 hu
      rw [hv]; rfl
  · intro uav hv
    cases hu : flags.EnableUAV
    · rw [h13 hu, huav0] at hv
      cases hv
    · obtain ⟨uav2, hv2, hr⟩ := h12 hu
      rw [hv2] at hv
      cases hv
      exact hr
  · rw [hml, h4]; exact k2
  · rw [hml, h5, h4]; exact k2

/-- The state after a successful `TextureCube::Init` on a resource that was
never used or was released. -/
theorem TextureCube_Init_fresh (s0 : TextureCube)
    (hstart : s0 = TextureCube.construct ∨ ∃ s : TextureCube, s0 = s.Release)
    (pDevice dev : ID3D11Device) (cubeSize : Int) (format : DXGI_FORMAT) (flags : TEXFLAG)
    (t : TextureCube) (hx : cubeSize < 2147483648)
    (h : s0.Init pDevice cubeSize format flags = Except.ok (t, dev)) :
    ∃ tex srv, t.m_pTex = some tex ∧ t.m_pSrv = some srv ∧ srv.resource = tex.id
      ∧ t.m_pUav.isSome = flags.EnableUAV
      ∧ (∀ uav, t.m_pUav = some uav → uav.resource = tex.id)
      ∧ t.m_cubeSize = cubeSize ∧ t.m_format = format
      ∧ t.m_mipLevels
          = (if flags.Mipmaps = true then (Nat.clog 2 cubeSize.toNat : Int) + 1 else 1)
      ∧ 1 ≤ t.m_mipLevels
      ∧ (tex.desc.MipLevels : Int) = t.m_mipLevels
      ∧ (srv.desc.MipLevels : Int) = t.m_mipLevels := by
  obtain ⟨tex, srv, h1, h2, h3, h4, h5, _, _, _, _, h9, h10, h11, h12, h13⟩ :=
    TextureCube_Init_ok h
  obtain ⟨b1, b2⟩ := mipCount_flag_bounds flags hx
  obtain ⟨k1, k2⟩ := mipLevels_kept b1 b2
  have hml : t.m_mipLevels
      = (if flags.Mipmaps = true then CalculateMipCount cubeSize else 1) := by
    rw [h11, h4]
    exact k1
  have huav0 : s0.m_pUav = none := by
    rcases hstart with hs | ⟨s, hs⟩ <;> rw [hs] <;> rfl
  refine ⟨tex, srv, h1, h2, h3, ?_, ?_, h9, h10, hml, by rw [hml]; exact b1, ?_, ?_⟩
  · cases hu : flags.EnableUAV
    · rw [h13 hu, huav0]; rfl
    · obtain ⟨uav, hv, _⟩ := h12 hu
      rw [hv]; rfl
  · intro uav hv
    cases hu : flags.EnableUAV
    · rw [h13 hu, huav0] at hv
      cases hv
    · obtain ⟨uav2, hv2, hr⟩ := h12 hu
      rw [hv2] at hv
      cases hv
      exact hr
  · rw [hml, h4]; exact k2
  · rw [hml, h5, h4]; exact k2

/-- The state after a successful `Texture3D::Init` on a resource that was never
used or was released. -/
theorem Texture3D_Init_fresh (s0 : Texture3D)
    (hstart : s0 = Texture3D.construct ∨ ∃ s : Texture3D, s0 = s.Release)
    (pDevice dev : ID3D11Device) (dims : int3) (format : DXGI_FORMAT) (flags : TEXFLAG)
    (t : Texture3D) (hx : dims.x < 2147483648) (hy : dims.y < 2147483648)
    (hz : dims.z < 2147483648)
    (h : s0.Init pDevice dims format flags = Except.ok (t, dev)) :
    ∃ tex srv, t.m_pTex = some tex ∧ t.m_pSrv = some srv ∧ srv.resource = tex.id
      ∧ t.m_pUav.isSome = flags.EnableUAV
      ∧ (∀ uav, t.m_pUav = some uav → uav.resource = tex.id)
      ∧ t.m_dims = dims ∧ t.m_format = format
      ∧ t.m_mipLevels
          = (if flags.Mipmaps = true then
              (Nat.clog 2 (max dims.x (max dims.y dims.z)).toNat : Int) + 1 else 1)
      ∧ 1 ≤ t.m_mipLevels
      ∧ (tex.desc.MipLevels : Int) = t.m_mipLevels
      ∧ (srv.desc.MipLevels : Int) = t.m_mipLevels := by
  obtain ⟨tex, srv, h1, h2, h3, h4, h5, _, _, _, _, h9, h10, h11, h12, h13⟩ :=
    Texture3D_Init_ok h
  have hmax : max dims.x (max dims.y dims.z) < 2147483648 := max_lt hx (max_lt hy hz)
  obtain ⟨b1, b2⟩ := mipCount_flag_bounds flags hmax
  obtain ⟨k1, k2⟩ := mipLevels_kept b1 b2
  have hml : t.m_mipLevels
      = (if flags.Mipmaps = true then CalculateMipCount (max dims.x (max dims.y dims.z))
          else 1) := by
    rw [h11, h4]
    exact k1
  have huav0 : s0.m_pUav = none := by
    rcases hstart with hs | ⟨s, hs⟩ <;> rw [hs] <;> rfl
  refine ⟨tex, srv, h1, h2, h3, ?_, ?_, h9, h10, hml, by rw [hml]; exact b1, ?_, ?_⟩
  · cases hu : flags.EnableUAV
    · rw [h13 hu, huav0]; rfl
    · obtain ⟨uav, hv, _⟩ := h12 hu
      rw [hv]; rfl
  · intro uav hv
    cases hu : flags.EnableUAV
    · rw [h13 hu, huav0] at hv
      cases hv
    · obtain ⟨uav2, hv2, hr⟩ := h12 hu
      rw [hv2] at hv
      cases hv
      exact hr
  · rw [hml, h4]; exact k2
  · rw [hml, h5, h4]; exact k2

/-- C8: starting from a released or never-used resource, a successful
`Texture2D::Init(dims, format, flags)`, and likewise `TextureCube::Init` and
`Texture3D::Init`, yields a state whose texture and read-only view are not
null, whose read-write view is not null exactly when the flag `EnableUAV` is
set, whose views are views of the texture, whose dims and format are the
arguments, and whose `m_mipLevels` is `ceil(log2(max(dims))) + 1` with the
mipmaps flag and 1 without it; `m_mipLevels` is at least 1, and the texture and
its read-only view are created with that level count. The dimensions are C
`int` values. -/
theorem init_yields_resource :
    (∀ (s0 : Texture2D), (s0 = Texture2D.construct ∨ ∃ s : Texture2D, s0 = s.Release) →
      ∀ (pDevice dev : ID3D11Device) (dims : int2) (format : DXGI_FORMAT) (flags : TEXFLAG)
        (t : Texture2D), dims.x < 2147483648 → dims.y < 2147483648 →
        s0.Init pDevice dims format flags = Except.ok (t, dev) →
        ∃ tex srv, t.m_pTex = some tex ∧ t.m_pSrv = some srv ∧ srv.resource = tex.id
          ∧ t.m_pUav.isSome = flags.EnableUAV
          ∧ (∀ uav, t.m_pUav = some uav → uav.resource = tex.id)
          ∧ t.m_dims = dims ∧ t.m_format = format
          ∧ t.m_mipLevels
              = (if flags.Mipmaps = true then (Nat.clog 2 (max dims.x dims.y).toNat : Int) + 1
                  else 1)
          ∧ 1 ≤ t.m_mipLevels
          ∧ (tex.desc.MipLevels : Int) = t.m_mipLevels
          ∧ (srv.desc.MipLevels : Int) = t.m_mipLevels)
    ∧ (∀ (s0 : TextureCube), (s0 = TextureCube.construct ∨ ∃ s : TextureCube, s0 = s.Release) →
      ∀ (pDevice dev : ID3D11Device) (cubeSize : Int) (format : DXGI_FORMAT) (flags : TEXFLAG)
        (t : TextureCube), cubeSize < 2147483648 →
        s0.Init pDevice cubeSize format flags = Except.ok (t, dev) →
        ∃ tex srv, t.m_pTex = some tex ∧ t.m_pSrv = some srv ∧ srv.resource = tex.id
          ∧ t.m_pUav.isSome = flags.EnableUAV
          ∧ (∀ uav, t.m_pUav = some uav → uav.resource = tex.id)
          ∧ t.m_cubeSize = cubeSize ∧ t.m_format = format
          ∧ t.m_mipLevels
              = (if flags.Mipmaps = true then (Nat.clog 2 cubeSize.toNat : Int) + 1 else 1)
          ∧ 1 ≤ t.m_mipLevels
          ∧ (tex.desc.MipLevels : Int) = t.m_mipLevels
          ∧ (srv.desc.MipLevels : Int) = t.m_mipLevels)
    ∧ (∀ (s0 : Texture3D), (s0 = Texture3D.construct ∨ ∃ s : Texture3D, s0 = s.Release) →
      ∀ (pDevice dev : ID3D11Device) (dims : int3) (format : DXGI_FORMAT) (flags : TEXFLAG)
        (t : Texture3D), dims.x < 2147483648 → dims.y < 2147483648 → dims.z < 2147483648 →
        s0.Init pDevice dims format flags = Except.ok (t, dev) →
        ∃ tex srv, t.m_pTex = some tex ∧ t.m_pSrv = some srv ∧ srv.resource = tex.id
          ∧ t.m_pUav.isSome = flags.EnableUAV
          ∧ (∀ uav, t.m_pUav = some uav → uav.resource = tex.id)
          ∧ t.m_dims = dims ∧ t.m_format = format
          ∧ t.m_mipLevels
              = (if flags.Mipmaps = true then
                  (Nat.clog 2 (max dims.x (max dims.y dims.z)).toNat : Int) + 1 else 1)
          ∧ 1 ≤ t.m_mipLevels
          ∧ (tex.desc.MipLevels : Int) = t.m_mipLevels
          ∧ (srv.desc.MipLevels : Int) = t.m_mipLevels) :=
  ⟨fun s0 hs pDevice dev dims format flags t hx hy h =>
      Texture2D_Init_fresh s0 hs pDevice dev dims format flags t hx hy h,
   fun s0 hs pDevice dev cubeSize format flags t hx h =>
      TextureCube_Init_fresh s0 hs pDevice dev cubeSize format flags t hx h,
   fun s0 hs pDevice dev dims format flags t hx hy hz h =>
      Texture3D_Init_fresh s0 hs pDevice dev dims format flags t hx hy hz h⟩

/-- Witness of C8: an 8 by 2 texture with mipmaps and a read-write view (4
levels), a cube of edge 4 with mipmaps on a released resource (3 levels), and a
volume without mipmaps (1 level). -/
theorem init_yields_resource_witness :
    (∃ tex srv, sampleInit2D.1.m_pTex = some tex ∧ sampleInit2D.1.m_pSrv = some srv
      ∧ srv.resource = tex.id
      ∧ sampleInit2D.1.m_pUav.isSome = true
      ∧ (∀ uav, sampleInit2D.1.m_pUav = some uav → uav.resource = tex.id)
      ∧ sampleInit2D.1.m_dims = ⟨8, 2⟩ ∧ sampleInit2D.1.m_format = DXGI_FORMAT_R8G8B8A8_UNORM
      ∧ sampleInit2D.1.m_mipLevels
          = (if true = true then (Nat.clog 2 (max (8 : Int) 2).toNat : Int) + 1 else 1)
      ∧ 1 ≤ sampleInit2D.1.m_mipLevels
      ∧ (tex.desc.MipLevels : Int) = sampleInit2D.1.m_mipLevels
      ∧ (srv.desc.MipLevels : Int) = sampleInit2D.1.m_mipLevels)
    ∧ (∃ tex srv, sampleInitCube.1.m_pTex = some tex ∧ sampleInitCube.1.m_pSrv = some srv
      ∧ srv.resource = tex.id
      ∧ sampleInitCube.1.m_pUav.isSome = false
      ∧ (∀ uav, sampleInitCube.1.m_pUav = some uav → uav.resource = tex.id)
      ∧ sampleInitCube.1.m_cubeSize = 4
      ∧ sampleInitCube.1.m_format = DXGI_FORMAT_R8G8B8A8_UNORM
      ∧ sampleInitCube.1.m_mipLevels
          = (if true = true then (Nat.clog 2 (4 : Int).toNat : Int) + 1 else 1)
      ∧ 1 ≤ sampleInitCube.1.m_mipLevels
      ∧ (tex.desc.MipLevels : Int) = sampleInitCube.1.m_mipLevels
      ∧ (srv.desc.MipLevels : Int) = sampleInitCube.1.m_mipLevels)
    ∧ (∃ tex srv, sampleInit3D.1.m_pTex = some tex ∧ sampleInit3D.1.m_pSrv = some srv
      ∧ srv.resource = tex.id
      ∧ sampleInit3D.1.m_pUav.isSome = true
      ∧ (∀ uav, sampleInit3D.1.m_pUav = some uav → uav.resource = tex.id)
      ∧ sampleInit3D.1.m_dims = ⟨2, 2, 2⟩ ∧ sampleInit3D.1.m_format = DXGI_FORMAT_R8_UNORM
      ∧ sampleInit3D.1.m_mipLevels
          = (if false = true then
              (Nat.clog 2 (max (2 : Int) (max 2 2)).toNat : Int) + 1 else 1)
      ∧ 1 ≤ sampleInit3D.1.m_mipLevels
      ∧ (tex.desc.MipLevels : Int) = sampleInit3D.1.m_mipLevels
      ∧ (srv.desc.MipLevels : Int) = sampleInit3D.1.m_mipLevels) :=
  ⟨init_yields_resource.1 Texture2D.construct (Or.inl rfl) sampleDevice sampleInit2D.2 ⟨8, 2⟩
      DXGI_FORMAT_R8G8B8A8_UNORM ⟨true, true⟩ sampleInit2D.1 (by decide) (by decide) rfl,
   init_yields_resource.2.1 sampleTextureCube.Release (Or.inr ⟨sampleTextureCube, rfl⟩)
      sampleDevice sampleInitCube.2 4 DXGI_FORMAT_R8G8B8A8_UNORM ⟨true, false⟩ sampleInitCube.1
      (by decide) rfl,
   init_yields_resource.2.2 Texture3D.construct (Or.inl rfl) sampleDevice sampleInit3D.2
      ⟨2, 2, 2⟩ DXGI_FORMAT_R8_UNORM ⟨false, true⟩ sampleInit3D.1 (by decide) (by decide)
      (by decide) rfl⟩

/-! ## Resizing the swap chain -/

theorem GetBuffer_zero (chain : IDXGISwapChain) :
    chain.GetBuffer 0 = (HRESULT.S_OK, some chain.buffer) := by
  unfold IDXGISwapChain.GetBuffer
  have : 0 < max chain.BufferCount 1 := lt_max_of_lt_right (by decide)
  rw [if_pos this]

/-- What a successful `OnResize` leaves in the window, for new dimensions above
zero. -/
theorem D3D11Window_OnResize_ok {self s : D3D11Window} {w h : Int} {calls : List Call}
    (hw0 : 0 < w) (hw1 : w < 2147483648) (hh0 : 0 < h) (hh1 : h < 2147483648)
    (hres : self.OnResize ⟨w, h⟩ = Except.ok (s, calls)) :
    s.m_dims = ⟨w, h⟩ ∧ s.m_hasDepthBuffer = self.m_hasDepthBuffer
    ∧ (∃ dev0 bb rtvS rtvR chain, self.m_pDevice = some dev0
        ∧ s.m_pTexBackBuffer = some bb ∧ s.m_pRtvSRGB = some rtvS ∧ s.m_pRtvRaw = some rtvR
        ∧ s.m_pSwapChain = some chain ∧ chain.buffer.id = bb.id ∧ bb.id = dev0.nextId
        ∧ rtvS.resource = bb.id ∧ rtvR.resource = bb.id
        ∧ rtvS.desc.Format = DXGI_FORMAT_R8G8B8A8_UNORM_SRGB
        ∧ rtvR.desc.Format = DXGI_FORMAT_R8G8B8A8_UNORM
        ∧ (bb.desc.Width : Int) = w ∧ (bb.desc.Height : Int) = h)
    ∧ (self.m_hasDepthBuffer = true →
        ∃ depth dsv srv, s.m_pTexDepth = some depth ∧ s.m_pDsv = some dsv
          ∧ s.m_pSrvDepth = some srv ∧ dsv.resource = depth.id ∧ srv.resource = depth.id
          ∧ (depth.desc.Width : Int) = w ∧ (depth.desc.Height : Int) = h)
    ∧ (self.m_hasDepthBuffer = false →
        s.m_pTexDepth = none ∧ s.m_pDsv = none ∧ s.m_pSrvDepth = none) := by
  have huw : (uint w : Int) = w := uint_of_nonneg (by omega) (by omega)
  have huh : (uint h : Int) = h := uint_of_nonneg (by omega) (by omega)
  have hw' : uint w ≠ 0 := by omega
  have hh' : uint h ≠ 0 := by omega
  unfold D3D11Window.OnResize at hres
  cases hc : self.m_pSwapChain with
  | none => simp [hc, ASSERT_ERR, bind, Except.bind] at hres
  | some chain0 =>
    cases hd : self.m_pDevice with
    | none => simp [hc, hd, ASSERT_ERR, deref, bind, Except.bind] at hres
    | some dev0 =>
      simp only [hc, hd, ASSERT_ERR, deref, bind, Except.bind, pure, Except.pure,
        IDXGISwapChain.ResizeBuffers, GetBuffer_zero, ID3D11Device.CreateRenderTargetView,
        ID3D11Device.CreateTexture2D, ID3D11Device.CreateDepthStencilView,
        ID3D11Device.CreateShaderResourceView, Option.isSome, if_true] at hres
      cases hf1 : dev0.failing dev0.nextId
      · cases hf2 : dev0.failing (dev0.nextId + 1)
        · cases hf3 : dev0.failing (dev0.nextId + 1 + 1)
          · cases hdepth : self.m_hasDepthBuffer
            · simp [hf1, hf2, hf3, hdepth, CHECK_D3D, FAILED, GetBuffer_zero] at hres
              obtain ⟨h1, _⟩ := hres
              subst h1
              refine ⟨rfl, rfl, ⟨_, _, _, _, _, rfl, rfl, rfl, rfl, rfl, rfl, rfl, rfl,
                rfl, rfl, rfl, ?_, ?_⟩, (fun hc => by cases hc), fun _ => ⟨rfl, rfl, rfl⟩⟩
              · simp [hw', huw]
              · simp [hh', huh]
            · cases hf4 : dev0.failing (dev0.nextId + 1 + 1 + 1)
              · cases hf5 : dev0.failing (dev0.nextId + 1 + 1 + 1 + 1)
                · cases hf6 : dev0.failing (dev0.nextId + 1 + 1 + 1 + 1 + 1)
                  · simp [hf1, hf2, hf3, hf4, hf5, hf6, hdepth, CHECK_D3D, FAILED,
                      GetBuffer_zero] at hres
                    obtain ⟨h1, _⟩ := hres
                    subst h1
                    refine ⟨rfl, rfl, ⟨_, _, _, _, _, rfl, rfl, rfl, rfl, rfl, rfl, rfl,
                      rfl, rfl, rfl, rfl, ?_, ?_⟩,
                      fun _ => ⟨_, _, _, rfl, rfl, rfl, rfl, rfl, huw, huh⟩,
                      (fun hc => by cases hc)⟩
                    · simp [hw', huw]
                    · simp [hh', huh]
                  · simp [hf1, hf2, hf3, hf4, hf5, hf6, hdepth, CHECK_D3D, FAILED,
                      GetBuffer_zero] at hres
                · simp [hf1, hf2, hf3, hf4, hf5, hdepth, CHECK_D3D, FAILED,
                    GetBuffer_zero] at hres
              · simp [hf1, hf2, hf3, hf4, hdepth, CHECK_D3D, FAILED, GetBuffer_zero] at hres
          · simp [hf1, hf2, hf3, CHECK_D3D, FAILED, GetBuffer_zero] at hres
        · simp [hf1, hf2, CHECK_D3D, FAILED, GetBuffer_zero] at hres
      · simp [hf1, CHECK_D3D, FAILED] at hres

/-- C9: for all `w > 0` and `h > 0`, after a successful `OnResize((w, h))` the
dimensions `m_dims` are `(w, h)`; the back-buffer handle and both render-target
views (sRGB and raw) are not null, the views are views of the back buffer, and
the back buffer is the new buffer of the chain, of size exactly `(w, h)`; with a
depth buffer, the depth texture, the depth-stencil view and the depth
shader-resource view are not null, the views are views of the depth texture and
the depth texture has size exactly `(w, h)`; without one, the three depth
handles are null. -/
theorem resize_rebuilds_views (self s : D3D11Window) (w h : Int) (calls : List Call)
    (hw0 : 0 < w) (hw1 : w < 2147483648) (hh0 : 0 < h) (hh1 : h < 2147483648)
    (hres : self.OnResize ⟨w, h⟩ = Except.ok (s, calls)) :
    s.m_dims = ⟨w, h⟩ ∧ s.m_hasDepthBuffer = self.m_hasDepthBuffer
    ∧ (∃ dev0 bb rtvS rtvR chain, self.m_pDevice = some dev0
        ∧ s.m_pTexBackBuffer = some bb ∧ s.m_pRtvSRGB = some rtvS ∧ s.m_pRtvRaw = some rtvR
        ∧ s.m_pSwapChain = some chain ∧ chain.buffer.id = bb.id ∧ bb.id = dev0.nextId
        ∧ rtvS.resource = bb.id ∧ rtvR.resource = bb.id
        ∧ rtvS.desc.Format = DXGI_FORMAT_R8G8B8A8_UNORM_SRGB
        ∧ rtvR.desc.Format = DXGI_FORMAT_R8G8B8A8_UNORM
        ∧ (bb.desc.Width : Int) = w ∧ (bb.desc.Height : Int) = h)
    ∧ (self.m_hasDepthBuffer = true →
        ∃ depth dsv srv, s.m_pTexDepth = some depth ∧ s.m_pDsv = some dsv
          ∧ s.m_pSrvDepth = some srv ∧ dsv.resource = depth.id ∧ srv.resource = depth.id
          ∧ (depth.desc.Width : Int) = w ∧ (depth.desc.Height : Int) = h)
    ∧ (self.m_hasDepthBuffer = false →
        s.m_pTexDepth = none ∧ s.m_pDsv = none ∧ s.m_pSrvDepth = none) :=
  D3D11Window_OnResize_ok hw0 hw1 hh0 hh1 hres

/-- Witness of C9: the resize of a window with a depth buffer to 640 by 480. -/
theorem resize_rebuilds_views_witness :
    sampleResized.1.m_dims = ⟨640, 480⟩
    ∧ sampleResized.1.m_hasDepthBuffer = sampleWindow.m_hasDepthBuffer
    ∧ (∃ dev0 bb rtvS rtvR chain, sampleWindow.m_pDevice = some dev0
        ∧ sampleResized.1.m_pTexBackBuffer = some bb ∧ sampleResized.1.m_pRtvSRGB = some rtvS
        ∧ sampleResized.1.m_pRtvRaw = some rtvR
        ∧ sampleResized.1.m_pSwapChain = some chain ∧ chain.buffer.id = bb.id
        ∧ bb.id = dev0.nextId
        ∧ rtvS.resource = bb.id ∧ rtvR.resource = bb.id
        ∧ rtvS.desc.Format = DXGI_FORMAT_R8G8B8A8_UNORM_SRGB
        ∧ rtvR.desc.Format = DXGI_FORMAT_R8G8B8A8_UNORM
        ∧ (bb.desc.Width : Int) = 640 ∧ (bb.desc.Height : Int) = 480)
    ∧ (sampleWindow.m_hasDepthBuffer = true →
        ∃ depth dsv srv, sampleResized.1.m_pTexDepth = some depth
          ∧ sampleResized.1.m_pDsv = some dsv
          ∧ sampleResized.1.m_pSrvDepth = some srv ∧ dsv.resource = depth.id
          ∧ srv.resource = depth.id
          ∧ (depth.desc.Width : Int) = 640 ∧ (depth.desc.Height : Int) = 480)
    ∧ (sampleWindow.m_hasDepthBuffer = false →
        sampleResized.1.m_pTexDepth = none ∧ sampleResized.1.m_pDsv = none
          ∧ sampleResized.1.m_pSrvDepth = none) :=
  resize_rebuilds_views sampleWindow sampleResized.1 640 480 sampleResized.2 (by decide)
    (by decide) (by decide) (by decide) rfl

/-- Counterexample to C10 as stated: `OnResize` called with the dimensions the
surface already has (640 by 480, right after a resize to 640 by 480) succeeds,
releases the six handles, resizes the chain and creates everything again; the
views after the call are not the views before it. -/
theorem resize_same_dims_rebuilds :
    sampleResized.1.m_dims = ⟨640, 480⟩
    ∧ sampleResized.1.OnResize ⟨640, 480⟩ = Except.ok sampleResizedAgain
    ∧ sampleResizedAgain.2.take 8
        = [Call.Release 1, Call.Release 2, Call.Release 3, Call.Release 4, Call.Release 5,
           Call.Release 6, Call.ResizeBuffers 0 640 480 DXGI_FORMAT_UNKNOWN 0, Call.GetBuffer 0]
    ∧ sampleResizedAgain.2.length = 13
    ∧ (sampleResized.1.m_pTexBackBuffer.map fun t => t.id) = some 1
    ∧ (sampleResizedAgain.1.m_pTexBackBuffer.map fun t => t.id) = some 7
    ∧ sampleResizedAgain.1.m_pRtvSRGB ≠ sampleResized.1.m_pRtvSRGB
    ∧ sampleResizedAgain.1.m_pRtvRaw ≠ sampleResized.1.m_pRtvRaw
    ∧ sampleResizedAgain.1.m_pDsv ≠ sampleResized.1.m_pDsv
    ∧ sampleResizedAgain.1.m_pSrvDepth ≠ sampleResized.1.m_pSrvDepth := by
  refine ⟨rfl, rfl, rfl, rfl, rfl, rfl, ?_, ?_, ?_, ?_⟩
  · intro h
    have h2 := congrArg (fun o => o.map fun (v : ID3D11RenderTargetView) => v.id) h
    exact absurd h2 (by decide)
  · intro h
    have h2 := congrArg (fun o => o.map fun (v : ID3D11RenderTargetView) => v.id) h
    exact absurd h2 (by decide)
  · intro h
    have h2 := congrArg (fun o => o.map fun (v : ID3D11DepthStencilView) => v.id) h
    exact absurd h2 (by decide)
  · intro h
    have h2 := congrArg (fun o => o.map fun (v : ID3D11ShaderResourceView) => v.id) h
    exact absurd h2 (by decide)

/-- A successful `OnResize` stores the new dimensions, whatever they are. -/
theorem D3D11Window_OnResize_m_dims {self s : D3D11Window} {dimsNew : int2} {calls : List Call}
    (hres : self.OnResize dimsNew = Except.ok (s, calls)) : s.m_dims = dimsNew := by
  unfold D3D11Window.OnResize at hres
  cases hc : self.m_pSwapChain with
  | none => simp [hc, ASSERT_ERR, bind, Except.bind] at hres
  | some chain0 =>
    cases hd : self.m_pDevice with
    | none => simp [hc, hd, ASSERT_ERR, deref, bind, Except.bind] at hres
    | some dev0 =>
      simp only [hc, hd, ASSERT_ERR, deref, bind, Except.bind, pure, Except.pure,
        IDXGISwapChain.ResizeBuffers, GetBuffer_zero, ID3D11Device.CreateRenderTargetView,
        ID3D11Device.CreateTexture2D, ID3D11Device.CreateDepthStencilView,
        ID3D11Device.CreateShaderResourceView, Option.isSome, if_true] at hres
      cases hf1 : dev0.failing dev0.nextId
      · cases hf2 : dev0.failing (dev0.nextId + 1)
        · cases hf3 : dev0.failing (dev0.nextId + 1 + 1)
          · cases hdepth : self.m_hasDepthBuffer
            · simp [hf1, hf2, hf3, hdepth, CHECK_D3D, FAILED, GetBuffer_zero] at hres
              obtain ⟨h1, _⟩ := hres
              subst h1
              rfl
            · cases hf4 : dev0.failing (dev0.nextId + 1 + 1 + 1)
              · cases hf5 : dev0.failing (dev0.nextId + 1 + 1 + 1 + 1)
                · cases hf6 : dev0.failing (dev0.nextId + 1 + 1 + 1 + 1 + 1)
                  · simp [hf1, hf2, hf3, hf4, hf5, hf6, hdepth, CHECK_D3D, FAILED,
                      GetBuffer_zero] at hres
                    obtain ⟨h1, _⟩ := hres
                    subst h1
                    rfl
                  · simp [hf1, hf2, hf3, hf4, hf5, hf6, hdepth, CHECK_D3D, FAILED,
                      GetBuffer_zero] at hres
                · simp [hf1, hf2, hf3, hf4, hf5, hdepth, CHECK_D3D, FAILED,
                    GetBuffer_zero] at hres
              · simp [hf1, hf2, hf3, hf4, hdepth, CHECK_D3D, FAILED, GetBuffer_zero] at hres
          · simp [hf1, hf2, hf3, CHECK_D3D, FAILED, GetBuffer_zero] at hres
        · simp [hf1, hf2, CHECK_D3D, FAILED, GetBuffer_zero] at hres
      · simp [hf1, CHECK_D3D, FAILED] at hres

/-- The handler of `WM_SIZE` in `MsgProc`, as a function of its guard. -/
theorem MsgProc_WM_SIZE (self : D3D11Window) (host : WindowHost) (wParam lParam : Int) :
    self.MsgProc host WM_SIZE wParam lParam
      = if (LOWORD lParam > 0 ∧ HIWORD lParam > 0)
            ∧ (LOWORD lParam ≠ self.m_dims.x ∨ HIWORD lParam ≠ self.m_dims.y) then
          (self.OnResize ⟨LOWORD lParam, HIWORD lParam⟩).bind
            (fun r => Except.ok (0, host.OnRender r.1, r.2 ++ [Call.OnRender]))
        else Except.ok (0, self, []) := by
  unfold D3D11Window.MsgProc
  rw [if_neg (by decide), if_neg (by decide), if_pos rfl]
  rfl

/-- The handler of `WM_SIZING` in `MsgProc`, as a function of its guard. -/
theorem MsgProc_WM_SIZING (self : D3D11Window) (host : WindowHost) (wParam lParam : Int) :
    self.MsgProc host WM_SIZING wParam lParam
      = if (wrapInt (host.clientRect.right - host.clientRect.left) > 0
              ∧ wrapInt (host.clientRect.bottom - host.clientRect.top) > 0)
            ∧ (wrapInt (host.clientRect.right - host.clientRect.left) ≠ self.m_dims.x
              ∨ wrapInt (host.clientRect.bottom - host.clientRect.top) ≠ self.m_dims.y) then
          (self.OnResize ⟨wrapInt (host.clientRect.right - host.clientRect.left),
              wrapInt (host.clientRect.bottom - host.clientRect.top)⟩).bind
            (fun r => Except.ok (0, host.OnRender r.1, r.2 ++ [Call.OnRender]))
        else Except.ok (0, self, []) := by
  unfold D3D11Window.MsgProc
  rw [if_neg (by decide), if_neg (by decide), if_neg (by decide), if_pos rfl]
  rfl

/-- C10, amended: the check for unchanged dimensions is in `MsgProc`, not in
`OnResize`. A `WM_SIZE` or `WM_SIZING` notification whose dimensions equal
`m_dims` returns 0, issues no call at all (no release, no reallocation) and
leaves the whole window state, so every handle, as it was; hence, when the
`OnRender` of the subclass keeps `m_dims`, the second of two `WM_SIZE`
notifications with the same dimensions in a row is such a no-op. -/
theorem resize_message_same_dims_noop (self : D3D11Window) (host : WindowHost)
    (wParam lParam : Int) :
    (LOWORD lParam = self.m_dims.x → HIWORD lParam = self.m_dims.y →
      self.MsgProc host WM_SIZE wParam lParam = Except.ok (0, self, []))
    ∧ (wrapInt (host.clientRect.right - host.clientRect.left) = self.m_dims.x →
        wrapInt (host.clientRect.bottom - host.clientRect.top) = self.m_dims.y →
        self.MsgProc host WM_SIZING wParam lParam = Except.ok (0, self, []))
    ∧ ((∀ s : D3D11Window, (host.OnRender s).m_dims = s.m_dims) →
        ∀ (r : Int) (s1 : D3D11Window) (calls1 : List Call),
          self.MsgProc host WM_SIZE wParam lParam = Except.ok (r, s1, calls1) →
          s1.MsgProc host WM_SIZE wParam lParam = Except.ok (0, s1, [])) := by
  refine ⟨?_, ?_, ?_⟩
  · intro hx hy
    rw [MsgProc_WM_SIZE, if_neg]
    rintro ⟨_, h | h⟩
    · exact h hx
    · exact h hy
  · intro hx hy
    rw [MsgProc_WM_SIZING, if_neg]
    rintro ⟨_, h | h⟩
    · exact h hx
    · exact h hy
  · intro hrender r s1 calls1 hfirst
    rw [MsgProc_WM_SIZE] at hfirst
    by_cases hg : (LOWORD lParam > 0 ∧ HIWORD lParam > 0)
        ∧ (LOWORD lParam ≠ self.m_dims.x ∨ HIWORD lParam ≠ self.m_dims.y)
    · rw [if_pos hg] at hfirst
      cases hres : self.OnResize ⟨LOWORD lParam, HIWORD lParam⟩ with
      | error e =>
        rw [hres] at hfirst
        cases hfirst
      | ok res =>
        rw [hres] at hfirst
        obtain ⟨resized, calls⟩ := res
        have hd := D3D11Window_OnResize_m_dims hres
        have hs1 : s1 = host.OnRender resized := by
          simp only [Except.bind, Except.ok.injEq, Prod.mk.injEq] at hfirst
          exact hfirst.2.1.symm
        have hdims : s1.m_dims = ⟨LOWORD lParam, HIWORD lParam⟩ := by
          rw [hs1, hrender, hd]
        rw [MsgProc_WM_SIZE, if_neg]
        rintro ⟨_, h | h⟩
        · exact h (by rw [hdims])
        · exact h (by rw [hdims])
    · rw [if_neg hg] at hfirst
      have hs1 : s1 = self := by
        simp only [Except.ok.injEq, Prod.mk.injEq] at hfirst
        exact hfirst.2.1.symm
      rw [hs1, MsgProc_WM_SIZE, if_neg hg]

/-- Witness of C10, amended: on the window resized to 640 by 480, a `WM_SIZE`
carrying 640 by 480 (`lParam = 640 + 65536 * 480`) and a `WM_SIZING` with a
client rectangle of 640 by 480 change nothing. -/
theorem resize_message_same_dims_noop_witness :
    sampleResized.1.MsgProc sampleHost WM_SIZE 0 31457920 = Except.ok (0, sampleResized.1, [])
    ∧ sampleResized.1.MsgProc sampleHost WM_SIZING 0 0 = Except.ok (0, sampleResized.1, []) :=
  ⟨(resize_message_same_dims_noop sampleResized.1 sampleHost 0 31457920).1 (by decide)
      (by decide),
   (resize_message_same_dims_noop sampleResized.1 sampleHost 0 0).2.1 (by decide) (by decide)⟩

/-! ## The calls of `OnResize` and the window procedure -/

theorem comptrRelease_eq {α : Type} (p : Option α) (idOf : α → Nat) :
    comptrRelease p idOf = ((p.map idOf).toList).map Call.Release := by
  cases p <;> rfl

/-- The calls of a successful `OnResize`: the releases of the handles held, then
`ResizeBuffers`, then `GetBuffer` and the creations. -/
theorem D3D11Window_OnResize_calls {self s : D3D11Window} {dimsNew : int2} {calls : List Call}
    (hres : self.OnResize dimsNew = Except.ok (s, calls)) :
    ∃ after, calls = self.heldHandles.map Call.Release
        ++ Call.ResizeBuffers 0 (uint dimsNew.x) (uint dimsNew.y) DXGI_FORMAT_UNKNOWN 0 :: after
      ∧ (∀ c ∈ after, c.isCreation = true)
      ∧ (∃ bb srgb raw, after.take 3 = [Call.GetBuffer 0, Call.CreateRenderTargetView bb srgb,
            Call.CreateRenderTargetView bb raw])
      ∧ after.length = (if self.m_hasDepthBuffer = true then 6 else 3) := by
  have hrel : comptrRelease self.m_pTexBackBuffer (fun t => t.id)
      ++ comptrRelease self.m_pRtvSRGB (fun v => v.id)
      ++ comptrRelease self.m_pRtvRaw (fun v => v.id)
      ++ comptrRelease self.m_pTexDepth (fun t => t.id)
      ++ comptrRelease self.m_pDsv (fun v => v.id)
      ++ comptrRelease self.m_pSrvDepth (fun v => v.id)
      = self.heldHandles.map Call.Release := by
    simp only [comptrRelease_eq, D3D11Window.heldHandles, List.map_append]
  unfold D3D11Window.OnResize at hres
  rw [hrel] at hres
  cases hc : self.m_pSwapChain with
  | none => simp [hc, ASSERT_ERR, bind, Except.bind] at hres
  | some chain0 =>
    cases hd : self.m_pDevice with
    | none => simp [hc, hd, ASSERT_ERR, deref, bind, Except.bind] at hres
    | some dev0 =>
      simp only [hc, hd, ASSERT_ERR, deref, bind, Except.bind, pure, Except.pure,
        IDXGISwapChain.ResizeBuffers, GetBuffer_zero, ID3D11Device.CreateRenderTargetView,
        ID3D11Device.CreateTexture2D, ID3D11Device.CreateDepthStencilView,
        ID3D11Device.CreateShaderResourceView, Option.isSome, if_true] at hres
      cases hf1 : dev0.failing dev0.nextId
      · cases hf2 : dev0.failing (dev0.nextId + 1)
        · cases hf3 : dev0.failing (dev0.nextId + 1 + 1)
          · cases hdepth : self.m_hasDepthBuffer
            · simp [hf1, hf2, hf3, hdepth, CHECK_D3D, FAILED, GetBuffer_zero] at hres
              obtain ⟨_, h2⟩ := hres
              subst h2
              refine ⟨_, rfl, ?_, ⟨_, _, _, rfl⟩, rfl⟩
              intro c hcmem
              simp at hcmem
              rcases hcmem with h | h | h <;> rw [h] <;> rfl
            · cases hf4 : dev0.failing (dev0.nextId + 1 + 1 + 1)
              · cases hf5 : dev0.failing (dev0.nextId + 1 + 1 + 1 + 1)
                · cases hf6 : dev0.failing (dev0.nextId + 1 + 1 + 1 + 1 + 1)
                  · simp [hf1, hf2, hf3, hf4, hf5, hf6, hdepth, CHECK_D3D, FAILED,
                      GetBuffer_zero] at hres
                    obtain ⟨_, h2⟩ := hres
                    subst h2
                    refine ⟨_, rfl, ?_, ⟨_, _, _, rfl⟩, rfl⟩
                    intro c hcmem
                    simp at hcmem
                    rcases hcmem with h | h | h | h | h | h <;> rw [h] <;> rfl
                  · simp [hf1, hf2, hf3, hf4, hf5, hf6, hdepth, CHECK_D3D, FAILED,
                      GetBuffer_zero] at hres
                · simp [hf1, hf2, hf3, hf4, hf5, hdepth, CHECK_D3D, FAILED,
                    GetBuffer_zero] at hres
              · simp [hf1, hf2, hf3, hf4, hdepth, CHECK_D3D, FAILED, GetBuffer_zero] at hres
          · simp [hf1, hf2, hf3, CHECK_D3D, FAILED, GetBuffer_zero] at hres
        · simp [hf1, hf2, CHECK_D3D, FAILED, GetBuffer_zero] at hres
      · simp [hf1, CHECK_D3D, FAILED] at hres

/-- The two outcomes of the resize handlers of `MsgProc` for new dimensions
`d`: a returning run returns 0, and it has issued `ResizeBuffers` exactly when
both dimensions are above zero and one of them differs from `m_dims`. -/
theorem resize_branch_outcome (self : D3D11Window) (host : WindowHost) (d : int2)
    (r : Int) (s : D3D11Window) (calls : List Call)
    (h : (if (d.x > 0 ∧ d.y > 0) ∧ (d.x ≠ self.m_dims.x ∨ d.y ≠ self.m_dims.y) then
            (self.OnResize d).bind
              (fun r => Except.ok (0, host.OnRender r.1, r.2 ++ [Call.OnRender]))
          else Except.ok (0, self, [])) = Except.ok (r, s, calls)) :
    r = 0
    ∧ (Call.ResizeBuffers 0 (uint d.x) (uint d.y) DXGI_FORMAT_UNKNOWN 0 ∈ calls
        ↔ (d.x > 0 ∧ d.y > 0) ∧ (d.x ≠ self.m_dims.x ∨ d.y ≠ self.m_dims.y)) := by
  by_cases hg : (d.x > 0 ∧ d.y > 0) ∧ (d.x ≠ self.m_dims.x ∨ d.y ≠ self.m_dims.y)
  · rw [if_pos hg] at h
    cases hres : self.OnResize d with
    | error e =>
      rw [hres] at h
      cases h
    | ok res =>
      rw [hres] at h
      obtain ⟨resized, c⟩ := res
      simp only [Except.bind, Except.ok.injEq, Prod.mk.injEq] at h
      obtain ⟨h1, _, h3⟩ := h
      obtain ⟨after, hc, _⟩ := D3D11Window_OnResize_calls hres
      refine ⟨h1.symm, ?_⟩
      constructor
      · intro _
        exact hg
      · intro _
        rw [← h3, hc]
        simp
  · rw [if_neg hg] at h
    simp only [Except.ok.injEq, Prod.mk.injEq] at h
    obtain ⟨h1, _, h3⟩ := h
    refine ⟨h1.symm, ?_⟩
    constructor
    · intro hm
      rw [← h3] at hm
      cases hm
    · intro hg2
      exact absurd hg2 hg

theorem LOWORD_HIWORD_nonneg (l : Int) : 0 ≤ LOWORD l ∧ 0 ≤ HIWORD l := by
  unfold LOWORD HIWORD
  omega

/-- C11: `MsgProc` handling `WM_SIZE` (new dimensions `LOWORD(lParam)`,
`HIWORD(lParam)`) or `WM_SIZING` (new dimensions from the client rectangle)
invokes `OnResize`, followed by `OnRender`, exactly when both new dimensions are
above zero and the pair differs from `m_dims` in a component. When one of them
is zero (or below) or the pair equals `m_dims`, no resize is attempted: no call
is issued and the window state is unchanged. Whenever the handler returns, it
returns 0. -/
theorem resize_notification_guard (self : D3D11Window) (host : WindowHost)
    (wParam lParam : Int) :
    ((LOWORD lParam > 0 ∧ HIWORD lParam > 0)
        ∧ (LOWORD lParam ≠ self.m_dims.x ∨ HIWORD lParam ≠ self.m_dims.y) →
      self.MsgProc host WM_SIZE wParam lParam
        = (self.OnResize ⟨LOWORD lParam, HIWORD lParam⟩).bind
            (fun r => Except.ok (0, host.OnRender r.1, r.2 ++ [Call.OnRender])))
    ∧ (LOWORD lParam = 0 ∨ HIWORD lParam = 0
          ∨ (LOWORD lParam = self.m_dims.x ∧ HIWORD lParam = self.m_dims.y) →
        self.MsgProc host WM_SIZE wParam lParam = Except.ok (0, self, []))
    ∧ (∀ (r : Int) (s : D3D11Window) (calls : List Call),
        self.MsgProc host WM_SIZE wParam lParam = Except.ok (r, s, calls) →
        r = 0
        ∧ (Call.ResizeBuffers 0 (uint (LOWORD lParam)) (uint (HIWORD lParam))
              DXGI_FORMAT_UNKNOWN 0 ∈ calls
            ↔ (LOWORD lParam > 0 ∧ HIWORD lParam > 0)
              ∧ (LOWORD lParam ≠ self.m_dims.x ∨ HIWORD lParam ≠ self.m_dims.y)))
    ∧ ((wrapInt (host.clientRect.right - host.clientRect.left) > 0
          ∧ wrapInt (host.clientRect.bottom - host.clientRect.top) > 0)
        ∧ (wrapInt (host.clientRect.right - host.clientRect.left) ≠ self.m_dims.x
          ∨ wrapInt (host.clientRect.bottom - host.clientRect.top) ≠ self.m_dims.y) →
      self.MsgProc host WM_SIZING wParam lParam
        = (self.OnResize ⟨wrapInt (host.clientRect.right - host.clientRect.left),
              wrapInt (host.clientRect.bottom - host.clientRect.top)⟩).bind
            (fun r => Except.ok (0, host.OnRender r.1, r.2 ++ [Call.OnRender])))
    ∧ (wrapInt (host.clientRect.right - host.clientRect.left) ≤ 0
          ∨ wrapInt (host.clientRect.bottom - host.clientRect.top) ≤ 0
          ∨ (wrapInt (host.clientRect.right - host.clientRect.left) = self.m_dims.x
            ∧ wrapInt (host.clientRect.bottom - host.clientRect.top) = self.m_dims.y) →
        self.MsgProc host WM_SIZING wParam lParam = Except.ok (0, self, []))
    ∧ (∀ (r : Int) (s : D3D11Window) (calls : List Call),
        self.MsgProc host WM_SIZING wParam lParam = Except.ok (r, s, calls) →
        r = 0
        ∧ (Call.ResizeBuffers 0 (uint (wrapInt (host.clientRect.right - host.clientRect.left)))
              (uint (wrapInt (host.clientRect.bottom - host.clientRect.top)))
              DXGI_FORMAT_UNKNOWN 0 ∈ calls
            ↔ (wrapInt (host.clientRect.right - host.clientRect.left) > 0
                ∧ wrapInt (host.clientRect.bottom - host.clientRect.top) > 0)
              ∧ (wrapInt (host.clientRect.right - host.clientRect.left) ≠ self.m_dims.x
                ∨ wrapInt (host.clientRect.bottom - host.clientRect.top) ≠ self.m_dims.y))) := by
  refine ⟨?_, ?_, ?_, ?_, ?_, ?_⟩
  · intro hg
    rw [MsgProc_WM_SIZE, if_pos hg]
  · intro hz
    rw [MsgProc_WM_SIZE, if_neg]
    rintro ⟨⟨hx, hy⟩, hne⟩
    rcases hz with h | h | ⟨h1, h2⟩
    · omega
    · omega
    · rcases hne with h | h
      · exact h h1
      · exact h h2
  · intro r s calls h
    rw [MsgProc_WM_SIZE] at h
    exact resize_branch_outcome self host ⟨LOWORD lParam, HIWORD lParam⟩ r s calls h
  · intro hg
    rw [MsgProc_WM_SIZING, if_pos hg]
  · intro hz
    rw [MsgProc_WM_SIZING, if_neg]
    rintro ⟨⟨hx, hy⟩, hne⟩
    rcases hz with h | h | ⟨h1, h2⟩
    · omega
    · omega
    · rcases hne with h | h
      · exact h h1
      · exact h h2
  · intro r s calls h
    rw [MsgProc_WM_SIZING] at h
    exact resize_branch_outcome self host
      ⟨wrapInt (host.clientRect.right - host.clientRect.left),
        wrapInt (host.clientRect.bottom - host.clientRect.top)⟩ r s calls h

/-- Witness of C11: on the window resized to 640 by 480, a `WM_SIZE` carrying
800 by 600 (`lParam = 800 + 65536 * 600`) invokes `OnResize`, and a `WM_SIZE` of
a minimised window (`lParam = 0`) changes nothing. -/
theorem resize_notification_guard_witness :
    sampleResized.1.MsgProc sampleHost WM_SIZE 0 39322400
        = (sampleResized.1.OnResize ⟨LOWORD 39322400, HIWORD 39322400⟩).bind
            (fun r => Except.ok (0, sampleHost.OnRender r.1, r.2 ++ [Call.OnRender]))
    ∧ sampleResized.1.MsgProc sampleHost WM_SIZE 0 0 = Except.ok (0, sampleResized.1, []) :=
  ⟨(resize_notification_guard sampleResized.1 sampleHost 0 39322400).1 (by decide),
   (resize_notification_guard sampleResized.1 sampleHost 0 0).2.1 (Or.inl (by decide))⟩

/-! ## Texture loading -/

/-- The value `LoadTexture2D` returns: true exactly when the file load
succeeds, the view is a 2D view and the resource is a 2D texture. -/
theorem LoadTexture2D_result (loader : FileLoader) (path : String) (pTexOut : Texture2D)
    (flags : TEXLOADFLAG) :
    (LoadTexture2D loader path pTexOut flags).1 = true
      ↔ ∃ loaded t, loader path (imgLoadInfo2D flags) = some loaded
          ∧ loaded.pSrv.desc.ViewDimension = D3D11_SRV_DIMENSION.D3D11_SRV_DIMENSION_TEXTURE2D
          ∧ loaded.pRes = ID3D11Resource.texture2D t := by
  unfold LoadTexture2D
  cases hl : loader path (imgLoadInfo2D flags) with
  | none => simp [hl]
  | some loaded =>
    by_cases hd : loaded.pSrv.desc.ViewDimension
        = D3D11_SRV_DIMENSION.D3D11_SRV_DIMENSION_TEXTURE2D
    · cases hr : loaded.pRes with
      | texture2D t =>
        simp [hl, hd, hr, ID3D11Resource.QueryInterfaceTexture2D, FAILED]
      | texture3D t =>
        simp [hl, hd, hr, ID3D11Resource.QueryInterfaceTexture2D]
      | other id =>
        simp [hl, hd, hr, ID3D11Resource.QueryInterfaceTexture2D]
    · simp [hl, hd]

/-- The failing runs of `LoadTexture2D` return false and leave the output
texture object as it was. -/
theorem LoadTexture2D_failure (loader : FileLoader) (path : String) (pTexOut : Texture2D)
    (flags : TEXLOADFLAG) (h : (LoadTexture2D loader path pTexOut flags).1 = false) :
    (LoadTexture2D loader path pTexOut flags).2.1 = pTexOut := by
  unfold LoadTexture2D at h ⊢
  cases hl : loader path (imgLoadInfo2D flags) with
  | none => simp [hl]
  | some loaded =>
    by_cases hd : loaded.pSrv.desc.ViewDimension
        = D3D11_SRV_DIMENSION.D3D11_SRV_DIMENSION_TEXTURE2D
    · cases hr : loaded.pRes with
      | texture2D t =>
        simp [hl, hd, hr, ID3D11Resource.QueryInterfaceTexture2D, FAILED] at h
      | texture3D t =>
        simp [hl, hd, hr, ID3D11Resource.QueryInterfaceTexture2D]
      | other id =>
        simp [hl, hd, hr, ID3D11Resource.QueryInterfaceTexture2D]
    · simp [hl, hd]

/-- The successful run of `LoadTexture2D`: the output takes the texture, the
view, the dimensions, the mip count and the format of the loaded texture. -/
theorem LoadTexture2D_success (loader : FileLoader) (path : String) (pTexOut : Texture2D)
    (flags : TEXLOADFLAG) (loaded : LoadedView) (t : ID3D11Texture2D)
    (hl : loader path (imgLoadInfo2D flags) = some loaded)
    (hd : loaded.pSrv.desc.ViewDimension = D3D11_SRV_DIMENSION.D3D11_SRV_DIMENSION_TEXTURE2D)
    (hr : loaded.pRes = ID3D11Resource.texture2D t) :
    (LoadTexture2D loader path pTexOut flags).1 = true
    ∧ (LoadTexture2D loader path pTexOut flags).2.1
        = { pTexOut with
            m_pTex := some t, m_pSrv := some loaded.pSrv,
            m_dims := ⟨wrapInt t.desc.Width, wrapInt t.desc.Height⟩,
            m_mipLevels := wrapInt t.desc.MipLevels, m_format := t.desc.Format } := by
  unfold LoadTexture2D
  simp [hl, hd, hr, ID3D11Resource.QueryInterfaceTexture2D, FAILED]

/-- Every returning run of `LoadTextureCube`: it returns true exactly when the
file load succeeds, the view is a cube view and the resource is a 2D texture,
and a run that returns false leaves the output cube object as it was. -/
theorem LoadTextureCube_result (loader : FileLoader) (path : String) (pTexOut out : TextureCube)
    (flags : TEXLOADFLAG) (b : Bool) (warnings : List String)
    (h : LoadTextureCube loader path pTexOut flags = Except.ok (b, out, warnings)) :
    (b = true
      ↔ ∃ loaded t, loader path (imgLoadInfoCube flags) = some loaded
          ∧ loaded.pSrv.desc.ViewDimension
              = D3D11_SRV_DIMENSION.D3D11_SRV_DIMENSION_TEXTURECUBE
          ∧ loaded.pRes = ID3D11Resource.texture2D t)
    ∧ (b = false → out = pTexOut) := by
  unfold LoadTextureCube at h
  cases hl : loader path (imgLoadInfoCube flags) with
  | none =>
    simp [hl] at h
    obtain ⟨h1, h2, _⟩ := h
    subst h1 h2
    simp
  | some loaded =>
    by_cases hd : loaded.pSrv.desc.ViewDimension
        = D3D11_SRV_DIMENSION.D3D11_SRV_DIMENSION_TEXTURECUBE
    · cases hr : loaded.pRes with
      | texture2D t =>
        by_cases a1 : t.desc.Width = t.desc.Height
        · by_cases a2 : t.desc.ArraySize = 6
          · by_cases a3 : t.desc.MiscFlags &&& D3D11_RESOURCE_MISC_TEXTURECUBE ≠ 0
            · simp [hl, hd, hr, ID3D11Resource.QueryInterfaceTexture2D, FAILED, bind,
                Except.bind, pure, Except.pure, ASSERT_ERR, a1, a2, a3] at h
              obtain ⟨h1, _, _⟩ := h
              subst h1
              simp [hd, hr]
            · simp [hl, hd, hr, ID3D11Resource.QueryInterfaceTexture2D, FAILED, bind,
                Except.bind, pure, Except.pure, ASSERT_ERR, a1, a2, a3] at h
          · simp [hl, hd, hr, ID3D11Resource.QueryInterfaceTexture2D, FAILED, bind,
              Except.bind, pure, Except.pure, ASSERT_ERR, a1, a2] at h
        · simp [hl, hd, hr, ID3D11Resource.QueryInterfaceTexture2D, FAILED, bind,
            Except.bind, pure, Except.pure, ASSERT_ERR, a1] at h
      | texture3D t =>
        simp [hl, hd, hr, ID3D11Resource.QueryInterfaceTexture2D] at h
        obtain ⟨h1, h2, _⟩ := h
        subst h1 h2
        simp [hr]
      | other id =>
        simp [hl, hd, hr, ID3D11Resource.QueryInterfaceTexture2D] at h
        obtain ⟨h1, h2, _⟩ := h
        subst h1 h2
        simp [hr]
    · simp [hl, hd] at h
      obtain ⟨h1, h2, _⟩ := h
      subst h1 h2
      simp [hd]

/-- The successful run of `LoadTextureCube`, for a loaded texture that passes
the three checks on its description. -/
theorem LoadTextureCube_success (loader : FileLoader) (path : String) (pTexOut : TextureCube)
    (flags : TEXLOADFLAG) (loaded : LoadedView) (t : ID3D11Texture2D)
    (hl : loader path (imgLoadInfoCube flags) = some loaded)
    (hd : loaded.pSrv.desc.ViewDimension
      = D3D11_SRV_DIMENSION.D3D11_SRV_DIMENSION_TEXTURECUBE)
    (hr : loaded.pRes = ID3D11Resource.texture2D t)
    (a1 : t.desc.Width = t.desc.Height) (a2 : t.desc.ArraySize = 6)
    (a3 : t.desc.MiscFlags &&& D3D11_RESOURCE_MISC_TEXTURECUBE ≠ 0) :
    LoadTextureCube loader path pTexOut flags
      = Except.ok (true,
          { pTexOut with
            m_pTex := some t, m_pSrv := some loaded.pSrv,
            m_cubeSize := wrapInt t.desc.Width,
            m_mipLevels := wrapInt t.desc.MipLevels, m_format := t.desc.Format },
          if flags.HDR = true then
            ASSERT_WARN_MSG (!flags.SRGB) "HDR bitmaps cannot be in SRGB space"
          else []) := by
  unfold LoadTextureCube
  simp [hl, hd, hr, ID3D11Resource.QueryInterfaceTexture2D, FAILED, bind, Except.bind,
    pure, Except.pure, ASSERT_ERR, a1, a2, a3]

theorem loadFormat_cases (flags : TEXLOADFLAG) :
    (flags.HDR = true →
      (imgLoadInfo2D flags).Format = DXGI_FORMAT_R16G16B16A16_FLOAT
      ∧ (imgLoadInfoCube flags).Format = DXGI_FORMAT_R16G16B16A16_FLOAT)
    ∧ (flags.HDR = false → flags.SRGB = true →
      (imgLoadInfo2D flags).Format = DXGI_FORMAT_R8G8B8A8_UNORM_SRGB
      ∧ (imgLoadInfoCube flags).Format = DXGI_FORMAT_R8G8B8A8_UNORM_SRGB)
    ∧ (flags.HDR = false → flags.SRGB = false →
      (imgLoadInfo2D flags).Format = DXGI_FORMAT_R8G8B8A8_UNORM
      ∧ (imgLoadInfoCube flags).Format = DXGI_FORMAT_R8G8B8A8_UNORM) := by
  obtain ⟨m, s, h⟩ := flags
  cases s <;> cases h <;> simp [imgLoadInfo2D, imgLoadInfoCube]

/-- C12: `LoadTexture2D` and `LoadTextureCube` request the format
`R16G16B16A16_FLOAT` whenever the HDR flag is set, with or without the sRGB
flag; `R8G8B8A8_UNORM_SRGB` when sRGB is set without HDR; `R8G8B8A8_UNORM` when
neither is set. Setting both flags is no failure by itself: for every flags
value `LoadTexture2D` returns, and it returns true exactly when the file load
for its request succeeds, the view has the wanted dimension and the 2D-texture
interface is obtained; so does every returning run of `LoadTextureCube`, which
returns true for a loaded cube texture also with both flags set. -/
theorem load_format_by_flags (flags : TEXLOADFLAG) :
    (flags.HDR = true →
      (imgLoadInfo2D flags).Format = DXGI_FORMAT_R16G16B16A16_FLOAT
      ∧ (imgLoadInfoCube flags).Format = DXGI_FORMAT_R16G16B16A16_FLOAT)
    ∧ (flags.HDR = false → flags.SRGB = true →
      (imgLoadInfo2D flags).Format = DXGI_FORMAT_R8G8B8A8_UNORM_SRGB
      ∧ (imgLoadInfoCube flags).Format = DXGI_FORMAT_R8G8B8A8_UNORM_SRGB)
    ∧ (flags.HDR = false → flags.SRGB = false →
      (imgLoadInfo2D flags).Format = DXGI_FORMAT_R8G8B8A8_UNORM
      ∧ (imgLoadInfoCube flags).Format = DXGI_FORMAT_R8G8B8A8_UNORM)
    ∧ (∀ (loader : FileLoader) (path : String) (pTexOut : Texture2D),
        ((LoadTexture2D loader path pTexOut flags).1 = true
          ↔ ∃ loaded t, loader path (imgLoadInfo2D flags) = some loaded
              ∧ loaded.pSrv.desc.ViewDimension
                  = D3D11_SRV_DIMENSION.D3D11_SRV_DIMENSION_TEXTURE2D
              ∧ loaded.pRes = ID3D11Resource.texture2D t))
    ∧ (∀ (loader : FileLoader) (path : String) (pTexOut out : TextureCube) (b : Bool)
        (warnings : List String),
        LoadTextureCube loader path pTexOut flags = Except.ok (b, out, warnings) →
        (b = true
          ↔ ∃ loaded t, loader path (imgLoadInfoCube flags) = some loaded
              ∧ loaded.pSrv.desc.ViewDimension
                  = D3D11_SRV_DIMENSION.D3D11_SRV_DIMENSION_TEXTURECUBE
              ∧ loaded.pRes = ID3D11Resource.texture2D t))
    ∧ (∀ (loader : FileLoader) (path : String) (pTexOut : TextureCube) (loaded : LoadedView)
        (t : ID3D11Texture2D), loader path (imgLoadInfoCube flags) = some loaded →
        loaded.pSrv.desc.ViewDimension = D3D11_SRV_DIMENSION.D3D11_SRV_DIMENSION_TEXTURECUBE →
        loaded.pRes = ID3D11Resource.texture2D t →
        t.desc.Width = t.desc.Height → t.desc.ArraySize = 6 →
        t.desc.MiscFlags &&& D3D11_RESOURCE_MISC_TEXTURECUBE ≠ 0 →
        ∃ out warnings, LoadTextureCube loader path pTexOut flags
          = Except.ok (true, out, warnings)) := by
  obtain ⟨f1, f2, f3⟩ := loadFormat_cases flags
  refine ⟨f1, f2, f3, fun loader path pTexOut => LoadTexture2D_result loader path pTexOut flags,
    fun loader path pTexOut out b warnings h =>
      (LoadTextureCube_result loader path pTexOut out flags b warnings h).1, ?_⟩
  intro loader path pTexOut loaded t hl hd hr a1 a2 a3
  exact ⟨_, _, LoadTextureCube_success loader path pTexOut flags loaded t hl hd hr a1 a2 a3⟩

/-- C13: `LoadTexture2D` returns false, and leaves the output texture object
exactly as it was, when the file load fails, when the loaded view is not a 2D
view, or when the resource gives no 2D-texture interface; it always returns. It
returns true exactly when all three steps succeed, and then the texture, the
read-only view, the dims, the mip count and the format of the output are those
of the loaded texture. `LoadTextureCube` does the same with the cube view
dimension: its failing runs return false and leave the output as it was, and
for a loaded cube texture it returns true with the cube size, the mip count and
the format of that texture. -/
theorem load_reports_failure (loader : FileLoader) (path : String) (flags : TEXLOADFLAG) :
    (∀ pTexOut : Texture2D,
      (loader path (imgLoadInfo2D flags) = none →
        (LoadTexture2D loader path pTexOut flags).1 = false
        ∧ (LoadTexture2D loader path pTexOut flags).2.1 = pTexOut)
      ∧ (∀ loaded, loader path (imgLoadInfo2D flags) = some loaded →
          loaded.pSrv.desc.ViewDimension ≠ D3D11_SRV_DIMENSION.D3D11_SRV_DIMENSION_TEXTURE2D →
          (LoadTexture2D loader path pTexOut flags).1 = false
          ∧ (LoadTexture2D loader path pTexOut flags).2.1 = pTexOut)
      ∧ (∀ loaded, loader path (imgLoadInfo2D flags) = some loaded →
          (∀ t, loaded.pRes ≠ ID3D11Resource.texture2D t) →
          (LoadTexture2D loader path pTexOut flags).1 = false
          ∧ (LoadTexture2D loader path pTexOut flags).2.1 = pTexOut)
      ∧ ((LoadTexture2D loader path pTexOut flags).1 = true
          ↔ ∃ loaded t, loader path (imgLoadInfo2D flags) = some loaded
              ∧ loaded.pSrv.desc.ViewDimension
                  = D3D11_SRV_DIMENSION.D3D11_SRV_DIMENSION_TEXTURE2D
              ∧ loaded.pRes = ID3D11Resource.texture2D t)
      ∧ (∀ loaded t, loader path (imgLoadInfo2D flags) = some loaded →
          loaded.pSrv.desc.ViewDimension = D3D11_SRV_DIMENSION.D3D11_SRV_DIMENSION_TEXTURE2D →
          loaded.pRes = ID3D11Resource.texture2D t →
          (LoadTexture2D loader path pTexOut flags).1 = true
          ∧ (LoadTexture2D loader path pTexOut flags).2.1.m_pTex = some t
          ∧ (LoadTexture2D loader path pTexOut flags).2.1.m_pSrv = some loaded.pSrv
          ∧ (LoadTexture2D loader path pTexOut flags).2.1.m_dims
              = ⟨wrapInt t.desc.Width, wrapInt t.desc.Height⟩
          ∧ ((t.desc.Width : Int) < 2147483648 → (t.desc.Height : Int) < 2147483648 →
              (LoadTexture2D loader path pTexOut flags).2.1.m_dims
                = ⟨t.desc.Width, t.desc.Height⟩)
          ∧ (LoadTexture2D loader path pTexOut flags).2.1.m_mipLevels = wrapInt t.desc.MipLevels
          ∧ (LoadTexture2D loader path pTexOut flags).2.1.m_format = t.desc.Format))
    ∧ (∀ (pTexOut out : TextureCube) (b : Bool) (warnings : List String),
        LoadTextureCube loader path pTexOut flags = Except.ok (b, out, warnings) →
        (b = true
          ↔ ∃ loaded t, loader path (imgLoadInfoCube flags) = some loaded
              ∧ loaded.pSrv.desc.ViewDimension
                  = D3D11_SRV_DIMENSION.D3D11_SRV_DIMENSION_TEXTURECUBE
              ∧ loaded.pRes = ID3D11Resource.texture2D t)
        ∧ (b = false → out = pTexOut))
    ∧ (∀ (pTexOut : TextureCube),
        (loader path (imgLoadInfoCube flags) = none
          ∨ (∃ loaded, loader path (imgLoadInfoCube flags) = some loaded
              ∧ (loaded.pSrv.desc.ViewDimension
                    ≠ D3D11_SRV_DIMENSION.D3D11_SRV_DIMENSION_TEXTURECUBE
                  ∨ ∀ t, loaded.pRes ≠ ID3D11Resource.texture2D t))) →
        ∃ warnings, LoadTextureCube loader path pTexOut flags
          = Except.ok (false, pTexOut, warnings))
    ∧ (∀ (pTexOut : TextureCube) (loaded : LoadedView) (t : ID3D11Texture2D),
        loader path (imgLoadInfoCube flags) = some loaded →
        loaded.pSrv.desc.ViewDimension = D3D11_SRV_DIMENSION.D3D11_SRV_DIMENSION_TEXTURECUBE →
        loaded.pRes = ID3D11Resource.texture2D t →
        t.desc.Width = t.desc.Height → t.desc.ArraySize = 6 →
        t.desc.MiscFlags &&& D3D11_RESOURCE_MISC_TEXTURECUBE ≠ 0 →
        ∃ warnings, LoadTextureCube loader path pTexOut flags
          = Except.ok (true,
              { pTexOut with
                m_pTex := some t, m_pSrv := some loaded.pSrv,
                m_cubeSize := wrapInt t.desc.Width,
                m_mipLevels := wrapInt t.desc.MipLevels, m_format := t.desc.Format },
              warnings)) := by
  refine ⟨fun pTexOut => ⟨?_, ?_, ?_, LoadTexture2D_result loader path pTexOut flags, ?_⟩,
    fun pTexOut out b warnings h => LoadTextureCube_result loader path pTexOut out flags b
      warnings h, ?_, ?_⟩
  · intro hl
    have hf : (LoadTexture2D loader path pTexOut flags).1 = false := by
      cases hb : (LoadTexture2D loader path pTexOut flags).1
      · rfl
      · obtain ⟨loaded, t, h1, _⟩ := (LoadTexture2D_result loader path pTexOut flags).1 hb
        rw [hl] at h1
        cases h1
    exact ⟨hf, LoadTexture2D_failure loader path pTexOut flags hf⟩
  · intro loaded hl hd
    have hf : (LoadTexture2D loader path pTexOut flags).1 = false := by
      cases hb : (LoadTexture2D loader path pTexOut flags).1
      · rfl
      · obtain ⟨loaded2, t, h1, h2, _⟩ := (LoadTexture2D_result loader path pTexOut flags).1 hb
        rw [hl] at h1
        cases h1
        exact absurd h2 hd
    exact ⟨hf, LoadTexture2D_failure loader path pTexOut flags hf⟩
  · intro loaded hl hr
    have hf : (LoadTexture2D loader path pTexOut flags).1 = false := by
      cases hb : (LoadTexture2D loader path pTexOut flags).1
      · rfl
      · obtain ⟨loaded2, t, h1, _, h3⟩ := (LoadTexture2D_result loader path pTexOut flags).1 hb
        rw [hl] at h1
        cases h1
        exact absurd h3 (hr t)
    exact ⟨hf, LoadTexture2D_failure loader path pTexOut flags hf⟩
  · intro loaded t hl hd hr
    obtain ⟨h1, h2⟩ := LoadTexture2D_success loader path pTexOut flags loaded t hl hd hr
    refine ⟨h1, ?_, ?_, ?_, ?_, ?_, ?_⟩
    · rw [h2]
    · rw [h2]
    · rw [h2]
    · intro hw hh
      rw [h2]
      show (⟨wrapInt t.desc.Width, wrapInt t.desc.Height⟩ : int2) = ⟨t.desc.Width, t.desc.Height⟩
      rw [wrapInt_of_isInt (by omega) hw, wrapInt_of_isInt (by omega) hh]
    · rw [h2]
    · rw [h2]
  · intro pTexOut hfail
    cases hres : LoadTextureCube loader path pTexOut flags with
    | error e =>
      exfalso
      unfold LoadTextureCube at hres
      rcases hfail with hl | ⟨loaded, hl, hd | hr⟩
      · simp [hl] at hres
      · simp [hl, hd] at hres
      · cases hp : loaded.pRes with
        | texture2D t => exact hr t hp
        | texture3D t =>
          by_cases hd : loaded.pSrv.desc.ViewDimension
              = D3D11_SRV_DIMENSION.D3D11_SRV_DIMENSION_TEXTURECUBE
          · simp [hl, hd, hp, ID3D11Resource.QueryInterfaceTexture2D] at hres
          · simp [hl, hd] at hres
        | other id =>
          by_cases hd : loaded.pSrv.desc.ViewDimension
              = D3D11_SRV_DIMENSION.D3D11_SRV_DIMENSION_TEXTURECUBE
          · simp [hl, hd, hp, ID3D11Resource.QueryInterfaceTexture2D] at hres
          · simp [hl, hd] at hres
    | ok r =>
      obtain ⟨b, out, warnings⟩ := r
      obtain ⟨hiff, hout⟩ := LoadTextureCube_result loader path pTexOut out flags b warnings hres
      have hb : b = false := by
        cases hbv : b
        · rfl
        · obtain ⟨loaded2, t, h1, h2, h3⟩ := hiff.1 hbv
          rcases hfail with hl | ⟨loaded, hl, hd | hr⟩
          · rw [hl] at h1
            cases h1
          · rw [hl] at h1
            cases h1
            exact absurd h2 hd
          · rw [hl] at h1
            cases h1
            exact absurd h3 (hr t)
      rw [hb, hout hb]
      exact ⟨warnings, rfl⟩
  · intro pTexOut loaded t hl hd hr a1 a2 a3
    exact ⟨_, LoadTextureCube_success loader path pTexOut flags loaded t hl hd hr a1 a2 a3⟩

/-- Witness of C12: with both the HDR and the sRGB flag set the format
requested is `R16G16B16A16_FLOAT`, and the load of an existing 2D texture
returns true. -/
theorem load_format_by_flags_witness :
    ((imgLoadInfo2D ⟨false, true, true⟩).Format = DXGI_FORMAT_R16G16B16A16_FLOAT
      ∧ (imgLoadInfoCube ⟨false, true, true⟩).Format = DXGI_FORMAT_R16G16B16A16_FLOAT)
    ∧ (LoadTexture2D sampleLoader "tex.dds" Texture2D.construct ⟨false, true, true⟩).1 = true :=
  ⟨(load_format_by_flags ⟨false, true, true⟩).1 rfl,
   ((load_format_by_flags ⟨false, true, true⟩).2.2.2.1 sampleLoader "tex.dds"
      Texture2D.construct).2 ⟨sampleLoaded2D, _, rfl, rfl, rfl⟩⟩

/-- Witness of C13: a missing file makes `LoadTexture2D` return false with the
output untouched; a 2D texture loaded as a cube makes `LoadTextureCube` return
false with the output untouched; an existing 2D texture is loaded. -/
theorem load_reports_failure_witness :
    ((LoadTexture2D sampleLoader "missing.dds" sampleTexture2D ⟨true, false, false⟩).1 = false
      ∧ (LoadTexture2D sampleLoader "missing.dds" sampleTexture2D ⟨true, false, false⟩).2.1
          = sampleTexture2D)
    ∧ (∃ warnings, LoadTextureCube sampleLoader "tex.dds" sampleTextureCube ⟨true, false, false⟩
        = Except.ok (false, sampleTextureCube, warnings))
    ∧ (LoadTexture2D sampleLoader "tex.dds" sampleTexture2D ⟨true, false, false⟩).1 = true :=
  ⟨((load_reports_failure sampleLoader "missing.dds" ⟨true, false, false⟩).1
      sampleTexture2D).1 rfl,
   (load_reports_failure sampleLoader "tex.dds" ⟨true, false, false⟩).2.2.1 sampleTextureCube
      (Or.inr ⟨sampleLoaded2D, rfl, Or.inl (by decide)⟩),
   (((load_reports_failure sampleLoader "tex.dds" ⟨true, false, false⟩).1
      sampleTexture2D).2.2.2.2 sampleLoaded2D _ rfl rfl rfl).1⟩

/-- C17, on the code: with both the HDR and the sRGB flag set, the load request
of `LoadTexture2D` and of `LoadTextureCube` has the format, the mip filter, the
mip level count, the usage and the bind flags of the request for the same flags
with sRGB cleared, but not its filter: the filter still carries
`D3DX11_FILTER_SRGB`. -/
theorem hdr_srgb_request_keeps_srgb_filter (mipmap : Bool) :
    (imgLoadInfo2D ⟨mipmap, true, true⟩).Format = (imgLoadInfo2D ⟨mipmap, false, true⟩).Format
    ∧ (imgLoadInfo2D ⟨mipmap, true, true⟩).MipFilter
        = (imgLoadInfo2D ⟨mipmap, false, true⟩).MipFilter
    ∧ (imgLoadInfo2D ⟨mipmap, true, true⟩).MipLevels
        = (imgLoadInfo2D ⟨mipmap, false, true⟩).MipLevels
    ∧ (imgLoadInfo2D ⟨mipmap, true, true⟩).Usage = (imgLoadInfo2D ⟨mipmap, false, true⟩).Usage
    ∧ (imgLoadInfo2D ⟨mipmap, true, true⟩).BindFlags
        = (imgLoadInfo2D ⟨mipmap, false, true⟩).BindFlags
    ∧ (imgLoadInfo2D ⟨mipmap, true, true⟩).Filter = D3DX11_FILTER_TRIANGLE ||| D3DX11_FILTER_SRGB
    ∧ (imgLoadInfo2D ⟨mipmap, false, true⟩).Filter = D3DX11_FILTER_TRIANGLE
    ∧ (imgLoadInfo2D ⟨mipmap, true, true⟩).Filter ≠ (imgLoadInfo2D ⟨mipmap, false, true⟩).Filter
    ∧ imgLoadInfo2D ⟨mipmap, true, true⟩ ≠ imgLoadInfo2D ⟨mipmap, false, true⟩
    ∧ (imgLoadInfoCube ⟨mipmap, true, true⟩).Format
        = (imgLoadInfoCube ⟨mipmap, false, true⟩).Format
    ∧ (imgLoadInfoCube ⟨mipmap, true, true⟩).Filter
        ≠ (imgLoadInfoCube ⟨mipmap, false, true⟩).Filter
    ∧ imgLoadInfoCube ⟨mipmap, true, true⟩ ≠ imgLoadInfoCube ⟨mipmap, false, true⟩ := by
  cases mipmap <;> decide

theorem heldHandles_complete (self : D3D11Window) :
    (∀ t, self.m_pTexBackBuffer = some t → t.id ∈ self.heldHandles)
    ∧ (∀ v, self.m_pRtvSRGB = some v → v.id ∈ self.heldHandles)
    ∧ (∀ v, self.m_pRtvRaw = some v → v.id ∈ self.heldHandles)
    ∧ (∀ t, self.m_pTexDepth = some t → t.id ∈ self.heldHandles)
    ∧ (∀ v, self.m_pDsv = some v → v.id ∈ self.heldHandles)
    ∧ (∀ v, self.m_pSrvDepth = some v → v.id ∈ self.heldHandles) := by
  refine ⟨?_, ?_, ?_, ?_, ?_, ?_⟩ <;> intro x hx <;> simp [D3D11Window.heldHandles, hx]

theorem creation_not_release (c : Call) (h : c.isCreation = true) : c.isRelease = false := by
  cases c <;> simp [Call.isCreation, Call.isRelease] at h ⊢

/-- C16: in the calls of `OnResize`, the releases of the back-buffer texture,
of both render-target views, of the depth texture, of the depth-stencil view and
of the depth shader-resource view (each handle that is not null, whatever the
state before the call) all come before `ResizeBuffers`; nothing is released
after it. `ResizeBuffers` is passed the new width and height, the buffer count
0 and the format `DXGI_FORMAT_UNKNOWN`, and `GetBuffer` and every creation of a
texture or a view come after it. The calls are those of a run that returns. -/
theorem resize_releases_before_ResizeBuffers (self s : D3D11Window) (dimsNew : int2)
    (calls : List Call) (hres : self.OnResize dimsNew = Except.ok (s, calls)) :
    (∃ after, calls = self.heldHandles.map Call.Release
        ++ Call.ResizeBuffers 0 (uint dimsNew.x) (uint dimsNew.y) DXGI_FORMAT_UNKNOWN 0 :: after
      ∧ (∀ c ∈ after, c.isCreation = true ∧ c.isRelease = false)
      ∧ (∀ c ∈ calls, c.isCreation = true → c ∈ after)
      ∧ (∃ bb srgb raw, after.take 3 = [Call.GetBuffer 0, Call.CreateRenderTargetView bb srgb,
            Call.CreateRenderTargetView bb raw])
      ∧ after.length = (if self.m_hasDepthBuffer = true then 6 else 3))
    ∧ ((∀ t, self.m_pTexBackBuffer = some t → t.id ∈ self.heldHandles)
      ∧ (∀ v, self.m_pRtvSRGB = some v → v.id ∈ self.heldHandles)
      ∧ (∀ v, self.m_pRtvRaw = some v → v.id ∈ self.heldHandles)
      ∧ (∀ t, self.m_pTexDepth = some t → t.id ∈ self.heldHandles)
      ∧ (∀ v, self.m_pDsv = some v → v.id ∈ self.heldHandles)
      ∧ (∀ v, self.m_pSrvDepth = some v → v.id ∈ self.heldHandles))
    ∧ (0 < dimsNew.x → dimsNew.x < 2147483648 → 0 < dimsNew.y → dimsNew.y < 2147483648 →
        (uint dimsNew.x : Int) = dimsNew.x ∧ (uint dimsNew.y : Int) = dimsNew.y) := by
  obtain ⟨after, hc, hcreate, htake, hlen⟩ := D3D11Window_OnResize_calls hres
  refine ⟨⟨after, hc, fun c hm => ⟨hcreate c hm, creation_not_release c (hcreate c hm)⟩, ?_,
    htake, hlen⟩, heldHandles_complete self, ?_⟩
  · intro c hm hcr
    rw [hc] at hm
    simp only [List.mem_append, List.mem_map, List.mem_cons] at hm
    rcases hm with ⟨id, _, hid⟩ | hm | hm
    · rw [← hid] at hcr
      cases hcr
    · rw [hm] at hcr
      cases hcr
    · exact hm
  · intro hx0 hx1 hy0 hy1
    exact ⟨uint_of_nonneg (by omega) (by omega), uint_of_nonneg (by omega) (by omega)⟩

/-- Witness of C16: the second resize of the sample window, which holds all six
handles: six releases, then `ResizeBuffers(0, 640, 480, DXGI_FORMAT_UNKNOWN, 0)`,
then six calls that fetch and create. -/
theorem resize_releases_before_ResizeBuffers_witness :
    ∃ after, sampleResizedAgain.2 = sampleResized.1.heldHandles.map Call.Release
        ++ Call.ResizeBuffers 0 (uint 640) (uint 480) DXGI_FORMAT_UNKNOWN 0 :: after
      ∧ (∀ c ∈ after, c.isCreation = true ∧ c.isRelease = false)
      ∧ (∀ c ∈ sampleResizedAgain.2, c.isCreation = true → c ∈ after)
      ∧ (∃ bb srgb raw, after.take 3 = [Call.GetBuffer 0, Call.CreateRenderTargetView bb srgb,
            Call.CreateRenderTargetView bb raw])
      ∧ after.length = (if sampleResized.1.m_hasDepthBuffer = true then 6 else 3) :=
  (resize_releases_before_ResizeBuffers sampleResized.1 sampleResizedAgain.1 ⟨640, 480⟩
    sampleResizedAgain.2 rfl).1

/-! ## The two format tables -/

set_option maxRecDepth 100000 in
theorem tables_channel_widths : ∀ k : Nat, k < 116 → plainFormatId (k : Int) →
    s_bitsPerPixel.get? k = (s_names.get? k).map (fun n => (channelWidthSum n : Int)) := by
  decide

theorem plain_format_channel_widths (format : DXGI_FORMAT) (h : plainFormatId format.val) :
    ∃ name bits, NameOfFormat format = some name ∧ BitsPerPixel format = some bits
      ∧ bits = (channelWidthSum name : Int) := by
  have h0 : 0 ≤ format.val := by unfold plainFormatId at h; omega
  have h1 : format.val ≤ 115 := by unfold plainFormatId at h; omega
  obtain ⟨name, bits, hn, hb, hN, hB⟩ := format_lookup_table format h0 h1
  refine ⟨name, bits, hN, hB, ?_⟩
  have hk : format.val.toNat < 116 := by omega
  have hp : plainFormatId (format.val.toNat : Int) := by
    rw [Int.toNat_of_nonneg h0]
    exact h
  have ht := tables_channel_widths format.val.toNat hk hp
  rw [hn, hb] at ht
  simpa using ht

/-- C18: the two format tables agree with each other. Both have exactly 116
entries, so `NameOfFormat` and `BitsPerPixel` take their fallback branch for
exactly the same ids; and for every id in 1..67, 85..93 and 113..115
`BitsPerPixel(id)` is the sum of the decimal channel widths spelled in
`NameOfFormat(id)`, for example 128 for `R32G32B32A32_FLOAT`, 32 for
`R10G10B10A2_UNORM`, 64 for `D32_FLOAT_S8X24_UINT`, 16 for `B5G6R5_UNORM` and 1
for `R1_UNORM`. -/
theorem format_tables_agree (format : DXGI_FORMAT) :
    dim s_names = 116 ∧ dim s_bitsPerPixel = 116
    ∧ (uint format.val ≥ dim s_names ↔ uint format.val ≥ dim s_bitsPerPixel)
    ∧ (116 ≤ uint format.val →
        NameOfFormat format = some "UNKNOWN" ∧ BitsPerPixel format = some 0)
    ∧ (uint format.val < 116 →
        NameOfFormat format = arrayRead s_names format.val
        ∧ BitsPerPixel format = arrayRead s_bitsPerPixel format.val)
    ∧ (plainFormatId format.val →
        ∃ name bits, NameOfFormat format = some name ∧ BitsPerPixel format = some bits
          ∧ bits = (channelWidthSum name : Int))
    ∧ (NameOfFormat ⟨2, by decide⟩ = some "R32G32B32A32_FLOAT"
        ∧ BitsPerPixel ⟨2, by decide⟩ = some 128
        ∧ channelWidthSum "R32G32B32A32_FLOAT" = 128)
    ∧ (NameOfFormat ⟨24, by decide⟩ = some "R10G10B10A2_UNORM"
        ∧ BitsPerPixel ⟨24, by decide⟩ = some 32
        ∧ channelWidthSum "R10G10B10A2_UNORM" = 32)
    ∧ (NameOfFormat ⟨20, by decide⟩ = some "D32_FLOAT_S8X24_UINT"
        ∧ BitsPerPixel ⟨20, by decide⟩ = some 64
        ∧ channelWidthSum "D32_FLOAT_S8X24_UINT" = 64)
    ∧ (NameOfFormat ⟨85, by decide⟩ = some "B5G6R5_UNORM"
        ∧ BitsPerPixel ⟨85, by decide⟩ = some 16
        ∧ channelWidthSum "B5G6R5_UNORM" = 16)
    ∧ (NameOfFormat ⟨66, by decide⟩ = some "R1_UNORM"
        ∧ BitsPerPixel ⟨66, by decide⟩ = some 1
        ∧ channelWidthSum "R1_UNORM" = 1) := by
  refine ⟨dim_s_names, dim_s_bitsPerPixel, ?_, format_lookup_fallback format, ?_,
    plain_format_channel_widths format, by decide, by decide, by decide, by decide, by decide⟩
  · rw [dim_s_names, dim_s_bitsPerPixel]
  · intro h
    constructor
    · unfold NameOfFormat
      rw [if_neg (by rw [dim_s_names]; omega)]
    · unfold BitsPerPixel
      rw [if_neg (by rw [dim_s_bitsPerPixel]; omega)]

/-! ## What Readback writes -/

theorem memcpy_zero (dst src : Memory) (pDst pSrc : Int) : memcpy dst pDst src pSrc 0 = dst := by
  funext a
  exact memcpy_outside dst src pDst pSrc 0 a (by omega)

/-- With a row size of 0 the row loop writes nothing. -/
theorem copyRows_zero (pDataOut : Memory) (mapped : D3D11_MAPPED_SUBRESOURCE) (height : Int) :
    copyRows pDataOut mapped 0 height = pDataOut := by
  unfold copyRows
  have hs : size_t 0 = 0 := by decide
  rw [hs]
  induction (List.range height.toNat) generalizing pDataOut with
  | nil => rfl
  | cons y ys ih =>
    rw [List.foldl_cons, memcpy_zero]
    exact ih pDataOut

/-- The row loop leaves every byte outside `[0, height * rowSize)` as it was. -/
theorem copyRows_outside (pDataOut : Memory) (mapped : D3D11_MAPPED_SUBRESOURCE)
    (rowSize height : Int) (h0 : 0 ≤ rowSize) (hh : 0 ≤ height)
    (hp : rowSize ≤ mapped.RowPitch) (himg : height * mapped.RowPitch ≤ 2147483648)
    (a : Int) (ha : a < 0 ∨ height * rowSize ≤ a) :
    copyRows pDataOut mapped rowSize height a = pDataOut a := by
  by_cases hz : rowSize = 0
  · rw [hz, copyRows_zero]
  · have e : ((height.toNat : Nat) : Int) = height := Int.toNat_of_nonneg hh
    exact copyRows_frame pDataOut mapped rowSize height (by omega) hp himg a (by rw [e]; exact ha)

theorem video_formats_zero_bits : ∀ k : Nat, k < 116 → 100 ≤ k → k ≤ 112 →
    s_bitsPerPixel.get? k = some 0 := by
  decide

/-- The formats of 0 bits per pixel: `UNKNOWN`, the video formats
100..112, and every id outside the table. -/
theorem zero_bit_formats (format : DXGI_FORMAT)
    (h : format.val = 0 ∨ (100 ≤ format.val ∧ format.val ≤ 112)
      ∨ format.val < 0 ∨ 116 ≤ format.val) :
    BitsPerPixel format = some 0 := by
  rcases h with h | h | h
  · obtain ⟨name, bits, _, hb, _, hB⟩ := format_lookup_table format (by omega) (by omega)
    rw [hB, ← hb, h]
    rfl
  · obtain ⟨name, bits, _, hb, _, hB⟩ := format_lookup_table format (by omega) (by omega)
    rw [hB, ← hb]
    exact video_formats_zero_bits format.val.toNat (by omega) (by omega) (by omega)
  · exact (format_lookup_fallback format (format_id_unsigned format h)).2

/-- A row of fewer than 8 bits has a row size of 0. -/
theorem rowSize_zero {width bpp : Int} (hw : 1 ≤ width) (hb : 0 ≤ bpp)
    (h : bpp = 0 ∨ width * bpp < 8) :
    Int.tdiv (wrapInt (width * bpp)) 8 = 0 ∧ width * bpp / 8 = 0 := by
  have hprod : 0 ≤ width * bpp := mul_nonneg (by omega) hb
  have hlt : width * bpp < 8 := by
    rcases h with h | h
    · rw [h]; simp
    · exact h
  have hw0 : 0 ≤ width := by omega
  have hfit : width * bpp < 2147483648 := by omega
  obtain ⟨e, _, _⟩ := rowSize_exact hw0 hb hfit
  rw [e]
  have : width * bpp / 8 = 0 := Int.ediv_eq_zero_of_lt hprod hlt
  exact ⟨this, this⟩

/-- What `Texture2D::Readback` writes: the bytes at offsets below
`mipHeight * rowSize` are the packed rows, every other byte of the output keeps
its value; with a row of fewer than 8 bits nothing is written. -/
theorem Texture2D_Readback_frame (self : Texture2D) (pCtx : ID3D11DeviceContext) (level : Int)
    (pDataOut : Memory) (bpp : Int) (mapped : D3D11_MAPPED_SUBRESOURCE)
    (hinit : self.m_pTex.isSome = true) (hl0 : 0 ≤ level) (hl1 : level < self.m_mipLevels)
    (hbpp : BitsPerPixel self.m_format = some bpp)
    (hmap : pCtx.Map2D (self.ReadbackStaging pCtx level).1 = (HRESULT.S_OK, mapped)) :
    ((CalculateMipDims2 self.m_dims level).x * bpp / 8 ≤ mapped.RowPitch →
      (CalculateMipDims2 self.m_dims level).x * bpp < 2147483648 →
      (CalculateMipDims2 self.m_dims level).y * mapped.RowPitch ≤ 2147483648 →
      ∃ out ctx, self.Readback pCtx level pDataOut = Except.ok (out, ctx)
        ∧ (∀ a : Int, (a < 0 ∨ (CalculateMipDims2 self.m_dims level).y
              * ((CalculateMipDims2 self.m_dims level).x * bpp / 8) ≤ a) →
            out a = pDataOut a)
        ∧ (∀ y i : Int, 0 ≤ y → y < (CalculateMipDims2 self.m_dims level).y →
            0 ≤ i → i < (CalculateMipDims2 self.m_dims level).x * bpp / 8 →
            out (y * ((CalculateMipDims2 self.m_dims level).x * bpp / 8) + i)
              = mapped.pData (y * mapped.RowPitch + i)))
    ∧ ((bpp = 0 ∨ (CalculateMipDims2 self.m_dims level).x * bpp < 8) →
        (CalculateMipDims2 self.m_dims level).x * bpp / 8 = 0
        ∧ ∃ ctx, self.Readback pCtx level pDataOut = Except.ok (pDataOut, ctx)) := by
  have hw : 1 ≤ (CalculateMipDims2 self.m_dims level).x := CalculateMipDims_pos self.m_dims.x level
  have hh : 1 ≤ (CalculateMipDims2 self.m_dims level).y := CalculateMipDims_pos self.m_dims.y level
  have hb0 := (BitsPerPixel_bounds hbpp).1
  constructor
  · intro hpitch hfit himg
    obtain ⟨e, r0, r1⟩ := rowSize_exact (by omega) hb0 hfit
    have hu : uint (Int.tdiv (wrapInt ((CalculateMipDims2 self.m_dims level).x * bpp)) 8)
        ≤ mapped.RowPitch := by
      rw [e]
      have := uint_of_nonneg r0 (by omega)
      omega
    refine ⟨_, _, Texture2D_Readback_eq self pCtx level pDataOut bpp mapped hinit hl0 hl1 hbpp
      hmap hu, ?_, ?_⟩
    · intro a ha
      rw [e]
      exact copyRows_outside pDataOut mapped _ _ r0 (by omega) hpitch himg a ha
    · intro y i hy0 hy1 hi0 hi1
      rw [e]
      exact copyRows_rows pDataOut mapped _ _ hpitch himg y i hy0 hy1 hi0 hi1
  · intro hz
    obtain ⟨z1, z2⟩ := rowSize_zero hw hb0 hz
    have hu : uint (Int.tdiv (wrapInt ((CalculateMipDims2 self.m_dims level).x * bpp)) 8)
        ≤ mapped.RowPitch := by
      rw [z1]
      have : uint 0 = 0 := by decide
      omega
    have hr := Texture2D_Readback_eq self pCtx level pDataOut bpp mapped hinit hl0 hl1 hbpp hmap hu
    rw [z1, copyRows_zero] at hr
    exact ⟨z2, _, hr⟩

/-- What `TextureCube::Readback` writes: as for `Texture2D::Readback`. -/
theorem TextureCube_Readback_frame (self : TextureCube) (pCtx : ID3D11DeviceContext)
    (face level : Int) (pDataOut : Memory) (bpp : Int) (mapped : D3D11_MAPPED_SUBRESOURCE)
    (hinit : self.m_pTex.isSome = true) (hf0 : 0 ≤ face) (hf1 : face < 6)
    (hl0 : 0 ≤ level) (hl1 : level < self.m_mipLevels)
    (hbpp : BitsPerPixel self.m_format = some bpp)
    (hmap : pCtx.Map2D (self.ReadbackStaging pCtx face level).1 = (HRESULT.S_OK, mapped)) :
    (CalculateMipDims self.m_cubeSize level * bpp / 8 ≤ mapped.RowPitch →
      CalculateMipDims self.m_cubeSize level * bpp < 2147483648 →
      CalculateMipDims self.m_cubeSize level * mapped.RowPitch ≤ 2147483648 →
      ∃ out ctx, self.Readback pCtx face level pDataOut = Except.ok (out, ctx)
        ∧ (∀ a : Int, (a < 0 ∨ CalculateMipDims self.m_cubeSize level
              * (CalculateMipDims self.m_cubeSize level * bpp / 8) ≤ a) →
            out a = pDataOut a)
        ∧ (∀ y i : Int, 0 ≤ y → y < CalculateMipDims self.m_cubeSize level →
            0 ≤ i → i < CalculateMipDims self.m_cubeSize level * bpp / 8 →
            out (y * (CalculateMipDims self.m_cubeSize level * bpp / 8) + i)
              = mapped.pData (y * mapped.RowPitch + i)))
    ∧ ((bpp = 0 ∨ CalculateMipDims self.m_cubeSize level * bpp < 8) →
        CalculateMipDims self.m_cubeSize level * bpp / 8 = 0
        ∧ ∃ ctx, self.Readback pCtx face level pDataOut = Except.ok (pDataOut, ctx)) := by
  have hw : 1 ≤ CalculateMipDims self.m_cubeSize level := CalculateMipDims_pos self.m_cubeSize level
  have hb0 := (BitsPerPixel_bounds hbpp).1
  constructor
  · intro hpitch hfit himg
    obtain ⟨e, r0, r1⟩ := rowSize_exact (by omega) hb0 hfit
    have hu : uint (Int.tdiv (wrapInt (CalculateMipDims self.m_cubeSize level * bpp)) 8)
        ≤ mapped.RowPitch := by
      rw [e]
      have := uint_of_nonneg r0 (by omega)
      omega
    refine ⟨_, _, TextureCube_Readback_eq self pCtx face level pDataOut bpp mapped hinit hf0 hf1
      hl0 hl1 hbpp hmap hu, ?_, ?_⟩
    · intro a ha
      rw [e]
      exact copyRows_outside pDataOut mapped _ _ r0 (by omega) hpitch himg a ha
    · intro y i hy0 hy1 hi0 hi1
      rw [e]
      exact copyRows_rows pDataOut mapped _ _ hpitch himg y i hy0 hy1 hi0 hi1
  · intro hz
    obtain ⟨z1, z2⟩ := rowSize_zero hw hb0 hz
    have hu : uint (Int.tdiv (wrapInt (CalculateMipDims self.m_cubeSize level * bpp)) 8)
        ≤ mapped.RowPitch := by
      rw [z1]
      have : uint 0 = 0 := by decide
      omega
    have hr := TextureCube_Readback_eq self pCtx face level pDataOut bpp mapped hinit hf0 hf1
      hl0 hl1 hbpp hmap hu
    rw [z1, copyRows_zero] at hr
    exact ⟨z2, _, hr⟩

/-- C19: `Texture2D::Readback` and `TextureCube::Readback` on an initialised
resource, at a level in range, with a successful `Map`. When the mapped image is
addressable with 32-bit offsets and its pitch holds a row, the call returns, the
bytes of the output at offsets below `mipHeight * rowSize`, with
`rowSize = mipWidth * bpp / 8` rounded down, are the rows of the mapped image,
and every other byte of the output keeps its value. When the format has 0 bits
per pixel or a row has fewer than 8 bits, `rowSize` is 0 and the call returns the
output buffer as it was, with no error. `UNKNOWN`, the video formats 100..112 and
every id outside the table have 0 bits per pixel, and `R1_UNORM` has 1. The
texture resource is an input only: the source body assigns no member. -/
theorem readback_writes_only_rows :
    (∀ (self : Texture2D) (pCtx : ID3D11DeviceContext) (level : Int) (pDataOut : Memory)
        (bpp : Int) (mapped : D3D11_MAPPED_SUBRESOURCE),
      self.m_pTex.isSome = true → 0 ≤ level → level < self.m_mipLevels →
      BitsPerPixel self.m_format = some bpp →
      pCtx.Map2D (self.ReadbackStaging pCtx level).1 = (HRESULT.S_OK, mapped) →
      ((CalculateMipDims2 self.m_dims level).x * bpp / 8 ≤ mapped.RowPitch →
        (CalculateMipDims2 self.m_dims level).x * bpp < 2147483648 →
        (CalculateMipDims2 self.m_dims level).y * mapped.RowPitch ≤ 2147483648 →
        ∃ out ctx, self.Readback pCtx level pDataOut = Except.ok (out, ctx)
          ∧ (∀ a : Int, (a < 0 ∨ (CalculateMipDims2 self.m_dims level).y
                * ((CalculateMipDims2 self.m_dims level).x * bpp / 8) ≤ a) →
              out a = pDataOut a)
          ∧ (∀ y i : Int, 0 ≤ y → y < (CalculateMipDims2 self.m_dims level).y →
              0 ≤ i → i < (CalculateMipDims2 self.m_dims level).x * bpp / 8 →
              out (y * ((CalculateMipDims2 self.m_dims level).x * bpp / 8) + i)
                = mapped.pData (y * mapped.RowPitch + i)))
      ∧ ((bpp = 0 ∨ (CalculateMipDims2 self.m_dims level).x * bpp < 8) →
          (CalculateMipDims2 self.m_dims level).x * bpp / 8 = 0
          ∧ ∃ ctx, self.Readback pCtx level pDataOut = Except.ok (pDataOut, ctx)))
    ∧ (∀ (self : TextureCube) (pCtx : ID3D11DeviceContext) (face level : Int)
        (pDataOut : Memory) (bpp : Int) (mapped : D3D11_MAPPED_SUBRESOURCE),
      self.m_pTex.isSome = true → 0 ≤ face → face < 6 →
      0 ≤ level → level < self.m_mipLevels →
      BitsPerPixel self.m_format = some bpp →
      pCtx.Map2D (self.ReadbackStaging pCtx face level).1 = (HRESULT.S_OK, mapped) →
      (CalculateMipDims self.m_cubeSize level * bpp / 8 ≤ mapped.RowPitch →
        CalculateMipDims self.m_cubeSize level * bpp < 2147483648 →
        CalculateMipDims self.m_cubeSize level * mapped.RowPitch ≤ 2147483648 →
        ∃ out ctx, self.Readback pCtx face level pDataOut = Except.ok (out, ctx)
          ∧ (∀ a : Int, (a < 0 ∨ CalculateMipDims self.m_cubeSize level
                * (CalculateMipDims self.m_cubeSize level * bpp / 8) ≤ a) →
              out a = pDataOut a)
          ∧ (∀ y i : Int, 0 ≤ y → y < CalculateMipDims self.m_cubeSize level →
              0 ≤ i → i < CalculateMipDims self.m_cubeSize level * bpp / 8 →
              out (y * (CalculateMipDims self.m_cubeSize level * bpp / 8) + i)
                = mapped.pData (y * mapped.RowPitch + i)))
      ∧ ((bpp = 0 ∨ CalculateMipDims self.m_cubeSize level * bpp < 8) →
          CalculateMipDims self.m_cubeSize level * bpp / 8 = 0
          ∧ ∃ ctx, self.Readback pCtx face level pDataOut = Except.ok (pDataOut, ctx)))
    ∧ (∀ format : DXGI_FORMAT,
        (format.val = 0 ∨ (100 ≤ format.val ∧ format.val ≤ 112)
          ∨ format.val < 0 ∨ 116 ≤ format.val) →
        BitsPerPixel format = some 0)
    ∧ BitsPerPixel DXGI_FORMAT_R1_UNORM = some 1 :=
  ⟨Texture2D_Readback_frame, TextureCube_Readback_frame, zero_bit_formats, by decide⟩

/-- Witness of C19: a 3 by 2 texture of `R1_UNORM` (rows of 3 bits) is read back
with the output untouched; a 3 by 2 texture of a 32-bit format is read back with
every byte from offset 24 on untouched; `UNKNOWN` has 0 bits per pixel. -/
theorem readback_writes_only_rows_witness :
    (∃ ctx, sampleBitTexture.Readback (pitchedContext sampleDevice 16 32) 0 samplePixels
        = Except.ok (samplePixels, ctx))
    ∧ (∃ out ctx, sampleTexture2D.Readback (pitchedContext sampleDevice 16 32) 0 samplePixels
        = Except.ok (out, ctx)
        ∧ (∀ a : Int, (a < 0 ∨ 24 ≤ a) → out a = samplePixels a)
        ∧ (∀ y i : Int, 0 ≤ y → y < 2 → 0 ≤ i → i < 12 →
            out (y * 12 + i) = sampleMapped2D.pData (y * 16 + i)))
    ∧ BitsPerPixel DXGI_FORMAT_UNKNOWN = some 0 :=
  ⟨((readback_writes_only_rows.1 sampleBitTexture (pitchedContext sampleDevice 16 32) 0
      samplePixels 1 sampleMappedBit rfl (by decide) (by decide) (by decide) rfl).2
      (Or.inr (by decide))).2,
   (readback_writes_only_rows.1 sampleTexture2D (pitchedContext sampleDevice 16 32) 0
      samplePixels 32 sampleMapped2D rfl (by decide) (by decide) (by decide) rfl).1
      (by decide) (by decide) (by decide),
   readback_writes_only_rows.2.2.1 DXGI_FORMAT_UNKNOWN (Or.inl rfl)⟩

/-! ## Solid colours -/

theorem bitLengthAux_le (fuel : Nat) : ∀ (P j : Nat), P < 2 ^ j → bitLengthAux fuel P ≤ j := by
  induction fuel with
  | zero => intro P j _; exact Nat.zero_le _
  | succ n ih =>
    intro P j h
    unfold bitLengthAux
    by_cases hP : P = 0
    · simp [hP]
    · rw [if_neg hP]
      obtain ⟨i, rfl⟩ : ∃ i, j = i + 1 := by
        cases j with
        | zero => simp at h; exact absurd h hP
        | succ i => exact ⟨i, rfl⟩
      have : P / 2 < 2 ^ i := by
        rw [Nat.div_lt_iff_lt_mul (by decide)]
        rw [pow_succ] at h
        exact h
      have := ih (P / 2) i this
      omega

theorem bitLength_le {P j : Nat} (h : P < 2 ^ j) : bitLength P ≤ j :=
  bitLengthAux_le P P j h

theorem roundShift_zero (P : Nat) : roundShift P 0 = P := by
  simp [roundShift, Nat.mod_one]

theorem roundShift_le {P N k : Nat} (h : P ≤ N * 2 ^ k) : roundShift P k ≤ N := by
  have hpos : 0 < 2 ^ k := Nat.two_pow_pos k
  have hq : P / 2 ^ k ≤ N := Nat.div_le_of_le_mul (by rw [Nat.mul_comm]; exact h)
  unfold roundShift
  simp only
  rcases Nat.lt_or_ge (P / 2 ^ k) N with hlt | hge
  · split
    · omega
    · split
      · omega
      · split <;> omega
  · have hqe : P / 2 ^ k = N := le_antisymm hq hge
    have hle : P / 2 ^ k * 2 ^ k ≤ P := Nat.div_mul_le_self P (2 ^ k)
    rw [hqe] at hle
    have hPe : P = N * 2 ^ k := le_antisymm h hle
    have hr : P % 2 ^ k = 0 := by rw [hPe]; exact Nat.mul_mod_left _ _
    rw [hr, if_pos (by omega)]
    exact hq

/-- The product of 255 and a value of at most 1, rounded: at most 255. -/
theorem pack_scaled_bound (m : Nat) (e : Int)
    (h0 : 0 ≤ e → m * 2 ^ e.toNat ≤ 1) (h1 : e < 0 → m ≤ 2 ^ (-e).toNat) :
    (0 ≤ e + (max (bitLength (255 * m) - 24) (-149 - e).toNat : Nat) →
      roundShift (255 * m) (max (bitLength (255 * m) - 24) (-149 - e).toNat)
        * 2 ^ (e + (max (bitLength (255 * m) - 24) (-149 - e).toNat : Nat)).toNat ≤ 255)
    ∧ (e + (max (bitLength (255 * m) - 24) (-149 - e).toNat : Nat) < 0 →
      roundShift (255 * m) (max (bitLength (255 * m) - 24) (-149 - e).toNat)
        ≤ 255 * 2 ^ (-(e + (max (bitLength (255 * m) - 24) (-149 - e).toNat : Nat))).toNat) := by
  rcases Int.lt_or_le e 0 with he | he
  · -- a negative exponent
    have hm := h1 he
    obtain ⟨n, hn⟩ : ∃ n : Nat, (-e).toNat = n := ⟨_, rfl⟩
    rw [hn] at hm
    have hn1 : (n : Int) = -e := by omega
    have hP : 255 * m < 2 ^ (n + 8) := by
      have : 255 * m ≤ 255 * 2 ^ n := Nat.mul_le_mul_left _ hm
      have h2 : 255 * 2 ^ n < 256 * 2 ^ n := Nat.mul_lt_mul_of_pos_right (by decide) (Nat.two_pow_pos n)
      have h3 : 2 ^ (n + 8) = 256 * 2 ^ n := by rw [pow_add]; ring
      omega
    have hb := bitLength_le hP
    have hk : max (bitLength (255 * m) - 24) (-149 - e).toNat < n := by
      apply max_lt <;> omega
    obtain ⟨k, hkk⟩ : ∃ k : Nat, max (bitLength (255 * m) - 24) (-149 - e).toNat = k := ⟨_, rfl⟩
    rw [hkk] at hk ⊢
    constructor
    · intro hc
      omega
    · intro _
      have hj : (-(e + (k : Int))).toNat = n - k := by omega
      rw [hj]
      apply roundShift_le
      have : 255 * 2 ^ (n - k) * 2 ^ k = 255 * 2 ^ n := by
        rw [Nat.mul_assoc, ← pow_add, Nat.sub_add_cancel (le_of_lt hk)]
      rw [this]
      exact Nat.mul_le_mul_left _ hm
  · -- a nonnegative exponent
    have hm := h0 he
    have hpos : 0 < 2 ^ e.toNat := Nat.two_pow_pos _
    have hm1 : m ≤ 1 := by
      rcases Nat.eq_zero_or_pos m with hz | hp
      · omega
      · have : m * 1 ≤ m * 2 ^ e.toNat := Nat.mul_le_mul_left _ hpos
        omega
    have hP : 255 * m < 2 ^ 8 := by
      have : 255 * m ≤ 255 * 1 := Nat.mul_le_mul_left _ hm1
      have : (2 : Nat) ^ 8 = 256 := by decide
      omega
    have hb := bitLength_le hP
    have hk : max (bitLength (255 * m) - 24) (-149 - e).toNat = 0 := by
      apply le_antisymm _ (Nat.zero_le _)
      apply max_le <;> omega
    rw [hk, roundShift_zero]
    constructor
    · intro _
      have : e + ((0 : Nat) : Int) = e := by omega
      rw [this, Nat.mul_assoc]
      calc 255 * (m * 2 ^ e.toNat) ≤ 255 * 1 := Nat.mul_le_mul_left _ hm
        _ = 255 := rfl
    · intro hc
      omega

/-- The nearest integer of a magnitude of at most 255 is at most 255. -/
theorem nearest_le (m : Nat) (e : Int)
    (h0 : 0 ≤ e → m * 2 ^ e.toNat ≤ 255) (h1 : e < 0 → m ≤ 255 * 2 ^ (-e).toNat) :
    (if e ≥ 0 then m * 2 ^ e.toNat else (2 * m + 2 ^ (-e).toNat) / (2 * 2 ^ (-e).toNat)) ≤ 255 := by
  split
  · rename_i he
    exact h0 he
  · rename_i he
    have hm := h1 (by omega)
    have hpos : 0 < 2 ^ (-e).toNat := Nat.two_pow_pos _
    have : (2 * m + 2 ^ (-e).toNat) / (2 * 2 ^ (-e).toNat) < 256 := by
      rw [Nat.div_lt_iff_lt_mul (by omega)]
      omega
    omega

theorem signed_zero (s : Bool) : signed s 0 = 0 := by
  cases s <;> rfl

theorem nearest_zero (e : Int) :
    (if e ≥ 0 then 0 * 2 ^ e.toNat else (2 * 0 + 2 ^ (-e).toNat) / (2 * 2 ^ (-e).toNat)) = 0 := by
  split
  · exact Nat.zero_mul _
  · have hpos : 0 < 2 ^ (-e).toNat := Nat.two_pow_pos _
    apply Nat.div_eq_of_lt
    omega

theorem roundShift_of_zero (k : Nat) : roundShift 0 k = 0 := by
  have : 0 < 2 ^ k := Nat.two_pow_pos k
  simp [roundShift, this]

/-- The quantised channel of a value that is neither below 0 nor above 1. -/
theorem quantised_unit_bounds (s : Bool) (m : Nat) (e : Int)
    (hlo : (float.finite s m e).lt 0 = false) (hhi : float.lt 1 (float.finite s m e) = false) :
    0 ≤ roundChannel (255 * float.finite s m e)
    ∧ roundChannel (255 * float.finite s m e) ≤ 255 := by
  have hmul : (255 * float.finite s m e : float) = float.pack s (255 * m) (0 + e) := by
    show float.mul (float.finite false 255 0) (float.finite s m e) = _
    simp [float.mul]
  rw [hmul]
  have e0 : (0 : Int) + e = e := by omega
  rw [e0]
  rcases Nat.eq_zero_or_pos m with hz | hp
  · -- zero of either sign
    subst hz
    unfold float.pack
    simp only [Nat.mul_zero, roundShift_of_zero, Nat.zero_mul]
    have : ¬ (2 ^ 128 ≤ 0) := by decide
    simp only [this, and_false, if_false]
    unfold roundChannel
    simp only [nearest_zero, signed_zero]
    decide
  · have hs : s = false := by
      cases s with
      | false => rfl
      | true =>
        exfalso
        have h : (float.finite true m e).lt (float.finite false 0 0) = false := hlo
        simp only [float.lt, signed, Nat.zero_mul, if_true, decide_eq_false_iff_not] at h
        have hpos : 0 < m * 2 ^ (e - min e 0).toNat := Nat.mul_pos hp (Nat.two_pow_pos _)
        apply h
        simp
        omega
    subst hs
    have h : float.lt (float.finite false 1 0) (float.finite false m e) = false := hhi
    simp only [float.lt, signed, decide_eq_false_iff_not] at h
    have h0 : 0 ≤ e → m * 2 ^ e.toNat ≤ 1 := by
      intro he
      have e1 : min 0 e = 0 := min_eq_left he
      rw [e1] at h
      simp at h
      exact_mod_cast h
    have h1 : e < 0 → m ≤ 2 ^ (-e).toNat := by
      intro he
      have e1 : min 0 e = e := min_eq_right (le_of_lt he)
      rw [e1] at h
      simp at h
      have e2 : (0 - e).toNat = (-e).toNat := by omega
      exact_mod_cast h
    obtain ⟨b0, b1⟩ := pack_scaled_bound m e h0 h1
    unfold float.pack
    simp only
    obtain ⟨k, hk⟩ : ∃ k : Nat, max (bitLength (255 * m) - 24) (-149 - e).toNat = k := ⟨_, rfl⟩
    rw [hk] at b0 b1 ⊢
    have hno : ¬ (e + (k : Int) ≥ 0 ∧ 2 ^ 128 ≤ roundShift (255 * m) k * 2 ^ (e + (k : Int)).toNat) := by
      rintro ⟨hc, hbig⟩
      have := b0 hc
      have h128 : (255 : Nat) < 2 ^ 128 := by decide
      omega
    rw [if_neg hno]
    unfold roundChannel
    simp only [signed, Bool.false_eq_true, if_false]
    have := nearest_le (roundShift (255 * m) k) (e + k) b0 b1
    constructor
    · exact Int.natCast_nonneg _
    · exact_mod_cast this

/-- The quantised channel lies in `0..255` for every channel that is not NaN. -/
theorem quantise_bounds (c : float) (h : c ≠ float.nan) :
    0 ≤ roundChannel (255 * clamp c 0 1) ∧ roundChannel (255 * clamp c 0 1) ≤ 255 := by
  cases c with
  | nan => exact absurd rfl h
  | infinity s => cases s <;> decide
  | finite s m e =>
    unfold clamp
    cases hlo : (float.finite s m e).lt 0
    · cases hhi : float.lt 1 (float.finite s m e)
      · simp only [Bool.false_eq_true, if_false]
        exact quantised_unit_bounds s m e hlo hhi
      · simp only [Bool.false_eq_true, if_false, if_true]
        decide
    · simp only [if_true]
      decide

/-- A channel above 1 is not below 0. -/
theorem float_above_one (c : float) (h : float.lt 1 c = true) : c.lt 0 = false := by
  cases c with
  | nan => rfl
  | infinity s =>
    cases s with
    | false => rfl
    | true => exact absurd h (by decide)
  | finite s m e =>
    cases s with
    | false =>
      show decide (signed false (m * 2 ^ (e - min e 0).toNat)
        < signed false (0 * 2 ^ (0 - min e 0).toNat)) = false
      simp only [signed, Nat.zero_mul, decide_eq_false_iff_not]
      simp
    | true =>
      exfalso
      have h2 : decide (signed false (1 * 2 ^ (0 - min 0 e).toNat)
          < signed true (m * 2 ^ (e - min 0 e).toNat)) = true := h
      simp only [signed, decide_eq_true_eq, Bool.false_eq_true, if_false, if_true] at h2
      omega

/-- A channel below 0 is quantised to 0 and a channel above 1 to 255. -/
theorem quantise_outside (c : float) :
    (c.lt 0 = true → roundChannel (255 * clamp c 0 1) = 0)
    ∧ (float.lt 1 c = true → roundChannel (255 * clamp c 0 1) = 255) := by
  constructor
  · intro h
    unfold clamp
    rw [if_pos h]
    decide
  · intro h
    unfold clamp
    rw [if_neg (by rw [float_above_one c h]; decide), if_pos h]
    decide

/-- A value in `0..255` converts to the byte of that value. -/
theorem byte_of_small (n : Int) (h0 : 0 ≤ n) (h1 : n ≤ 255) :
    ((UInt8.ofNat (n % 256).toNat).toNat : Int) = n := by
  obtain ⟨k, rfl⟩ := Int.eq_ofNat_of_zero_le h0
  have hk : k < 256 := by omega
  have e : ((k : Int) % 256).toNat = k := by omega
  rw [e]
  have : (UInt8.ofNat k).toNat = k := by
    show k % 256 = k
    omega
  rw [this]

/-- The bytes of the quantised colour are the quantised channels, in r, g, b, a
order, for a colour without a NaN channel. -/
theorem makebyte4_quantised (color : rgba) (hr : color.r ≠ float.nan)
    (hg : color.g ≠ float.nan) (hb : color.b ≠ float.nan) (ha : color.a ≠ float.nan) :
    ((makebyte4 (round (scale 255 (saturate color)))).x.toNat : Int)
        = roundChannel (255 * clamp color.r 0 1)
    ∧ ((makebyte4 (round (scale 255 (saturate color)))).y.toNat : Int)
        = roundChannel (255 * clamp color.g 0 1)
    ∧ ((makebyte4 (round (scale 255 (saturate color)))).z.toNat : Int)
        = roundChannel (255 * clamp color.b 0 1)
    ∧ ((makebyte4 (round (scale 255 (saturate color)))).w.toNat : Int)
        = roundChannel (255 * clamp color.a 0 1) :=
  ⟨byte_of_small _ (quantise_bounds color.r hr).1 (quantise_bounds color.r hr).2,
   byte_of_small _ (quantise_bounds color.g hg).1 (quantise_bounds color.g hg).2,
   byte_of_small _ (quantise_bounds color.b hb).1 (quantise_bounds color.b hb).2,
   byte_of_small _ (quantise_bounds color.a ha).1 (quantise_bounds color.a ha).2⟩

/-- Red, `(1, 0, 0, 1)`, quantises to the bytes `(255, 0, 0, 255)`. -/
theorem makebyte4_red :
    makebyte4 (round (scale 255 (saturate ⟨1, 0, 0, 1⟩))) = ⟨255, 0, 0, 255⟩ := by
  decide

/-- The colour `(-2, 3, 0.7f, 0.9f)` quantises to the bytes `(0, 255, 179, 230)`:
the `float` products `255.0f * 0.7f` and `255.0f * 0.9f` are 178.5 and 229.5. -/
theorem makebyte4_wide :
    makebyte4 (round (scale 255 (saturate sampleWide))) = ⟨0, 255, 179, 230⟩
    ∧ (255 * sampleSevenTenths : float) = float.finite false 11698176 (-16)
    ∧ (255 * sampleNineTenths : float) = float.finite false 15040512 (-16) := by
  decide

/-- The first four bytes at the address of a `byte4` are its components. -/
theorem stackArray_single (v : byte4) (stack : Memory) :
    stackArray [v] stack 0 = v.x ∧ stackArray [v] stack 1 = v.y
    ∧ stackArray [v] stack 2 = v.z ∧ stackArray [v] stack 3 = v.w :=
  ⟨rfl, rfl, rfl, rfl⟩

/-- What a successful `CreateTexture1x1` leaves in the output: a 1 by 1 texture
with one mip level of the given format whose row is read at the address of the
quantised colour, and a read-only view of it; the read-write view is not
assigned. -/
theorem CreateTexture1x1_ok {pDevice dev : ID3D11Device} {color : rgba}
    {format : DXGI_FORMAT} {stack : Memory} {pTexOut tex : Texture2D}
    (h : CreateTexture1x1 pDevice color pTexOut format stack = Except.ok (tex, dev)) :
    tex.m_dims = ⟨1, 1⟩ ∧ tex.m_mipLevels = 1 ∧ tex.m_format = format
    ∧ tex.m_pUav = pTexOut.m_pUav
    ∧ ∃ t srv, tex.m_pTex = some t ∧ tex.m_pSrv = some srv ∧ srv.resource = t.id
        ∧ t.desc.Width = 1 ∧ t.desc.Height = 1
        ∧ t.desc.MipLevels = 1 ∧ t.desc.ArraySize = 1 ∧ t.desc.Format = format
        ∧ srv.desc.MipLevels = 1
        ∧ ∀ y i : Int, t.texels 0 y i
            = stackArray [makebyte4 (round (scale 255 (saturate color)))] stack (y * 4 + i) := by
  unfold CreateTexture1x1 at h
  simp only [bind, Except.bind, pure, Except.pure,
    ID3D11Device.CreateTexture2D, ID3D11Device.CreateShaderResourceView] at h
  cases hf1 : pDevice.failing pDevice.nextId
  · cases hf2 : pDevice.failing (pDevice.nextId + 1)
    · simp [hf1, hf2, CHECK_D3D, FAILED] at h
      obtain ⟨h1, _⟩ := h
      subst h1
      refine ⟨rfl, rfl, rfl, rfl, _, _, rfl, rfl, rfl, rfl, rfl, rfl, rfl, rfl, rfl, ?_⟩
      intro y i
      rfl
    · simp [hf1, hf2, CHECK_D3D, FAILED] at h
  · simp [hf1, CHECK_D3D, FAILED] at h

/-- On a device whose next two creations succeed, `CreateTexture1x1` returns. -/
theorem CreateTexture1x1_returns (pDevice : ID3D11Device) (color : rgba)
    (pTexOut : Texture2D) (format : DXGI_FORMAT) (stack : Memory)
    (hf1 : pDevice.failing pDevice.nextId = false)
    (hf2 : pDevice.failing (pDevice.nextId + 1) = false) :
    ∃ tex dev, CreateTexture1x1 pDevice color pTexOut format stack = Except.ok (tex, dev) := by
  unfold CreateTexture1x1
  simp [bind, Except.bind, pure, Except.pure, ID3D11Device.CreateTexture2D,
    ID3D11Device.CreateShaderResourceView, hf1, hf2, CHECK_D3D, FAILED]

/-- Through a `Map` that keeps its promise, `Texture2D::Readback` at level 0 of
the texture of a successful `CreateTexture1x1` in a format of 32 bits per pixel
returns the four bytes of the quantised colour. -/
theorem CreateTexture1x1_readback {pDevice dev : ID3D11Device} {color : rgba}
    {format : DXGI_FORMAT} {stack : Memory} {pTexOut tex : Texture2D}
    (h : CreateTexture1x1 pDevice color pTexOut format stack = Except.ok (tex, dev))
    (hbpp : BitsPerPixel format = some 32)
    (pCtx : ID3D11DeviceContext) (mapped : D3D11_MAPPED_SUBRESOURCE) (pDataOut : Memory)
    (hmap : pCtx.Map2D (tex.ReadbackStaging pCtx 0).1 = (HRESULT.S_OK, mapped))
    (hcontract : ∀ staging, (tex.ReadbackStaging pCtx 0).1 = some staging →
      MappedImageOf staging 4 mapped)
    (hpitch : 4 ≤ mapped.RowPitch) (himg : mapped.RowPitch ≤ 2147483648) :
    ∃ out ctx, tex.Readback pCtx 0 pDataOut = Except.ok (out, ctx)
      ∧ out 0 = (makebyte4 (round (scale 255 (saturate color)))).x
      ∧ out 1 = (makebyte4 (round (scale 255 (saturate color)))).y
      ∧ out 2 = (makebyte4 (round (scale 255 (saturate color)))).z
      ∧ out 3 = (makebyte4 (round (scale 255 (saturate color)))).w
      ∧ ∀ a : Int, (a < 0 ∨ 4 ≤ a) → out a = pDataOut a := by
  obtain ⟨hdims, hmips, hformat, _, t, srv, htex, _, _, _, hth, hml, has, _, _, htexels⟩ :=
    CreateTexture1x1_ok h
  have hmx : (CalculateMipDims2 tex.m_dims 0).x = 1 := by
    rw [hdims]
    exact CalculateMipDims_zero (le_refl 1)
  have hmy : (CalculateMipDims2 tex.m_dims 0).y = 1 := by
    rw [hdims]
    exact CalculateMipDims_zero (le_refl 1)
  have hbpp2 : BitsPerPixel tex.m_format = some 32 := by rw [hformat]; exact hbpp
  obtain ⟨out, ctx, hread, hframe, hrows⟩ :=
    (Texture2D_Readback_frame tex pCtx 0 pDataOut 32 mapped
      (by rw [htex]; rfl) (le_refl 0) (by rw [hmips]; decide) hbpp2 hmap).1
      (by rw [hmx]; omega) (by rw [hmx]; decide) (by rw [hmy]; omega)
  rw [hmx, hmy] at hrows hframe
  obtain ⟨staging, hstaging⟩ := Map2D_ok_some hmap
  have hlevel : uint 0 < t.desc.MipLevels * t.desc.ArraySize := by rw [hml, has]; decide
  obtain ⟨hst, _, hsh, _⟩ := Texture2D_ReadbackStaging_some htex hlevel hstaging
  have hheight : (staging.desc.Height : Int) = 1 := by
    rw [hsh, hmy]
    decide
  have hbyte : ∀ i : Int, 0 ≤ i → i < 4 →
      out i = stackArray [makebyte4 (round (scale 255 (saturate color)))] stack i := by
    intro i hi0 hi1
    have h1 := hrows 0 i (le_refl 0) (by decide) hi0 (by omega)
    have h2 := hcontract staging hstaging 0 i (le_refl 0) (by rw [hheight]; decide) hi0 hi1
    have h0 : uint (0 : Int) = 0 := by decide
    have e1 : (0 : Int) * (1 * 32 / 8) + i = i := by omega
    have e2 : (0 : Int) * 4 + i = i := by omega
    rw [e1] at h1
    rw [h1, h2, hst, h0, htexels, e2]
  obtain ⟨c0, c1, c2, c3⟩ :=
    stackArray_single (makebyte4 (round (scale 255 (saturate color)))) stack
  exact ⟨out, ctx, hread,
    (hbyte 0 (by decide) (by decide)).trans c0, (hbyte 1 (by decide) (by decide)).trans c1,
    (hbyte 2 (by decide) (by decide)).trans c2, (hbyte 3 (by decide) (by decide)).trans c3,
    fun a ha => hframe a (by omega)⟩

/-- C14: `CreateTexture1x1(color, format)`. The four bytes of the quantised
colour are `round(255 * clamp(c, 0, 1))` for the channels `c` in r, g, b, a
order, the product being the `float` product of the source, for every colour
without a NaN channel; that value lies in `0..255` for every channel that is not
NaN, is 0 for a channel below 0 and 255 for a channel above 1. Red,
`(1, 0, 0, 1)`, gives `(255, 0, 0, 255)`, and `(-2, 3, 0.7f, 0.9f)` gives
`(0, 255, 179, 230)`. On a device whose two creations succeed the call returns,
and a call that returns leaves a 1 by 1 texture with one mip level of the given
format whose pixel starts with those four bytes; `Texture2D::Readback` at level 0
of that texture, in a format of 32 bits per pixel and through a `Map` that keeps
its promise, returns exactly those four bytes: it writes them at the offsets 0 to
3 and leaves every other byte of the output as it was. -/
theorem create1x1_quantises_colour (pDevice : ID3D11Device) (color : rgba)
    (pTexOut : Texture2D) (format : DXGI_FORMAT) (stack : Memory) :
    (color.r ≠ float.nan → color.g ≠ float.nan → color.b ≠ float.nan →
      color.a ≠ float.nan →
      ((makebyte4 (round (scale 255 (saturate color)))).x.toNat : Int)
        = roundChannel (255 * clamp color.r 0 1)
      ∧ ((makebyte4 (round (scale 255 (saturate color)))).y.toNat : Int)
        = roundChannel (255 * clamp color.g 0 1)
      ∧ ((makebyte4 (round (scale 255 (saturate color)))).z.toNat : Int)
        = roundChannel (255 * clamp color.b 0 1)
      ∧ ((makebyte4 (round (scale 255 (saturate color)))).w.toNat : Int)
        = roundChannel (255 * clamp color.a 0 1))
    ∧ (∀ c : float, c ≠ float.nan →
        0 ≤ roundChannel (255 * clamp c 0 1) ∧ roundChannel (255 * clamp c 0 1) ≤ 255)
    ∧ (∀ c : float, (c.lt 0 = true → roundChannel (255 * clamp c 0 1) = 0)
        ∧ (float.lt 1 c = true → roundChannel (255 * clamp c 0 1) = 255))
    ∧ makebyte4 (round (scale 255 (saturate ⟨1, 0, 0, 1⟩))) = ⟨255, 0, 0, 255⟩
    ∧ makebyte4 (round (scale 255 (saturate sampleWide))) = ⟨0, 255, 179, 230⟩
    ∧ (pDevice.failing pDevice.nextId = false → pDevice.failing (pDevice.nextId + 1) = false →
        ∃ tex dev, CreateTexture1x1 pDevice color pTexOut format stack = Except.ok (tex, dev))
    ∧ (∀ tex dev, CreateTexture1x1 pDevice color pTexOut format stack = Except.ok (tex, dev) →
        tex.m_dims = ⟨1, 1⟩ ∧ tex.m_mipLevels = 1 ∧ tex.m_format = format
        ∧ (∃ t srv, tex.m_pTex = some t ∧ tex.m_pSrv = some srv ∧ srv.resource = t.id
            ∧ t.desc.Width = 1 ∧ t.desc.Height = 1
            ∧ t.desc.MipLevels = 1 ∧ t.desc.ArraySize = 1 ∧ t.desc.Format = format
            ∧ t.texels 0 0 0 = (makebyte4 (round (scale 255 (saturate color)))).x
            ∧ t.texels 0 0 1 = (makebyte4 (round (scale 255 (saturate color)))).y
            ∧ t.texels 0 0 2 = (makebyte4 (round (scale 255 (saturate color)))).z
            ∧ t.texels 0 0 3 = (makebyte4 (round (scale 255 (saturate color)))).w)
        ∧ (BitsPerPixel format = some 32 →
            ∀ (pCtx : ID3D11DeviceContext) (mapped : D3D11_MAPPED_SUBRESOURCE)
              (pDataOut : Memory),
            pCtx.Map2D (tex.ReadbackStaging pCtx 0).1 = (HRESULT.S_OK, mapped) →
            (∀ staging, (tex.ReadbackStaging pCtx 0).1 = some staging →
              MappedImageOf staging 4 mapped) →
            4 ≤ mapped.RowPitch → mapped.RowPitch ≤ 2147483648 →
            ∃ out ctx, tex.Readback pCtx 0 pDataOut = Except.ok (out, ctx)
              ∧ out 0 = (makebyte4 (round (scale 255 (saturate color)))).x
              ∧ out 1 = (makebyte4 (round (scale 255 (saturate color)))).y
              ∧ out 2 = (makebyte4 (round (scale 255 (saturate color)))).z
              ∧ out 3 = (makebyte4 (round (scale 255 (saturate color)))).w
              ∧ ∀ a : Int, (a < 0 ∨ 4 ≤ a) → out a = pDataOut a)) := by
  refine ⟨makebyte4_quantised color, quantise_bounds, quantise_outside, makebyte4_red,
    makebyte4_wide.1, CreateTexture1x1_returns pDevice color pTexOut format stack, ?_⟩
  intro tex dev h
  obtain ⟨hdims, hmips, hformat, _, t, srv, htex, hsrv, hres, hw, hh, hml, has, hfmt, _,
    htexels⟩ := CreateTexture1x1_ok h
  refine ⟨hdims, hmips, hformat,
    ⟨t, srv, htex, hsrv, hres, hw, hh, hml, has, hfmt, ?_, ?_, ?_, ?_⟩, ?_⟩
  · rw [htexels]; rfl
  · rw [htexels]; rfl
  · rw [htexels]; rfl
  · rw [htexels]; rfl
  · intro hbpp pCtx mapped pDataOut hmap hcontract hpitch himg
    exact CreateTexture1x1_readback h hbpp pCtx mapped pDataOut hmap hcontract hpitch himg

/-- Witness of C14: red in `R8G8B8A8_UNORM` on a device without failures, read
back through a row pitch of 256: the bytes of the quantised colour are its
quantised channels, the call returns, and the readback returns the bytes
`(255, 0, 0, 255)` and leaves the rest of the output as it was. -/
theorem create1x1_quantises_colour_witness :
    ((makebyte4 (round (scale 255 (saturate sampleRed)))).x.toNat : Int)
        = roundChannel (255 * clamp sampleRed.r 0 1)
    ∧ (∃ tex dev, CreateTexture1x1 sampleDevice sampleRed Texture2D.construct
        DXGI_FORMAT_R8G8B8A8_UNORM sampleStack = Except.ok (tex, dev))
    ∧ ∃ out ctx, sampleSolid.1.Readback (pitchedContext sampleSolid.2 256 256) 0 sampleStack
        = Except.ok (out, ctx)
      ∧ out 0 = 255 ∧ out 1 = 0 ∧ out 2 = 0 ∧ out 3 = 255
      ∧ ∀ a : Int, (a < 0 ∨ 4 ≤ a) → out a = sampleStack a := by
  have hq : makebyte4 (round (scale 255 (saturate sampleRed))) = ⟨255, 0, 0, 255⟩ :=
    (create1x1_quantises_colour sampleDevice sampleRed Texture2D.construct
      DXGI_FORMAT_R8G8B8A8_UNORM sampleStack).2.2.2.1
  refine ⟨((create1x1_quantises_colour sampleDevice sampleRed Texture2D.construct
      DXGI_FORMAT_R8G8B8A8_UNORM sampleStack).1 (by decide) (by decide) (by decide)
      (by decide)).1,
    (create1x1_quantises_colour sampleDevice sampleRed Texture2D.construct
      DXGI_FORMAT_R8G8B8A8_UNORM sampleStack).2.2.2.2.2.1 rfl rfl, ?_⟩
  obtain ⟨out, ctx, hr, h0, h1, h2, h3, hrest⟩ :=
    ((create1x1_quantises_colour sampleDevice sampleRed Texture2D.construct
      DXGI_FORMAT_R8G8B8A8_UNORM sampleStack).2.2.2.2.2.2 sampleSolid.1 sampleSolid.2
        rfl).2.2.2.2
      (by decide) (pitchedContext sampleSolid.2 256 256) sampleMappedSolid sampleStack rfl
      (fun staging hs => pitchedContext_contract sampleSolid.2 256 256 _ staging hs _ (by decide))
      (by decide) (by decide)
  rw [hq] at h0 h1 h2 h3
  exact ⟨out, ctx, hr, h0, h1, h2, h3, hrest⟩

/-! ## The solid-colour cube -/

/-- After its loop, the local array of `CreateTextureCube1x1` holds the
quantised colour six times. -/
theorem cubeColorBytes_eq (color : rgba) :
    cubeColorBytes color = List.replicate 6 (makebyte4 (round (scale 255 (saturate color)))) :=
  rfl

/-- The 24 bytes at the address of the local array of `CreateTextureCube1x1`:
byte `i` of element `k` is component `i` of the quantised colour. -/
theorem stackArray_cube (color : rgba) (stack : Memory) (k i : Int)
    (hk0 : 0 ≤ k) (hk1 : k < 6) (hi0 : 0 ≤ i) (hi1 : i < 4) :
    stackArray (cubeColorBytes color) stack (k * 4 + i)
      = (makebyte4 (round (scale 255 (saturate color)))).component i := by
  have hd : (k * 4 + i) / 4 = k ∧ (k * 4 + i) % 4 = i := by omega
  have hn : k.toNat < 6 := by omega
  rw [cubeColorBytes_eq]
  unfold stackArray
  rw [hd.1, hd.2]
  have hlen : (0 : Int) ≤ k * 4 + i ∧ k * 4 + i
      < 4 * ((List.replicate 6 (makebyte4 (round (scale 255 (saturate color))))).length : Int) := by
    rw [List.length_replicate]
    omega
  rw [if_pos hlen]
  have hget : (List.replicate 6 (makebyte4 (round (scale 255 (saturate color))))).get? k.toNat
      = some (makebyte4 (round (scale 255 (saturate color)))) := by
    rw [List.get?_eq_getElem?, List.getElem?_replicate, if_pos hn]
  rw [hget]

/-- What a successful `CreateTextureCube1x1` leaves in the output: a cube of
edge 1 with one mip level and six faces. Subresource 0 is read at the address of
the local array, at a pitch of 24 bytes; the call hands the device initial data
for no other subresource, whose content is what the device left there. -/
theorem CreateTextureCube1x1_ok {pDevice dev : ID3D11Device} {color : rgba}
    {format : DXGI_FORMAT} {stack : Memory} {pTexOut cube : TextureCube}
    (h : CreateTextureCube1x1 pDevice color pTexOut format stack = Except.ok (cube, dev)) :
    cube.m_cubeSize = 1 ∧ cube.m_mipLevels = 1 ∧ cube.m_format = format
    ∧ cube.m_pUav = pTexOut.m_pUav
    ∧ ∃ t srv, cube.m_pTex = some t ∧ cube.m_pSrv = some srv ∧ srv.resource = t.id
        ∧ t.desc.Width = 1 ∧ t.desc.Height = 1
        ∧ t.desc.MipLevels = 1 ∧ t.desc.ArraySize = 6 ∧ t.desc.Format = format
        ∧ t.desc.MiscFlags = D3D11_RESOURCE_MISC_TEXTURECUBE
        ∧ srv.desc.ViewDimension = D3D11_SRV_DIMENSION.D3D11_SRV_DIMENSION_TEXTURECUBE
        ∧ srv.desc.MipLevels = 1
        ∧ (∀ y i : Int, t.texels 0 y i = stackArray (cubeColorBytes color) stack (y * 24 + i))
        ∧ (∀ s : Nat, 1 ≤ s → ∀ y i : Int, t.texels s y i = pDevice.undefinedBytes s 0 y i) := by
  unfold CreateTextureCube1x1 at h
  simp only [bind, Except.bind, pure, Except.pure,
    ID3D11Device.CreateTexture2D, ID3D11Device.CreateShaderResourceView] at h
  cases hf1 : pDevice.failing pDevice.nextId
  · cases hf2 : pDevice.failing (pDevice.nextId + 1)
    · simp [hf1, hf2, CHECK_D3D, FAILED] at h
      obtain ⟨h1, _⟩ := h
      subst h1
      refine ⟨rfl, rfl, rfl, rfl, _, _, rfl, rfl, rfl, rfl, rfl, rfl, rfl, rfl, rfl, rfl, rfl,
        ?_, ?_⟩
      · intro y i
        rfl
      · intro s hs y i
        obtain ⟨k, rfl⟩ : ∃ k, s = k + 1 := ⟨s - 1, by omega⟩
        rfl
    · simp [hf1, hf2, CHECK_D3D, FAILED] at h
  · simp [hf1, CHECK_D3D, FAILED] at h

/-- On a device whose next two creations succeed, `CreateTextureCube1x1`
returns. -/
theorem CreateTextureCube1x1_returns (pDevice : ID3D11Device) (color : rgba)
    (pTexOut : TextureCube) (format : DXGI_FORMAT) (stack : Memory)
    (hf1 : pDevice.failing pDevice.nextId = false)
    (hf2 : pDevice.failing (pDevice.nextId + 1) = false) :
    ∃ cube dev, CreateTextureCube1x1 pDevice color pTexOut format stack
      = Except.ok (cube, dev) := by
  unfold CreateTextureCube1x1
  simp [bind, Except.bind, pure, Except.pure, ID3D11Device.CreateTexture2D,
    ID3D11Device.CreateShaderResourceView, hf1, hf2, CHECK_D3D, FAILED]

/-- On a device whose next creation succeeds, the staging texture of
`TextureCube::Readback` exists. -/
theorem TextureCube_ReadbackStaging_exists (self : TextureCube) (pCtx : ID3D11DeviceContext)
    (face level : Int) (t : ID3D11Texture2D) (htex : self.m_pTex = some t)
    (hf : pCtx.device.failing pCtx.device.nextId = false) :
    ∃ staging, (self.ReadbackStaging pCtx face level).1 = some staging := by
  unfold TextureCube.ReadbackStaging
  simp only [ID3D11Device.CreateTexture2D, htex, hf, CopySubresourceRegion2D]
  by_cases hsub : self.ReadbackSubresource face level < t.desc.MipLevels * t.desc.ArraySize
  · simp [hsub]
  · simp [hsub]

/-- On an existing staging texture `Map` of `pitchedContext` succeeds. -/
theorem pitchedContext_Map2D (pDevice : ID3D11Device) (pitch slicePitch : Nat)
    (p : Option ID3D11Texture2D) (staging : ID3D11Texture2D) (hp : p = some staging) :
    (pitchedContext pDevice pitch slicePitch).Map2D p
      = (HRESULT.S_OK, ((pitchedContext pDevice pitch slicePitch).Map2D p).2) := by
  subst hp
  rfl

/-- The readback of a face of the cube of a successful `CreateTextureCube1x1`,
in a format of 32 bits per pixel, through `pitchedContext` on a device whose
next creation succeeds: face 0 returns the four bytes of the quantised colour,
every other face returns the four bytes the device left in its subresource. -/
theorem CreateTextureCube1x1_readback {pDevice dev : ID3D11Device} {color : rgba}
    {format : DXGI_FORMAT} {stack : Memory} {pTexOut cube : TextureCube}
    (h : CreateTextureCube1x1 pDevice color pTexOut format stack = Except.ok (cube, dev))
    (hbpp : BitsPerPixel format = some 32) (hf : dev.failing dev.nextId = false)
    (pDataOut : Memory) (face : Int) (hf0 : 0 ≤ face) (hf1 : face < 6) :
    ∃ out ctx, cube.Readback (pitchedContext dev 256 256) face 0 pDataOut = Except.ok (out, ctx)
      ∧ (face = 0 → ∀ i : Int, 0 ≤ i → i < 4 →
          out i = (makebyte4 (round (scale 255 (saturate color)))).component i)
      ∧ (1 ≤ face → ∀ i : Int, 0 ≤ i → i < 4 →
          out i = pDevice.undefinedBytes face.toNat 0 0 i) := by
  obtain ⟨hsize, hmips, hformat, _, t, srv, htex, _, _, _, _, hml, has, _, _, _, _, hzero,
    hrest⟩ := CreateTextureCube1x1_ok h
  have hdim : CalculateMipDims cube.m_cubeSize 0 = 1 := by
    rw [hsize]
    exact CalculateMipDims_zero (le_refl 1)
  have hbpp2 : BitsPerPixel cube.m_format = some 32 := by rw [hformat]; exact hbpp
  obtain ⟨staging, hstaging⟩ :=
    TextureCube_ReadbackStaging_exists cube (pitchedContext dev 256 256) face 0 t htex hf
  have hmap := pitchedContext_Map2D dev 256 256 _ staging hstaging
  obtain ⟨out, ctx, hread, hrows⟩ := TextureCube_Readback_content cube t face 0 htex
    (by rw [hml, hmips]; rfl) has (by rw [hmips]; decide) hf0 hf1 (le_refl 0)
    (by rw [hmips]; decide) (pitchedContext dev 256 256) pDataOut 32
    ((pitchedContext dev 256 256).Map2D
      (cube.ReadbackStaging (pitchedContext dev 256 256) face 0).1).2 hbpp2 hmap
    (fun st hs => pitchedContext_contract dev 256 256 _ st hs _ (by rw [hdim]; decide))
    (by rw [hdim, hstaging]; exact (by decide : (1 : Int) * 32 / 8 ≤ ((256 : Nat) : Int)))
    (by rw [hdim]; decide)
    (by rw [hdim, hstaging]; exact (by decide : (1 : Int) * ((256 : Nat) : Int) ≤ 2147483648))
  rw [hdim, hmips] at hrows
  have hbyte : ∀ i : Int, 0 ≤ i → i < 4 → out i = t.texels face.toNat 0 i := by
    intro i hi0 hi1
    have h1 := hrows 0 i (le_refl 0) (by decide) hi0 (by omega)
    have e1 : (0 : Int) * (1 * 32 / 8) + i = i := by omega
    have e2 : face * 1 + 0 = face := by omega
    rw [e1, e2] at h1
    exact h1
  refine ⟨out, ctx, hread, ?_, ?_⟩
  · intro hface i hi0 hi1
    rw [hbyte i hi0 hi1, hface]
    show t.texels 0 0 i = _
    rw [hzero]
    have := stackArray_cube color stack 0 i (le_refl 0) (by decide) hi0 hi1
    have e : (0 : Int) * 24 + i = 0 * 4 + i := by omega
    rw [e]
    exact this
  · intro hface i hi0 hi1
    rw [hbyte i hi0 hi1]
    exact hrest face.toNat (by omega) 0 i

/-- C15, on the code: `CreateTextureCube1x1` for red, `(1, 0, 0, 1)`, in
`R8G8B8A8_UNORM` on a device without failures that leaves zero bytes in a
subresource without initial data. The call returns a cube of six faces and one
mip level; the quantised colour is `(255, 0, 0, 255)`. `TextureCube::Readback`
of face 0 at level 0 returns that colour, and of each of the faces 1 to 5 it
returns the bytes `(0, 0, 0, 0)` the device left there, not the colour: the call
hands `CreateTexture2D` initial data for subresource 0 only. -/
theorem cube1x1_fills_one_face :
    CreateTextureCube1x1 sampleDevice sampleRed TextureCube.construct
        DXGI_FORMAT_R8G8B8A8_UNORM sampleStack = Except.ok sampleSolidCube
    ∧ makebyte4 (round (scale 255 (saturate sampleRed))) = ⟨255, 0, 0, 255⟩
    ∧ (∃ t, sampleSolidCube.1.m_pTex = some t ∧ t.desc.ArraySize = 6 ∧ t.desc.MipLevels = 1
        ∧ sampleSolidCube.1.m_cubeSize = 1 ∧ sampleSolidCube.1.m_mipLevels = 1)
    ∧ (∃ out ctx, sampleSolidCube.1.Readback (pitchedContext sampleSolidCube.2 256 256) 0 0
          sampleStack = Except.ok (out, ctx)
        ∧ out 0 = 255 ∧ out 1 = 0 ∧ out 2 = 0 ∧ out 3 = 255)
    ∧ (∀ f : Fin 5, ∃ out ctx,
        sampleSolidCube.1.Readback (pitchedContext sampleSolidCube.2 256 256)
          ((f.val : Int) + 1) 0 sampleStack = Except.ok (out, ctx)
        ∧ out 0 = 0 ∧ out 1 = 0 ∧ out 2 = 0 ∧ out 3 = 0
        ∧ (out 0, out 1, out 2, out 3) ≠ (255, 0, 0, 255)) := by
  have hcreate : CreateTextureCube1x1 sampleDevice sampleRed TextureCube.construct
      DXGI_FORMAT_R8G8B8A8_UNORM sampleStack
        = Except.ok (sampleSolidCube.1, sampleSolidCube.2) := rfl
  have hq : makebyte4 (round (scale 255 (saturate sampleRed))) = ⟨255, 0, 0, 255⟩ :=
    makebyte4_red
  have hbpp : BitsPerPixel DXGI_FORMAT_R8G8B8A8_UNORM = some 32 := by decide
  have hf : sampleSolidCube.2.failing sampleSolidCube.2.nextId = false := rfl
  refine ⟨rfl, hq, ⟨_, rfl, rfl, rfl, rfl, rfl⟩, ?_, ?_⟩
  · obtain ⟨out, ctx, hread, hzero, _⟩ :=
      CreateTextureCube1x1_readback hcreate hbpp hf sampleStack 0 (le_refl 0) (by decide)
    rw [hq] at hzero
    exact ⟨out, ctx, hread, hzero rfl 0 (by decide) (by decide),
      hzero rfl 1 (by decide) (by decide), hzero rfl 2 (by decide) (by decide),
      hzero rfl 3 (by decide) (by decide)⟩
  · intro f
    obtain ⟨out, ctx, hread, _, hrest⟩ :=
      CreateTextureCube1x1_readback hcreate hbpp hf sampleStack ((f.val : Int) + 1)
        (by omega) (by omega)
    have h0 : out 0 = 0 := hrest (by omega) 0 (by decide) (by decide)
    have h1 : out 1 = 0 := hrest (by omega) 1 (by decide) (by decide)
    have h2 : out 2 = 0 := hrest (by omega) 2 (by decide) (by decide)
    have h3 : out 3 = 0 := hrest (by omega) 3 (by decide) (by decide)
    refine ⟨out, ctx, hread, h0, h1, h2, h3, ?_⟩
    rw [h0, h1, h2, h3]
    decide


end Framework
